import Mathlib

/-!
Verification development for the stealth-reader text-to-pseudocode engine
(`src/lib/services/codeifier.ts`).

The engine is shallowly embedded: JavaScript strings are modelled as
`List Char` (`Str`), the mutable `Codeifier` instance state as an explicit
`EngineState` record threaded through every operation, and `Math.random()`
as an oracle `rng : Nat -> Rat` consumed at an explicit position counter
(each call of the oracle reads `rng pos` and increments `pos`, mirroring
one `Math.random()` call).  Floating point literals of the source
(`0.7`, `0.9`, `0.6`, ...) are modelled as exact rationals (`0.9 * n`
comparisons against integers are written with both sides scaled by 10).
`String.prototype.trim` is modelled over the ASCII whitespace characters,
and `toLowerCase`/`toUpperCase` with `Char.toLower`/`Char.toUpper`.
-/

namespace Codeifier

/-- JavaScript strings are modelled as lists of characters. -/
abbrev Str := List Char

/-- Whitespace test matching the JS `\s` class / `String.prototype.trim`
    on the character repertoire exercised here (ASCII). -/
def isWs (c : Char) : Bool :=
  c = ' ' || c = '\t' || c = '\n' || c = '\r' || c = '\x0b' || c = '\x0c'

/-- `String.prototype.trim`: strip whitespace from both ends. -/
def trim (l : Str) : Str :=
  ((l.dropWhile isWs).reverse.dropWhile isWs).reverse

/-- `text.replace(/"/g, '\\"').replace(/\n/g, "\\n")` — the two global
    replaces compose into one character-wise expansion because the first
    introduces no `\n` and the second no `"`. -/
def escapeString (l : Str) : Str :=
  l.flatMap fun c =>
    if c = '"' then ['\\', '"'] else if c = '\n' then ['\\', 'n'] else [c]

/-- Helper for splitting on a single separator character (JS
    `String.prototype.split` with a one-character separator: every
    occurrence separates, empty pieces are kept). -/
def splitOnCharGo (sep : Char) : Str → Str → List Str
  | [], acc => [acc.reverse]
  | c :: cs, acc =>
      if c = sep then acc.reverse :: splitOnCharGo sep cs []
      else splitOnCharGo sep cs (c :: acc)

/-- `text.split(/\n/)`. -/
def splitOnNl (l : Str) : List Str := splitOnCharGo '\n' l []

/-- `text.split("|")`. -/
def splitOnPipe (l : Str) : List Str := splitOnCharGo '|' l []

/-- Sentence-terminating punctuation of `SENTENCE_SPLIT = /[^.!?]+[.!?]+/g`. -/
def isSentPunct (c : Char) : Bool := c = '.' || c = '!' || c = '?'

/-- `dropWhile` never lengthens a list. -/
theorem length_dropWhile_le' (p : Char → Bool) (l : Str) :
    (l.dropWhile p).length ≤ l.length := by
  induction l with
  | nil => simp
  | cons c cs ih => by_cases h : p c <;> simp [List.dropWhile, h] <;> omega

/-- All matches of `text.match(/[^.!?]+[.!?]+/g)`: maximal runs of
    non-terminator characters followed by a maximal run of terminators;
    unmatched leading terminators and an unterminated tail are skipped,
    exactly as the regex engine does. -/
def sentencesGo : Nat → Str → List Str
  | 0, _ => []
  | fuel + 1, l =>
    match l.dropWhile isSentPunct with
    | [] => []
    | c :: cs =>
      let body := cs.takeWhile (fun d => !isSentPunct d)
      let rest := cs.drop body.length
      let stop := rest.takeWhile isSentPunct
      if stop = [] then []
      else ((c :: body) ++ stop) :: sentencesGo fuel (rest.drop stop.length)

/-- Entry point for the sentence matcher.  Each match consumes at least
    one character, so `l.length + 1` steps of fuel always suffice; the
    structural fuel keeps the scanner kernel-computable. -/
def sentencesOf (l : Str) : List Str := sentencesGo (l.length + 1) l

/-- The image-marker head of `imageRegex = /\[IMAGEM:([^\]]+)\]/g`. -/
def imagemMarker : Str := "[IMAGEM:".data

/-- Worker for `text.split(imageRegex)`: scans left to right; at the
    leftmost position where `[IMAGEM:` is followed by at least one
    non-`]` character and a closing `]`, the preceding text, the capture
    and the recursively split remainder are emitted.  With no match the
    whole input is returned as a single piece, as JS `split` does. -/
def splitImagemAux : Nat → Str → Str → List Str
  | 0, acc, l => [acc.reverse ++ l]
  | _ + 1, acc, [] => [acc.reverse]
  | fuel + 1, acc, c :: cs =>
      if imagemMarker.isPrefixOf (c :: cs) then
        let t := (c :: cs).drop 8
        let cap := t.takeWhile (fun d => d ≠ ']')
        if cap.length ≠ 0 ∧ cap.length < t.length then
          acc.reverse :: cap :: splitImagemAux fuel [] (t.drop (cap.length + 1))
        else splitImagemAux fuel (c :: acc) cs
      else splitImagemAux fuel (c :: acc) cs

/-- `text.split(imageRegex)` with the capture group interleaved.  Every
    scanner step consumes at least one character, so `l.length + 1` steps
    of structural fuel always suffice and keep it kernel-computable. -/
def splitImagem (l : Str) : List Str := splitImagemAux (l.length + 1) [] l

/-- JS `hay.substring(0, n).lastIndexOf(pat)`-style search over a full
    haystack: the greatest start index where `pat` occurs, `-1` if none. -/
def lastIndexOfPat (hay pat : Str) : Int :=
  match ((List.range (hay.length + 1)).filter
      (fun i => pat.isPrefixOf (hay.drop i))).getLast? with
  | some i => (i : Int)
  | none => -1

/-- `MAX_LINE_LENGTH`. -/
def MAX_LINE_LENGTH : Nat := 100

/-- `SOFT_LINE_LENGTH`. -/
def SOFT_LINE_LENGTH : Nat := 80

/-- Break-point selection of one `breakLines` loop iteration.  The float
    threshold tests `idx > maxLength * 0.6`, `* 0.7`, `* 0.8` are modelled
    exactly by cross-multiplication over the integers.  Note the source
    bug kept intact: `lastIndexOf(/[.!?]\s/.source)` searches for the
    literal seven-character text `[.!?]\s`, not for the regex. -/
def chooseBreakPoint (remaining : Str) (maxLength : Nat) : Nat :=
  if 3 * (maxLength : Int) < 5 * lastIndexOfPat (remaining.take maxLength) "[.!?]\\s".data then
    (lastIndexOfPat (remaining.take maxLength) "[.!?]\\s".data + 2).toNat
  else if 7 * (maxLength : Int) < 10 * lastIndexOfPat (remaining.take maxLength) ", ".data then
    (lastIndexOfPat (remaining.take maxLength) ", ".data + 1).toNat
  else if 4 * (maxLength : Int) < 5 * lastIndexOfPat (remaining.take maxLength) " ".data then
    (lastIndexOfPat (remaining.take maxLength) " ".data).toNat
  else maxLength

/-- A found occurrence ends within the haystack. -/
theorem lastIndexOfPat_add_le (hay pat : Str) (h : 0 ≤ lastIndexOfPat hay pat) :
    lastIndexOfPat hay pat + pat.length ≤ (hay.length : Int) := by
  unfold lastIndexOfPat at h ⊢
  set fl := (List.range (hay.length + 1)).filter
      (fun i => pat.isPrefixOf (hay.drop i)) with hfl
  match hlast : fl.getLast? with
  | none =>
      rw [hlast] at h
      have hneg : (0 : Int) ≤ -1 := h
      omega
  | some j =>
      show (j : Int) + pat.length ≤ (hay.length : Int)
      have hmem : j ∈ fl := List.mem_of_mem_getLast? hlast
      rw [hfl, List.mem_filter] at hmem
      have hpre : pat.isPrefixOf (hay.drop j) = true := hmem.2
      have hlen := (List.isPrefixOf_iff_prefix.mp hpre).length_le
      simp only [List.length_drop] at hlen
      have hjr : j < hay.length + 1 := by
        have hr := hmem.1; simpa [List.mem_range] using hr
      omega

/-- `trim` never lengthens a list. -/
theorem trim_length_le (l : Str) : (trim l).length ≤ l.length := by
  unfold trim
  have h1 := length_dropWhile_le' isWs l
  have h2 := length_dropWhile_le' isWs (l.dropWhile isWs).reverse
  simp only [List.length_reverse] at h2 ⊢
  omega

/-- The chosen break point never exceeds `maxLength`. -/
theorem chooseBreakPoint_le (remaining : Str) (maxLength : Nat) :
    chooseBreakPoint remaining maxLength ≤ maxLength := by
  unfold chooseBreakPoint
  have hwin : (remaining.take maxLength).length ≤ maxLength := by
    simp [List.length_take]
  have hwin' : ((remaining.take maxLength).length : Int) ≤ (maxLength : Int) := by
    exact_mod_cast hwin
  split_ifs with h1 h2 h3
  · have hse0 : 0 ≤ lastIndexOfPat (remaining.take maxLength) "[.!?]\\s".data := by
      omega
    have hb := lastIndexOfPat_add_le (remaining.take maxLength) "[.!?]\\s".data hse0
    have hp : (("[.!?]\\s".data : Str).length : Int) = 7 := by decide
    rw [hp] at hb
    rw [Int.toNat_le]
    omega
  · have hse0 : 0 ≤ lastIndexOfPat (remaining.take maxLength) ", ".data := by
      omega
    have hb := lastIndexOfPat_add_le (remaining.take maxLength) ", ".data hse0
    have hp : ((", ".data : Str).length : Int) = 2 := by decide
    rw [hp] at hb
    rw [Int.toNat_le]
    omega
  · have hse0 : 0 ≤ lastIndexOfPat (remaining.take maxLength) " ".data := by
      omega
    have hb := lastIndexOfPat_add_le (remaining.take maxLength) " ".data hse0
    have hp : ((" ".data : Str).length : Int) = 1 := by decide
    rw [hp] at hb
    rw [Int.toNat_le]
    omega
  · exact le_refl _

/-- With a positive width the chosen break point is at least `1`:
    every loop iteration of `breakLines` consumes at least one character. -/
theorem chooseBreakPoint_pos (remaining : Str) (maxLength : Nat)
    (h : 1 ≤ maxLength) : 1 ≤ chooseBreakPoint remaining maxLength := by
  unfold chooseBreakPoint
  split_ifs with h1 h2 h3
  · omega
  · omega
  · omega
  · exact h

/-- Loop of `breakLines`, with structural fuel.  With a positive width
    each iteration consumes at least one character (the break point is at
    least one), so `text.length` steps of fuel always suffice; the JS
    loop would not terminate at width `0`, and exhausted fuel totalises
    that unreachable case (the source's call sites all pass widths of at
    least 50). -/
def blLoop : Nat → Nat → Str → List Str
  | 0, _, remaining => [remaining]
  | fuel + 1, maxLength, remaining =>
    if remaining.length = 0 then []
    else if remaining.length ≤ maxLength then [remaining]
    else
      trim (remaining.take (chooseBreakPoint remaining maxLength)) ::
        blLoop fuel maxLength (trim (remaining.drop (chooseBreakPoint remaining maxLength)))

/-- `breakLines(text, maxLength)` — "smart line breaking". -/
def breakLines (text : Str) (maxLength : Nat) : List Str :=
  if text.length ≤ maxLength then [text] else blLoop text.length maxLength text

/-- `splitParagraphIntoCodeBlocks`: the chunk segmenter, including the
    90%-reconstruction check (`total < trimmed.length * 0.9` is modelled
    exactly as `10 * total < 9 * trimmed.length`). -/
def splitParagraphIntoCodeBlocks (text : Str) : List Str :=
  let sentences := match sentencesOf text with
    | [] => [text]
    | ss => ss
  if text.length ≤ 300 then [text]
  else
    let targetChunkSize := 200
    let acc := sentences.foldl (fun (p : List Str × Str) sentence =>
      let potentialChunk := p.2 ++ sentence
      if potentialChunk.length > targetChunkSize ∧ p.2.length > 50 then
        (p.1 ++ [trim p.2], sentence)
      else (p.1, potentialChunk)) ([], [])
    let chunks := if trim acc.2 ≠ [] then acc.1 ++ [trim acc.2] else acc.1
    let chunks := if chunks = [] ∧ trim text ≠ [] then [trim text] else chunks
    let trimmed := trim text
    let totalChunkLength := (chunks.map List.length).sum
    if 10 * totalChunkLength < 9 * trimmed.length then [trimmed]
    else chunks.filter (fun c => c.length > 0)

/-- Does the list start with the given character? -/
def startsWithCh (l : Str) (c : Char) : Bool :=
  match l with
  | [] => false
  | d :: _ => d = c

/-- Lowercasing (`String.prototype.toLowerCase`, modelled with
    `Char.toLower`, faithful on the ASCII repertoire). -/
def lowerStr (l : Str) : Str := l.map Char.toLower

/-- `isDialogue`: `QUOTE_START` is the regex `^[""]` (a character class
    holding just the plain double quote), `DASH_START` is `^-`,
    `EM_DASH_START` is `^—`, and the final test is the regex
    `^“|”|['"']` — only its `“` alternative is anchored, so a `”`,
    `'` or `"` anywhere in the text matches. -/
def isDialogue (text : Str) : Bool :=
  startsWithCh text '"'
  || startsWithCh text '-'
  || startsWithCh text '—'
  || (startsWithCh text '“' || text.contains '”'
      || text.contains '\'' || text.contains '"')

/-- `/^\d+\./` — one or more digits followed by a period. -/
def startsWithDigitsDot (l : Str) : Bool :=
  (l.takeWhile Char.isDigit).length ≠ 0
    && startsWithCh (l.drop (l.takeWhile Char.isDigit).length) '.'

/-- `/[,;] e |[,;] ou /` — a comma or semicolon followed by the literal
    text `" e "` or `" ou "` anywhere in the string. -/
def containsListConj : Str → Bool
  | [] => false
  | c :: cs =>
      ((c = ',' || c = ';')
        && (" e ".data.isPrefixOf cs || " ou ".data.isPrefixOf cs))
      || containsListConj cs

/-- `isListItem`: `/^\d+\.|^[-*+]|^•/.test(text) || /[,;] e |[,;] ou /.test(text)`. -/
def isListItem (text : Str) : Bool :=
  (startsWithDigitsDot text || startsWithCh text '-' || startsWithCh text '*'
    || startsWithCh text '+' || startsWithCh text '•')
  || containsListConj text

/-- `isQuestion`: `/[?!]$/.test(text) || /^Como|^Por que|^Quando|^Onde|^Quem|^Qual/i.test(text)`. -/
def isQuestion (text : Str) : Bool :=
  (match text.getLast? with
    | some c => c = '?' || c = '!'
    | none => false)
  || "como".data.isPrefixOf (lowerStr text)
  || "por que".data.isPrefixOf (lowerStr text)
  || "quando".data.isPrefixOf (lowerStr text)
  || "onde".data.isPrefixOf (lowerStr text)
  || "quem".data.isPrefixOf (lowerStr text)
  || "qual".data.isPrefixOf (lowerStr text)

/-- The keyword categories extracted per chunk. -/
structure Keywords where
  nouns : List Str
  verbs : List Str
  properNouns : List Str
  allWords : List Str

/-- The JS `\w` class: `[A-Za-z0-9_]`. -/
def isWordChar (c : Char) : Bool :=
  ('a' ≤ c && c ≤ 'z') || ('A' ≤ c && c ≤ 'Z') || ('0' ≤ c && c ≤ '9') || c = '_'

/-- `text.replace(/[^\w\s]/g, ' ')`. -/
def replaceNonWordWithSpace (l : Str) : Str :=
  l.map fun c => if isWordChar c || isWs c then c else ' '

/-- Worker for `text.split(/\s+/)`: every maximal whitespace run
    separates, so a leading or trailing run produces an empty piece,
    as the JS primitive does. -/
def splitWsPlusGo : Nat → Str → Str → List Str
  | 0, acc, l => [acc.reverse ++ l]
  | _ + 1, acc, [] => [acc.reverse]
  | fuel + 1, acc, c :: cs =>
      if isWs c then acc.reverse :: splitWsPlusGo fuel [] (cs.dropWhile isWs)
      else splitWsPlusGo fuel (c :: acc) cs

/-- `text.split(/\s+/)`.  Each step consumes at least one character, so
    `l.length + 1` steps of structural fuel always suffice. -/
def splitWsPlus (l : Str) : List Str := splitWsPlusGo (l.length + 1) [] l

/-- First-seen-order deduplication, JS `[...new Set(xs)]`. -/
def dedupFirst (l : List Str) : List Str :=
  l.foldl (fun acc x => if x ∈ acc then acc else acc ++ [x]) []

/-- The `/^[A-ZÁÉÍÓÚÂÊÔÇ]/` proper-noun head test. -/
def startsWithUpper (w : Str) : Bool :=
  match w with
  | [] => false
  | c :: _ =>
      ('A' ≤ c && c ≤ 'Z') || c = 'Á' || c = 'É' || c = 'Í' || c = 'Ó'
        || c = 'Ú' || c = 'Â' || c = 'Ê' || c = 'Ô' || c = 'Ç'

/-- The alternatives of the curated `verbPatterns` regex (each `\b`-delimited
    alternative can only match a whole lowercase token, so the regex test on a
    token is exactly list membership; duplicates of the source are kept). -/
def verbPatternList : List Str := [
  "ser".data, "estar".data, "ter".data, "fazer".data, "dizer".data, "ir".data, "ver".data,
  "saber".data, "querer".data, "poder".data, "dar".data, "vir".data, "passar".data, "ficar".data,
  "deixar".data, "começar".data, "acabar".data, "voltar".data, "encontrar".data, "pensar".data,
  "olhar".data, "ouvir".data, "falar".data, "trabalhar".data, "viver".data, "morrer".data,
  "nascer".data, "chegar".data, "sair".data, "entrar".data, "subir".data, "descer".data,
  "abrir".data, "fechar".data, "pegar".data, "largar".data, "correr".data, "andar".data,
  "caminhar".data, "sentar".data, "levantar".data, "dormir".data, "acordar".data, "comer".data,
  "beber".data, "escrever".data, "ler".data, "aprender".data, "ensinar".data, "ajudar".data,
  "precisar".data, "gostar".data, "amar".data, "odiar".data, "esquecer".data, "lembrar".data,
  "conhecer".data, "encontrar".data, "perder".data, "ganhar".data, "comprar".data, "vender".data,
  "pagar".data, "receber".data, "esperar".data, "chegar".data, "partir".data, "voltar".data,
  "continuar".data, "parar".data, "começar".data, "terminar".data, "acabar".data, "ficar".data,
  "deixar".data, "permitir".data, "proibir".data, "obrigar".data, "forçar".data,
  "conseguir".data, "tentar".data, "provar".data, "testar".data, "mostrar".data, "esconder".data,
  "procurar".data, "achar".data, "encontrar".data, "perder".data, "ganhar".data, "vencer".data,
  "perder".data, "jogar".data, "brincar".data, "rir".data, "chorar".data, "sorrir".data,
  "chorar".data, "gritar".data, "falar".data, "calar".data, "ouvir".data, "escutar".data,
  "ver".data, "olhar".data, "observar".data, "notar".data, "perceber".data, "sentir".data,
  "tocar".data, "pegar".data, "largar".data, "segurar".data, "soltar".data, "empurrar".data,
  "puxar".data, "levantar".data, "abaixar".data, "subir".data, "descer".data, "entrar".data,
  "sair".data, "chegar".data, "partir".data, "voltar".data, "ir".data, "vir".data, "ficar".data,
  "permanecer".data, "continuar".data, "parar".data, "começar".data, "terminar".data,
  "acabar".data]

/-- The alternatives of the curated `nounPatterns` regex. -/
def nounPatternList : List Str := [
  "sol".data, "lua".data, "estrela".data, "mar".data, "rio".data, "montanha".data, "vila".data,
  "cidade".data, "rua".data, "casa".data, "porta".data, "janela".data, "mesa".data,
  "cadeira".data, "livro".data, "papel".data, "caneta".data, "lápis".data, "gente".data,
  "pessoa".data, "homem".data, "mulher".data, "criança".data, "velho".data, "jovem".data,
  "amigo".data, "inimigo".data, "família".data, "mãe".data, "pai".data, "filho".data,
  "filha".data, "irmão".data, "irmã".data, "avô".data, "avó".data, "tio".data, "tia".data,
  "primo".data, "prima".data, "vizinho".data, "vizinha".data, "professor".data,
  "professora".data, "aluno".data, "aluna".data, "médico".data, "médica".data, "enfermeiro".data,
  "enfermeira".data, "advogado".data, "advogada".data, "engenheiro".data, "engenheira".data,
  "arquiteto".data, "arquiteta".data, "artista".data, "músico".data, "música".data,
  "pintor".data, "pintora".data, "escritor".data, "escritora".data, "poeta".data, "poetisa".data,
  "ator".data, "atriz".data, "diretor".data, "diretora".data, "chef".data, "cozinheiro".data,
  "cozinheira".data, "garçom".data, "garçonete".data, "vendedor".data, "vendedora".data,
  "comprador".data, "compradora".data, "cliente".data, "fornecedor".data, "fornecedora".data,
  "empregado".data, "empregada".data, "patrão".data, "patroa".data, "chefe".data,
  "funcionário".data, "funcionária".data, "trabalhador".data, "trabalhadora".data,
  "operário".data, "operária".data, "mecânico".data, "mecânica".data, "eletricista".data,
  "carpinteiro".data, "carpinteira".data, "pedreiro".data, "pedreira".data, "pintor".data,
  "pintora".data, "jardineiro".data, "jardineira".data, "faxineiro".data, "faxineira".data,
  "segurança".data, "porteiro".data, "porteira".data, "recepcionista".data, "secretário".data,
  "secretária".data, "assistente".data, "gerente".data, "supervisor".data, "supervisora".data,
  "diretor".data, "diretora".data, "presidente".data, "vice-presidente".data, "ministro".data,
  "ministra".data, "governador".data, "governadora".data, "prefeito".data, "prefeita".data,
  "vereador".data, "vereadora".data, "deputado".data, "deputada".data, "senador".data,
  "senadora".data, "juiz".data, "juíza".data, "promotor".data, "promotora".data, "delegado".data,
  "delegada".data, "policial".data, "bombeiro".data, "bombeira".data, "soldado".data,
  "sargento".data, "capitão".data, "major".data, "coronel".data, "general".data,
  "almirante".data, "comandante".data, "tenente".data, "subtenente".data, "cabo".data,
  "soldado".data, "recruta".data, "veterano".data, "veterana".data, "guerreiro".data,
  "guerreira".data, "herói".data, "heroína".data, "vilão".data, "vilã".data, "príncipe".data,
  "princesa".data, "rei".data, "rainha".data, "imperador".data, "imperatriz".data, "nobre".data,
  "nobreza".data, "plebeu".data, "plebeia".data, "escravo".data, "escrava".data, "servo".data,
  "serva".data, "criado".data, "criada".data, "mordomo".data, "mordoma".data, "aia".data,
  "dama".data, "donzela".data, "cavaleiro".data, "dama".data, "senhor".data, "senhora".data,
  "senhorita".data, "moço".data, "moça".data, "rapaz".data, "garota".data, "menino".data,
  "menina".data, "bebê".data, "recém-nascido".data, "recém-nascida".data, "criança".data,
  "adolescente".data, "jovem".data, "adulto".data, "adulta".data, "idoso".data, "idosa".data,
  "velho".data, "velha".data, "ancião".data, "anciã".data, "morto".data, "morta".data,
  "vivo".data, "viva".data, "nascido".data, "nascida".data, "casado".data, "casada".data,
  "solteiro".data, "solteira".data, "divorciado".data, "divorciada".data, "viúvo".data,
  "viúva".data, "noivo".data, "noiva".data, "esposo".data, "esposa".data, "marido".data,
  "mulher".data, "namorado".data, "namorada".data, "amante".data, "amigo".data, "amiga".data,
  "inimigo".data, "inimiga".data, "rival".data, "concorrente".data, "competidor".data,
  "competidora".data, "aliado".data, "aliada".data, "parceiro".data, "parceira".data,
  "sócio".data, "sócia".data, "colaborador".data, "colaboradora".data, "colegas".data,
  "companheiro".data, "companheira".data, "camarada".data, "colega".data, "vizinho".data,
  "vizinha".data, "morador".data, "moradora".data, "habitante".data, "residente".data,
  "hóspede".data, "visitante".data, "turista".data, "viajante".data, "passageiro".data,
  "passageira".data, "motorista".data, "condutor".data, "condutora".data, "piloto".data,
  "copiloto".data, "navegador".data, "navegadora".data, "guia".data, "turista".data,
  "explorador".data, "exploradora".data, "aventureiro".data, "aventureira".data,
  "desbravador".data, "desbravadora".data, "pioneiro".data, "pioneira".data, "colonizador".data,
  "colonizadora".data, "conquistador".data, "conquistadora".data, "invasor".data,
  "invasora".data, "defensor".data, "defensora".data, "protetor".data, "protetora".data,
  "guardião".data, "guardiã".data, "vigia".data, "sentinela".data, "vigilante".data,
  "observador".data, "observadora".data, "espectador".data, "espectadora".data, "ouvinte".data,
  "testemunha".data, "vítima".data, "sobrevivente".data, "refugiado".data, "refugiada".data,
  "imigrante".data, "emigrante".data, "nativo".data, "nativa".data, "estrangeiro".data,
  "estrangeira".data, "turista".data, "viajante".data, "explorador".data, "exploradora".data,
  "aventureiro".data, "aventureira".data, "desbravador".data, "desbravadora".data,
  "pioneiro".data, "pioneira".data, "colonizador".data, "colonizadora".data, "conquistador".data,
  "conquistadora".data, "invasor".data, "invasora".data, "defensor".data, "defensora".data,
  "protetor".data, "protetora".data, "guardião".data, "guardiã".data, "vigia".data,
  "sentinela".data, "vigilante".data, "observador".data, "observadora".data, "espectador".data,
  "espectadora".data, "ouvinte".data, "testemunha".data, "vítima".data, "sobrevivente".data,
  "refugiado".data, "refugiada".data, "imigrante".data, "emigrante".data, "nativo".data,
  "nativa".data, "estrangeiro".data, "estrangeira".data]

/-- `extractKeywords`: lowercase, strip punctuation to spaces, split on
    whitespace, keep tokens longer than two characters, then classify each
    token: original-case token starting uppercase → proper noun, else
    verb-list membership → verb, else noun-list membership or length > 4
    → noun.  Categories are deduplicated in first-seen order and capped. -/
def extractKeywords (text : Str) : Keywords :=
  let words := (splitWsPlus (replaceNonWordWithSpace (lowerStr text))).filter
      (fun w => w.length > 2)
  let st := words.foldl (fun (st : List Str × List Str × List Str) word =>
      let originalWord := (splitWsPlus text).find? (fun w => lowerStr w = word)
      if (match originalWord with
          | some ow => startsWithUpper ow
          | none => false) then
        (st.1, st.2.1, st.2.2 ++ [word])
      else if word ∈ verbPatternList then (st.1, st.2.1 ++ [word], st.2.2)
      else if word ∈ nounPatternList ∨ word.length > 4 then
        (st.1 ++ [word], st.2.1, st.2.2)
      else st) ([], [], [])
  { nouns := (dedupFirst st.1).take 5
    verbs := (dedupFirst st.2.1).take 5
    properNouns := (dedupFirst st.2.2).take 3
    allWords := words.take 10 }

/-- The disguise structure kinds (the `StructureType` union of the source;
    `comment` is named `blockComment` here). -/
inductive StructureType where
  | importStmt
  | typeDefinition
  | interfaceDef
  | classDef
  | constStmt
  | functionDef
  | asyncFunction
  | arrowFunction
  | genericFunction
  | methodDef
  | jsdoc
  | blockComment
  | inlineComment
  | consoleLog
  | typeGuard
  | mappedType
  | templateLiteralType
  | namespaceDef
  | destructuring
  | arrayChain
  | optionalChaining
  | nullishCoalescing
  | exportStmt
deriving DecidableEq, Repr

/-- The chunk classification union. -/
inductive TextType where
  | dialogue
  | list
  | question
  | narrative
deriving DecidableEq, Repr

/-- The mutable fields of one `Codeifier` instance, plus the randomness
    oracle: `rng i` is the value of the `i`-th `Math.random()` call and
    `pos` counts the calls already made. -/
structure EngineState where
  lineNumber : Nat
  recentStructures : List StructureType
  structureCount : Nat
  hasImports : Bool
  hasExports : Bool
  rng : Nat → ℚ
  pos : Nat

/-- One `Math.random()` call. -/
def nextRand (s : EngineState) : ℚ × EngineState :=
  (s.rng s.pos, { s with pos := s.pos + 1 })

/-- The `reset()` method: fresh state for a new chapter (the `fileSection`
    field is write-only in the source and omitted). -/
def initState (g : Nat → ℚ) : EngineState :=
  { lineNumber := 1, recentStructures := [], structureCount := 0,
    hasImports := false, hasExports := false, rng := g, pos := 0 }

/-- `w.charAt(0).toUpperCase() + w.slice(1)`. -/
def capitalizeFirst (w : Str) : Str :=
  match w with
  | [] => []
  | c :: cs => Char.toUpper c :: cs

/-- `word.split(/\s+/).map((w, i) => i === 0 ? w : cap(w)).join('')`. -/
def camelJoin (w : Str) : Str :=
  ((splitWsPlus w).mapIdx (fun i seg => if i = 0 then seg else capitalizeFirst seg)).flatten

/-- `word.split(/\s+/).map(cap).join('')`. -/
def pascalJoin (w : Str) : Str :=
  ((splitWsPlus w).map capitalizeFirst).flatten

/-- `generateContextualVarName(text, suffix)`.  The JS preference chain
    `properNouns[0] || nouns[0] || verbs[0] || allWords[0]` is the head of
    the concatenation, since every kept token is nonempty (length > 2). -/
def generateContextualVarName (text sfx : Str) : Str :=
  let keywords := extractKeywords text
  match (keywords.properNouns ++ keywords.nouns ++ keywords.verbs
      ++ keywords.allWords).head? with
  | none => "content".data ++ sfx
  | some w => camelJoin w ++ sfx

/-- `Math.floor(r * n)` for a rational `r` and a natural `n`, computed
    exactly on the numerator/denominator representation:
    `⌊r·n⌋ = ⌊(r.num·n) / r.den⌋` with floor division. -/
def floorMulNat (r : ℚ) (n : Nat) : Nat := ((r.num * n).fdiv (r.den : Int)).toNat

/-- `generateContextualFuncName(text, prefix)`.  The empty string is a
    falsy prefix, so the seven-element default pool is used both for the
    default argument and for an explicit `''`; one `Math.random()` is
    consumed unconditionally for the pool choice. -/
def generateContextualFuncName (text pfx : Str) (s : EngineState) :
    Str × EngineState :=
  let keywords := extractKeywords text
  let prefixPool := if pfx ≠ [] then [pfx]
    else ["handle".data, "process".data, "render".data, "format".data,
      "create".data, "get".data, "set".data]
  let p := nextRand s
  let prefixChoice := prefixPool.getD (floorMulNat p.1 prefixPool.length) []
  match (keywords.verbs ++ keywords.nouns ++ keywords.allWords).head? with
  | none => (prefixChoice ++ "Content".data, p.2)
  | some w => (prefixChoice ++ capitalizeFirst (camelJoin w), p.2)

/-- `generateContextualTypeName(text, suffix)`. -/
def generateContextualTypeName (text sfx : Str) : Str :=
  let keywords := extractKeywords text
  match (keywords.nouns ++ keywords.properNouns ++ keywords.allWords).head? with
  | none => "Content".data ++ sfx
  | some w => pascalJoin w ++ sfx

/-- The length-banded base menu of `selectStructure`. -/
def lengthMenu (textLength : Nat) : List StructureType :=
  if textLength < 50 then
    [.inlineComment, .constStmt, .consoleLog, .arrowFunction]
  else if textLength < 100 then
    [.functionDef, .arrowFunction, .constStmt, .blockComment, .jsdoc,
      .consoleLog, .destructuring]
  else if textLength < 200 then
    [.functionDef, .asyncFunction, .arrowFunction, .methodDef, .jsdoc,
      .blockComment, .typeDefinition, .interfaceDef, .arrayChain,
      .optionalChaining]
  else
    [.asyncFunction, .functionDef, .jsdoc, .blockComment, .classDef,
      .interfaceDef, .typeDefinition, .namespaceDef, .genericFunction,
      .typeGuard]

/-- `if (this.structureCount > 5 && !this.hasImports) availableStructures.push('import')`. -/
def menuWithImport (textLength : Nat) (s : EngineState) : List StructureType :=
  if s.structureCount > 5 ∧ s.hasImports = false then
    lengthMenu textLength ++ [.importStmt]
  else lengthMenu textLength

/-- `if (this.structureCount > 10 && Math.random() < 0.3) push(...)` — the
    `Math.random()` is consumed only when the count test passes. -/
def menuVariety10 (menu : List StructureType) (s : EngineState) :
    List StructureType × EngineState :=
  if s.structureCount > 10 then
    let q := nextRand s
    if q.1 < mkRat 3 10 then
      (menu ++ [.typeDefinition, .mappedType, .templateLiteralType], q.2)
    else (menu, q.2)
  else (menu, s)

/-- `if (this.structureCount > 15 && Math.random() < 0.2) push('export')`. -/
def menuVariety15 (menu : List StructureType) (s : EngineState) :
    List StructureType × EngineState :=
  if s.structureCount > 15 then
    let q := nextRand s
    if q.1 < mkRat 1 5 then (menu ++ [.exportStmt], q.2) else (menu, q.2)
  else (menu, s)

/-- `selectStructure(textLength, textType)`: length-banded menus, variety
    additions behind usage-count thresholds, anti-repetition filter over the
    last five recorded selections, uniform choice
    (`Math.floor(Math.random() * candidates.length)`; the `getD` default is
    unreachable for an oracle with values in `[0, 1)` since the candidate
    list is never empty), then history and flag bookkeeping.  The `textType`
    parameter is unused in the source body as well. -/
def selectStructure (textLength : Nat) (_textType : TextType)
    (s : EngineState) : StructureType × EngineState :=
  let p1 := menuVariety10 (menuWithImport textLength s) s
  let p2 := menuVariety15 p1.1 p1.2
  let avail := p2.1
  let s2 := p2.2
  let recent := s2.recentStructures.drop (s2.recentStructures.length - 5)
  let filtered := avail.filter (fun st => st ∉ recent)
  let candidates := if filtered.length > 0 then filtered else avail
  let p3 := nextRand s2
  let selected := candidates.getD (floorMulNat p3.1 candidates.length)
    .inlineComment
  let newRecent := s2.recentStructures ++ [selected]
  let newRecent := if newRecent.length > 10 then newRecent.drop 1 else newRecent
  (selected,
    { p3.2 with
      recentStructures := newRecent
      structureCount := s2.structureCount + 1
      hasImports := if selected = .importStmt then true else s2.hasImports
      hasExports := if selected = .exportStmt then true else s2.hasExports })

/-- One produced output line: `{ ln, content }`. -/
structure CodeLineData where
  ln : Nat
  content : Str
deriving Repr, DecidableEq

/-- `Array.prototype.join`. -/
def joinWith (sep : Str) (ls : List Str) : Str := (List.intersperse sep ls).flatten

/-- `String.prototype.toUpperCase` (ASCII repertoire). -/
def upperStr (l : Str) : Str := l.map Char.toUpper

/-- A run of `lines.push({ ln: this.lineNumber++, content })` calls, one
    per element. -/
def emitAll (contents : List Str) (s : EngineState) : List CodeLineData × EngineState :=
  match contents with
  | [] => ([], s)
  | c :: cs =>
      let rest := emitAll cs { s with lineNumber := s.lineNumber + 1 }
      (⟨s.lineNumber, c⟩ :: rest.1, rest.2)

/-- Length (in characters) that a match of the list-conjunction separator
    regex `[,;]\s+(e|ou)\s+` (case-insensitive, `\s+` greedy, the `e`
    alternative tried before `ou`) consumes when matching at the head of
    `l`; `none` if no match starts here. -/
def conjMatchLen (l : Str) : Option Nat :=
  match l with
  | [] => none
  | c :: cs =>
    if c = ',' ∨ c = ';' then
      let ws1 := cs.takeWhile isWs
      if ws1.length = 0 then none
      else
        match cs.drop ws1.length with
        | [] => none
        | d :: ds =>
          if Char.toLower d = 'e' then
            let ws2 := ds.takeWhile isWs
            if ws2.length = 0 then none else some (1 + ws1.length + 1 + ws2.length)
          else if Char.toLower d = 'o' then
            match ds with
            | [] => none
            | u :: us =>
              if Char.toLower u = 'u' then
                let ws2 := us.takeWhile isWs
                if ws2.length = 0 then none
                else some (1 + ws1.length + 2 + ws2.length)
              else none
          else none
    else none

/-- A conjunction-separator match consumes at least one character. -/
theorem conjMatchLen_pos (l : Str) (n : Nat) (h : conjMatchLen l = some n) :
    1 ≤ n := by
  unfold conjMatchLen at h
  repeat' ((try dsimp only at h); split at h)
  all_goals first
    | (simp only [Option.some.injEq] at h; omega)
    | (exact absurd h (by simp))

/-- `/[,;]\s+(e|ou)\s+/i.test(text)`. -/
def containsConjPattern : Str → Bool
  | [] => false
  | c :: cs => (conjMatchLen (c :: cs)).isSome || containsConjPattern cs

/-- Worker for `text.split(/[,;]\s+(?:e|ou)\s+/i)`. -/
def splitConjPatternGo : Nat → Str → Str → List Str
  | 0, acc, l => [acc.reverse ++ l]
  | _ + 1, acc, [] => [acc.reverse]
  | fuel + 1, acc, c :: cs =>
    match conjMatchLen (c :: cs) with
    | some n => acc.reverse :: splitConjPatternGo fuel [] ((c :: cs).drop n)
    | none => splitConjPatternGo fuel (c :: acc) cs

/-- `text.split(/[,;]\s+(?:e|ou)\s+/i)`.  Each step consumes at least
    one character (a match is never empty), so `l.length + 1` steps of
    structural fuel always suffice. -/
def splitConjPattern (l : Str) : List Str := splitConjPatternGo (l.length + 1) [] l

/-- `text.replace(/^\d+\.\s*|^[-*+•]\s*/, "")` (first alternative
    preferred, single replacement). -/
def removeListMarker (l : Str) : Str :=
  let ds := l.takeWhile Char.isDigit
  if ds.length ≠ 0 ∧ startsWithCh (l.drop ds.length) '.' then
    (l.drop (ds.length + 1)).dropWhile isWs
  else
    match l with
    | [] => l
    | c :: cs =>
        if c = '-' ∨ c = '*' ∨ c = '+' ∨ c = '•' then cs.dropWhile isWs else l

/-- `(cleaned.match(/,\s+/g) || []).length`: non-overlapping matches of a
    comma followed by at least one whitespace character. -/
def countCommaWsGo : Nat → Str → Nat
  | 0, _ => 0
  | _ + 1, [] => 0
  | fuel + 1, c :: cs =>
    if c = ',' then
      let ws := cs.takeWhile isWs
      if ws.length = 0 then countCommaWsGo fuel cs
      else 1 + countCommaWsGo fuel (cs.drop ws.length)
    else countCommaWsGo fuel cs

/-- Entry point of the comma-run counter; `l.length + 1` steps of
    structural fuel always suffice. -/
def countCommaWs (l : Str) : Nat := countCommaWsGo (l.length + 1) l

/-- Worker for `cleaned.split(/,\s+/)`. -/
def splitCommaWsGo : Nat → Str → Str → List Str
  | 0, acc, l => [acc.reverse ++ l]
  | _ + 1, acc, [] => [acc.reverse]
  | fuel + 1, acc, c :: cs =>
    if c = ',' then
      let ws := cs.takeWhile isWs
      if ws.length = 0 then splitCommaWsGo fuel (c :: acc) cs
      else acc.reverse :: splitCommaWsGo fuel [] (cs.drop ws.length)
    else splitCommaWsGo fuel (c :: acc) cs

/-- `cleaned.split(/,\s+/)`; `l.length + 1` steps of structural fuel
    always suffice. -/
def splitCommaWs (l : Str) : List Str := splitCommaWsGo (l.length + 1) [] l

/-- `str.replace(/\s+/g, '_')`. -/
def wsRunsToUnderscoreGo : Nat → Str → Str
  | 0, l => l
  | _ + 1, [] => []
  | fuel + 1, c :: cs =>
    if isWs c then '_' :: wsRunsToUnderscoreGo fuel (cs.dropWhile isWs)
    else c :: wsRunsToUnderscoreGo fuel cs

/-- `str.replace(/\s+/g, '_')`; `l.length + 1` steps of structural fuel
    always suffice. -/
def wsRunsToUnderscore (l : Str) : Str := wsRunsToUnderscoreGo (l.length + 1) l

/-- `toStringLiteral` — the dialogue renderer. -/
def toStringLiteral (text : Str) (s : EngineState) : List CodeLineData × EngineState :=
  let varName := generateContextualVarName text "Dialogue".data
  let escaped := escapeString text
  let brokenLines := breakLines escaped (SOFT_LINE_LENGTH - 20)
  if brokenLines.length = 1 then
    emitAll
      ["<span class=\"text-cursor-keyword\">const</span> <span class=\"text-cursor-variable\">".data
        ++ (varName)
        ++ "</span> = <span class=\"text-cursor-string\">\x60".data
        ++ (escaped)
        ++ "\x60</span>;".data] s
  else
    emitAll
      ["<span class=\"text-cursor-keyword\">const</span> <span class=\"text-cursor-variable\">".data
        ++ (varName)
        ++ "</span> = <span class=\"text-cursor-string\">\x60".data
        ++ (joinWith "\\n".data brokenLines)
        ++ "\x60</span>;".data] s

/-- `toArrayLiteral` — the list renderer: split on conjunction or comma
    separators, cap at three items (`items.slice(0, 3)`). -/
def toArrayLiteral (text : Str) (s : EngineState) : List CodeLineData × EngineState :=
  let items : List Str :=
    if containsConjPattern text then
      ((splitConjPattern text).map trim).filter (fun item => item.length > 0)
    else if startsWithDigitsDot text ∨ startsWithCh text '-' ∨ startsWithCh text '*'
        ∨ startsWithCh text '+' ∨ startsWithCh text '•' then
      let cleaned := removeListMarker text
      if countCommaWs cleaned ≥ 2 then
        ((splitCommaWs cleaned).map trim).filter (fun item => item.length > 0)
      else [trim cleaned]
    else [trim text]
  let finalItems := items.take 3
  let varName := generateContextualVarName text "Items".data
  let escapedItems := finalItems.map (fun item =>
    "<span class=\"text-cursor-string\">\"".data
      ++ (escapeString (trim item))
      ++ "\"</span>".data)
  emitAll
    ["<span class=\"text-cursor-keyword\">const</span> <span class=\"text-cursor-variable\">".data
      ++ (varName)
      ++ "</span> = <span class=\"text-cursor-bracket-2\">[</span>".data
      ++ (joinWith ", ".data escapedItems)
      ++ "<span class=\"text-cursor-bracket-2\">]</span>;".data] s

/-- `toConditional` — the question renderer. -/
def toConditional (text : Str) (s : EngineState) : List CodeLineData × EngineState :=
  let condition := generateContextualVarName text "Condition".data
  let escaped := escapeString text
  let brokenLines := breakLines escaped (SOFT_LINE_LENGTH - 10)
  let openLine :=
    "<span class=\"text-cursor-keyword\">if</span> (<span class=\"text-cursor-variable\">".data
      ++ (condition)
      ++ "</span>) <span class=\"text-cursor-bracket-3\">\x7b</span>".data
  if brokenLines.length = 1 then
    emitAll
      [openLine,
       "  <span class=\"text-cursor-control\">return</span> <span class=\"text-cursor-string\">\"".data
         ++ (escaped)
         ++ "\"</span>;".data,
       "<span class=\"text-cursor-bracket-3\">\x7d</span>".data] s
  else
    let varName := generateContextualVarName text []
    emitAll
      [openLine,
       "  <span class=\"text-cursor-keyword\">const</span> <span class=\"text-cursor-variable\">".data
         ++ (varName)
         ++ "</span> = <span class=\"text-cursor-string\">\x60".data
         ++ (joinWith "\\n".data brokenLines)
         ++ "\x60</span>;".data,
       "  <span class=\"text-cursor-control\">return</span> <span class=\"text-cursor-variable\">".data
         ++ (varName)
         ++ "</span>;".data,
       "<span class=\"text-cursor-bracket-3\">\x7d</span>".data] s

/-- `toMethodDefinition`. -/
def toMethodDefinition (text : Str) (s : EngineState) : List CodeLineData × EngineState :=
  let p := generateContextualFuncName text [] s
  let methodName := p.1
  let escaped := escapeString text
  let brokenLines := breakLines escaped (SOFT_LINE_LENGTH - 10)
  let openLine :=
    "<span class=\"text-cursor-function\">".data
      ++ (methodName)
      ++ "</span><span class=\"text-cursor-bracket-1\">(</span><span class=\"text-cursor-variable\">data</span>: <span class=\"text-cursor-type\">string</span><span class=\"text-cursor-bracket-1\">)</span>: <span class=\"text-cursor-type\">string</span> <span class=\"text-cursor-bracket-3\">\x7b</span>".data
  if brokenLines.length = 1 then
    emitAll
      [openLine,
       "  <span class=\"text-cursor-control\">return</span> <span class=\"text-cursor-string\">\x60".data
         ++ (escaped)
         ++ "\x60</span>;".data,
       "<span class=\"text-cursor-bracket-3\">\x7d</span>".data] p.2
  else
    let varName := generateContextualVarName text []
    emitAll
      [openLine,
       "  <span class=\"text-cursor-keyword\">const</span> <span class=\"text-cursor-variable\">".data
         ++ (varName)
         ++ "</span> = <span class=\"text-cursor-string\">\x60".data
         ++ (joinWith "\\n".data brokenLines)
         ++ "\x60</span>;".data,
       "  <span class=\"text-cursor-control\">return</span> <span class=\"text-cursor-variable\">".data
         ++ (varName)
         ++ "</span>;".data,
       "<span class=\"text-cursor-bracket-3\">\x7d</span>".data] p.2


/-- `toInterfaceDefinition`: synthesized properties from keywords plus a
    trailing full-text comment. -/
def toInterfaceDefinition (text : Str) (s : EngineState) : List CodeLineData × EngineState :=
  let interfaceName := generateContextualTypeName text []
  let keywords := extractKeywords text
  let props := keywords.nouns.take 3 ++ keywords.allWords.take 2
  let propLines := (props.mapIdx (fun index word =>
    let propName := (lowerStr word).filter (fun c => 'a' ≤ c && c ≤ 'z')
    if propName ≠ [] ∧ propName.length > 2 then
      let propType := ["string".data, "number".data, "boolean".data].getD (index % 3) []
      ["  <span class=\"text-cursor-property\">".data
        ++ (propName)
        ++ "</span>: <span class=\"text-cursor-type\">".data
        ++ (propType)
        ++ "</span>;".data]
    else [])).flatten
  let escaped := escapeString text
  let commentLines := (breakLines escaped (SOFT_LINE_LENGTH - 3)).map (fun line =>
    "<span class=\"text-cursor-comment\">// ".data
      ++ (line)
      ++ "</span>".data)
  emitAll
    (["<span class=\"text-cursor-keyword\">interface</span> <span class=\"text-cursor-type\">".data
      ++ (interfaceName)
      ++ "</span> <span class=\"text-cursor-bracket-3\">\x7b</span>".data]
      ++ propLines
      ++ ["<span class=\"text-cursor-bracket-3\">\x7d</span>".data]
      ++ commentLines) s

/-- `toClassDefinition`: constructor whose body logs the wrapped text. -/
def toClassDefinition (text : Str) (s : EngineState) : List CodeLineData × EngineState :=
  let className := generateContextualTypeName text []
  let escaped := escapeString text
  let brokenLines := breakLines escaped (SOFT_LINE_LENGTH - 25)
  emitAll
    (["<span class=\"text-cursor-keyword\">class</span> <span class=\"text-cursor-type\">".data
      ++ (className)
      ++ "</span> <span class=\"text-cursor-bracket-3\">\x7b</span>".data,
      "  <span class=\"text-cursor-keyword\">constructor</span><span class=\"text-cursor-bracket-1\">(</span><span class=\"text-cursor-bracket-1\">)</span> <span class=\"text-cursor-bracket-3\">\x7b</span>".data]
      ++ brokenLines.map (fun line =>
        "    <span class=\"text-cursor-variable\">console</span>.<span class=\"text-cursor-function\">log</span><span class=\"text-cursor-bracket-1\">(</span><span class=\"text-cursor-string\">\"".data
          ++ (line)
          ++ "\"</span><span class=\"text-cursor-bracket-1\">)</span>;".data)
      ++ ["  <span class=\"text-cursor-bracket-3\">\x7d</span>".data,
          "<span class=\"text-cursor-bracket-3\">\x7d</span>".data]) s

/-- `toAsyncFunction`: try/catch block embedding the text. -/
def toAsyncFunction (text : Str) (s : EngineState) : List CodeLineData × EngineState :=
  let p := generateContextualFuncName text [] s
  let funcName := p.1
  let escaped := escapeString text
  let brokenLines := breakLines escaped (SOFT_LINE_LENGTH - 10)
  let openLine :=
    "<span class=\"text-cursor-keyword\">async</span> <span class=\"text-cursor-keyword\">function</span> <span class=\"text-cursor-function\">".data
      ++ (funcName)
      ++ "</span><span class=\"text-cursor-bracket-1\">()</span>: <span class=\"text-cursor-type\">Promise</span>&lt;<span class=\"text-cursor-type\">string</span>&gt; <span class=\"text-cursor-bracket-3\">\x7b</span>".data
  let tryLine :=
    "  <span class=\"text-cursor-keyword\">try</span> <span class=\"text-cursor-bracket-3\">\x7b</span>".data
  let bodyLines :=
    if brokenLines.length = 1 then
      ["    <span class=\"text-cursor-keyword\">const</span> <span class=\"text-cursor-variable\">result</span> = <span class=\"text-cursor-string\">\x60".data
        ++ (escaped)
        ++ "\x60</span>;".data,
       "    <span class=\"text-cursor-control\">return</span> <span class=\"text-cursor-variable\">result</span>;".data]
    else
      let varName := generateContextualVarName text []
      ["    <span class=\"text-cursor-keyword\">const</span> <span class=\"text-cursor-variable\">".data
        ++ (varName)
        ++ "</span> = <span class=\"text-cursor-string\">\x60".data
        ++ (joinWith "\\n".data brokenLines)
        ++ "\x60</span>;".data,
       "    <span class=\"text-cursor-control\">return</span> <span class=\"text-cursor-variable\">".data
         ++ (varName)
         ++ "</span>;".data]
  emitAll
    ([openLine, tryLine] ++ bodyLines ++
     ["  <span class=\"text-cursor-bracket-3\">\x7d</span> <span class=\"text-cursor-keyword\">catch</span> <span class=\"text-cursor-bracket-1\">(</span><span class=\"text-cursor-variable\">error</span><span class=\"text-cursor-bracket-1\">)</span> <span class=\"text-cursor-bracket-3\">\x7b</span>".data,
      "    <span class=\"text-cursor-variable\">console</span>.<span class=\"text-cursor-function\">error</span><span class=\"text-cursor-bracket-1\">(</span><span class=\"text-cursor-variable\">error</span><span class=\"text-cursor-bracket-1\">)</span>;".data,
      "  <span class=\"text-cursor-bracket-3\">\x7d</span>".data,
      "<span class=\"text-cursor-bracket-3\">\x7d</span>".data]) p.2

/-- `toGenericFunction`. -/
def toGenericFunction (text : Str) (s : EngineState) : List CodeLineData × EngineState :=
  let p := generateContextualFuncName text [] s
  let funcName := p.1
  let typeName := generateContextualTypeName text []
  let escaped := escapeString text
  let brokenLines := breakLines escaped (SOFT_LINE_LENGTH - 10)
  let contentLine :=
    if brokenLines.length = 1 then
      "  <span class=\"text-cursor-keyword\">const</span> <span class=\"text-cursor-variable\">content</span> = <span class=\"text-cursor-string\">\x60".data
        ++ (escaped)
        ++ "\x60</span>;".data
    else
      "  <span class=\"text-cursor-keyword\">const</span> <span class=\"text-cursor-variable\">content</span> = <span class=\"text-cursor-string\">\x60".data
        ++ (joinWith "\\n".data brokenLines)
        ++ "\x60</span>;".data
  emitAll
    ["<span class=\"text-cursor-keyword\">function</span> <span class=\"text-cursor-function\">".data
      ++ (funcName)
      ++ "</span>&lt;<span class=\"text-cursor-type\">T</span> <span class=\"text-cursor-keyword\">extends</span> <span class=\"text-cursor-type\">".data
      ++ (typeName)
      ++ "</span>&gt;<span class=\"text-cursor-bracket-1\">(</span><span class=\"text-cursor-variable\">data</span>: <span class=\"text-cursor-type\">T</span><span class=\"text-cursor-bracket-1\">)</span>: <span class=\"text-cursor-type\">T</span> <span class=\"text-cursor-bracket-3\">\x7b</span>".data,
     contentLine,
     "  <span class=\"text-cursor-control\">return</span> <span class=\"text-cursor-variable\">data</span>;".data,
     "<span class=\"text-cursor-bracket-3\">\x7d</span>".data] p.2

/-- `toArrowFunction` (its name comes from the variable generator). -/
def toArrowFunction (text : Str) (s : EngineState) : List CodeLineData × EngineState :=
  let funcName := generateContextualVarName text []
  let escaped := escapeString text
  let brokenLines := breakLines escaped (SOFT_LINE_LENGTH - 30)
  if brokenLines.length = 1 then
    emitAll
      ["<span class=\"text-cursor-keyword\">const</span> <span class=\"text-cursor-variable\">".data
        ++ (funcName)
        ++ "</span> = <span class=\"text-cursor-bracket-1\">(</span><span class=\"text-cursor-variable\">input</span>: <span class=\"text-cursor-type\">string</span><span class=\"text-cursor-bracket-1\">)</span> <span class=\"text-cursor-operator\">=></span> <span class=\"text-cursor-string\">\x60".data
        ++ (escaped)
        ++ "\x60</span>;".data] s
  else
    emitAll
      ["<span class=\"text-cursor-keyword\">const</span> <span class=\"text-cursor-variable\">".data
        ++ (funcName)
        ++ "</span> = <span class=\"text-cursor-bracket-1\">(</span><span class=\"text-cursor-variable\">input</span>: <span class=\"text-cursor-type\">string</span><span class=\"text-cursor-bracket-1\">)</span> <span class=\"text-cursor-operator\">=></span> <span class=\"text-cursor-string\">\x60".data
        ++ (joinWith "\\n".data brokenLines)
        ++ "\x60</span>;".data] s

/-- `toFunction`. -/
def toFunction (text : Str) (s : EngineState) : List CodeLineData × EngineState :=
  let p := generateContextualFuncName text [] s
  let funcName := p.1
  let escaped := escapeString text
  let brokenLines := breakLines escaped (SOFT_LINE_LENGTH - 10)
  let openLine :=
    "<span class=\"text-cursor-keyword\">function</span> <span class=\"text-cursor-function\">".data
      ++ (funcName)
      ++ "</span><span class=\"text-cursor-bracket-1\">()</span> <span class=\"text-cursor-bracket-3\">\x7b</span>".data
  if brokenLines.length = 1 then
    emitAll
      [openLine,
       "  <span class=\"text-cursor-control\">return</span> <span class=\"text-cursor-string\">\"".data
         ++ (escaped)
         ++ "\"</span>;".data,
       "<span class=\"text-cursor-bracket-3\">\x7d</span>".data] p.2
  else
    let varName := generateContextualVarName text []
    emitAll
      [openLine,
       "  <span class=\"text-cursor-keyword\">const</span> <span class=\"text-cursor-variable\">".data
         ++ (varName)
         ++ "</span> = <span class=\"text-cursor-string\">\x60".data
         ++ (joinWith "\\n".data brokenLines)
         ++ "\x60</span>;".data,
       "  <span class=\"text-cursor-control\">return</span> <span class=\"text-cursor-variable\">".data
         ++ (varName)
         ++ "</span>;".data,
       "<span class=\"text-cursor-bracket-3\">\x7d</span>".data] p.2


/-- `toInlineComment`: wrapped comment lines, also the switch default. -/
def toInlineComment (text : Str) (s : EngineState) : List CodeLineData × EngineState :=
  let escaped := escapeString text
  let brokenLines := breakLines escaped (SOFT_LINE_LENGTH - 3)
  emitAll
    (brokenLines.map (fun line =>
      "<span class=\"text-cursor-comment\">// ".data
        ++ (line)
        ++ "</span>".data)) s

/-- `toBlockComment`: note the source wraps the raw `text`, not the
    escaped form. -/
def toBlockComment (text : Str) (s : EngineState) : List CodeLineData × EngineState :=
  emitAll
    (["<span class=\"text-cursor-comment\">/*</span>".data]
      ++ (breakLines text SOFT_LINE_LENGTH).map (fun line =>
        "<span class=\"text-cursor-comment\"> * ".data
          ++ (line)
          ++ "</span>".data)
      ++ ["<span class=\"text-cursor-comment\"> */</span>".data]) s

/-- `toJSDoc`: `@description` block over the raw text. -/
def toJSDoc (text : Str) (s : EngineState) : List CodeLineData × EngineState :=
  emitAll
    (["<span class=\"text-cursor-comment\">/**</span>".data]
      ++ (breakLines text SOFT_LINE_LENGTH).mapIdx (fun index line =>
        let linePrefix := if index = 0 then " * @description ".data else " * ".data
        "<span class=\"text-cursor-comment\">".data
          ++ (linePrefix)
          ++ (line)
          ++ "</span>".data)
      ++ ["<span class=\"text-cursor-comment\"> */</span>".data]) s

/-- `toConsoleLog`. -/
def toConsoleLog (text : Str) (s : EngineState) : List CodeLineData × EngineState :=
  let varName := generateContextualVarName text []
  let escaped := escapeString text
  let brokenLines := breakLines escaped (SOFT_LINE_LENGTH - 20)
  if brokenLines.length = 1 then
    emitAll
      ["<span class=\"text-cursor-variable\">console</span>.<span class=\"text-cursor-function\">log</span><span class=\"text-cursor-bracket-1\">(</span><span class=\"text-cursor-string\">\"".data
        ++ (escaped)
        ++ "\"</span><span class=\"text-cursor-bracket-1\">)</span>;".data] s
  else
    emitAll
      ["<span class=\"text-cursor-keyword\">const</span> <span class=\"text-cursor-variable\">".data
        ++ (varName)
        ++ "</span> = <span class=\"text-cursor-string\">\x60".data
        ++ (joinWith "\\n".data brokenLines)
        ++ "\x60</span>;".data,
       "<span class=\"text-cursor-variable\">console</span>.<span class=\"text-cursor-function\">log</span><span class=\"text-cursor-bracket-1\">(</span><span class=\"text-cursor-variable\">".data
         ++ (varName)
         ++ "</span><span class=\"text-cursor-bracket-1\">)</span>;".data] s

/-- `toConstStatement`. -/
def toConstStatement (text : Str) (s : EngineState) : List CodeLineData × EngineState :=
  let varName := generateContextualVarName text []
  let escaped := escapeString text
  let brokenLines := breakLines escaped (SOFT_LINE_LENGTH - 20)
  if brokenLines.length = 1 then
    emitAll
      ["<span class=\"text-cursor-keyword\">const</span> <span class=\"text-cursor-variable\">".data
        ++ (varName)
        ++ "</span> = <span class=\"text-cursor-string\">\"".data
        ++ (escaped)
        ++ "\"</span>;".data] s
  else
    emitAll
      ["<span class=\"text-cursor-keyword\">const</span> <span class=\"text-cursor-variable\">".data
        ++ (varName)
        ++ "</span> = <span class=\"text-cursor-string\">\x60".data
        ++ (joinWith "\\n".data brokenLines)
        ++ "\x60</span>;".data] s

/-- `toImportStatement`: synthesized names only, no chunk text embedded. -/
def toImportStatement (text : Str) (s : EngineState) : List CodeLineData × EngineState :=
  let p1 := generateContextualFuncName text [] s
  let moduleName := lowerStr p1.1
  let p2 := generateContextualFuncName text [] p1.2
  let importName := p2.1
  emitAll
    ["<span class=\"text-cursor-keyword\">import</span> <span class=\"text-cursor-bracket-3\">\x7b</span> <span class=\"text-cursor-variable\">".data
      ++ (importName)
      ++ "</span> <span class=\"text-cursor-bracket-3\">\x7d</span> <span class=\"text-cursor-keyword\">from</span> <span class=\"text-cursor-string\">\x27./".data
      ++ (moduleName)
      ++ "\x27</span>;".data] p2.2

/-- `toExportStatement`: embeds the full escaped text. -/
def toExportStatement (text : Str) (s : EngineState) : List CodeLineData × EngineState :=
  let p := generateContextualFuncName text [] s
  let exportName := p.1
  let escaped := escapeString text
  emitAll
    ["<span class=\"text-cursor-keyword\">export</span> <span class=\"text-cursor-keyword\">const</span> <span class=\"text-cursor-variable\">".data
      ++ (exportName)
      ++ "</span> = <span class=\"text-cursor-string\">\"".data
      ++ (escaped)
      ++ "\"</span>;".data] p.2

/-- `toTypeDefinition`: type alias plus full-text comment. -/
def toTypeDefinition (text : Str) (s : EngineState) : List CodeLineData × EngineState :=
  let typeName := generateContextualTypeName text []
  let escaped := escapeString text
  emitAll
    ["<span class=\"text-cursor-keyword\">type</span> <span class=\"text-cursor-type\">".data
      ++ (typeName)
      ++ "</span> = <span class=\"text-cursor-keyword\">string</span>;".data,
     "<span class=\"text-cursor-comment\">// ".data
       ++ (escaped)
       ++ "</span>".data] s

/-- `toTypeGuard` (the unused `varName` local of the source is omitted). -/
def toTypeGuard (text : Str) (s : EngineState) : List CodeLineData × EngineState :=
  let typeName := generateContextualTypeName text []
  let escaped := escapeString text
  emitAll
    ["<span class=\"text-cursor-keyword\">function</span> <span class=\"text-cursor-function\">is".data
      ++ (typeName)
      ++ "</span><span class=\"text-cursor-bracket-1\">(</span><span class=\"text-cursor-variable\">obj</span>: <span class=\"text-cursor-keyword\">unknown</span><span class=\"text-cursor-bracket-1\">)</span>: <span class=\"text-cursor-variable\">obj</span> <span class=\"text-cursor-keyword\">is</span> <span class=\"text-cursor-type\">".data
      ++ (typeName)
      ++ "</span> <span class=\"text-cursor-bracket-3\">\x7b</span>".data,
     "  <span class=\"text-cursor-comment\">// ".data
       ++ (escaped)
       ++ "</span>".data,
     "  <span class=\"text-cursor-control\">return</span> <span class=\"text-cursor-keyword\">typeof</span> <span class=\"text-cursor-variable\">obj</span> === <span class=\"text-cursor-string\">\"string\"</span>;".data,
     "<span class=\"text-cursor-bracket-3\">\x7d</span>".data] s

/-- `toMappedType`. -/
def toMappedType (text : Str) (s : EngineState) : List CodeLineData × EngineState :=
  let typeName := generateContextualTypeName text "Keys".data
  let baseName := generateContextualTypeName text []
  let escaped := escapeString text
  emitAll
    ["<span class=\"text-cursor-keyword\">const</span> <span class=\"text-cursor-variable\">".data
      ++ (upperStr baseName)
      ++ "_CONFIG</span> = <span class=\"text-cursor-bracket-3\">\x7b</span>".data,
     "  <span class=\"text-cursor-property\">content</span>: <span class=\"text-cursor-string\">\"".data
       ++ (escaped)
       ++ "\"</span>,".data,
     "<span class=\"text-cursor-bracket-3\">\x7d</span> <span class=\"text-cursor-keyword\">as</span> <span class=\"text-cursor-keyword\">const</span>;".data,
     "<span class=\"text-cursor-keyword\">type</span> <span class=\"text-cursor-type\">".data
       ++ (typeName)
       ++ "</span> = <span class=\"text-cursor-keyword\">keyof</span> <span class=\"text-cursor-keyword\">typeof</span> <span class=\"text-cursor-variable\">".data
       ++ (upperStr baseName)
       ++ "_CONFIG</span>;".data] s

/-- `toTemplateLiteralType`: embeds only the first twenty characters of
    the escaped text, whitespace runs replaced by underscores. -/
def toTemplateLiteralType (text : Str) (s : EngineState) : List CodeLineData × EngineState :=
  let typeName := generateContextualTypeName text "Id".data
  let escaped := escapeString text
  emitAll
    ["<span class=\"text-cursor-keyword\">type</span> <span class=\"text-cursor-type\">".data
      ++ (typeName)
      ++ "</span> = <span class=\"text-cursor-string\">\x60scene_".data
      ++ (wsRunsToUnderscore (escaped.take 20))
      ++ "\x60</span>;".data] s

/-- `toNamespace`. -/
def toNamespace (text : Str) (s : EngineState) : List CodeLineData × EngineState :=
  let namespaceName := generateContextualTypeName text []
  let escaped := escapeString text
  emitAll
    ["<span class=\"text-cursor-keyword\">namespace</span> <span class=\"text-cursor-type\">".data
      ++ (namespaceName)
      ++ "</span> <span class=\"text-cursor-bracket-3\">\x7b</span>".data,
     "  <span class=\"text-cursor-keyword\">export</span> <span class=\"text-cursor-keyword\">const</span> <span class=\"text-cursor-variable\">content</span> = <span class=\"text-cursor-string\">\"".data
       ++ (escaped)
       ++ "\"</span>;".data,
     "<span class=\"text-cursor-bracket-3\">\x7d</span>".data] s

/-- `toDestructuring`. -/
def toDestructuring (text : Str) (s : EngineState) : List CodeLineData × EngineState :=
  let varName := generateContextualVarName text []
  let escaped := escapeString text
  emitAll
    ["<span class=\"text-cursor-keyword\">const</span> <span class=\"text-cursor-variable\">".data
      ++ (varName)
      ++ "Data</span> = <span class=\"text-cursor-bracket-3\">\x7b</span>".data,
     "  <span class=\"text-cursor-property\">content</span>: <span class=\"text-cursor-string\">\"".data
       ++ (escaped)
       ++ "\"</span>,".data,
     "<span class=\"text-cursor-bracket-3\">\x7d</span>;".data,
     "<span class=\"text-cursor-keyword\">const</span> <span class=\"text-cursor-bracket-3\">\x7b</span> <span class=\"text-cursor-variable\">content</span> <span class=\"text-cursor-bracket-3\">\x7d</span> = <span class=\"text-cursor-variable\">".data
       ++ (varName)
       ++ "Data</span>;".data] s

/-- `toArrayChain`: first wrapped line as the array element, full escaped
    text inside the `map` call. -/
def toArrayChain (text : Str) (s : EngineState) : List CodeLineData × EngineState :=
  let escaped := escapeString text
  let brokenLines := breakLines escaped (SOFT_LINE_LENGTH - 30)
  emitAll
    ["<span class=\"text-cursor-keyword\">const</span> <span class=\"text-cursor-variable\">items</span> = <span class=\"text-cursor-bracket-2\">[</span><span class=\"text-cursor-string\">\"".data
      ++ (brokenLines.getD 0 [])
      ++ "\"</span><span class=\"text-cursor-bracket-2\">]</span>".data,
     "  .<span class=\"text-cursor-function\">filter</span><span class=\"text-cursor-bracket-1\">(</span><span class=\"text-cursor-variable\">item</span> <span class=\"text-cursor-operator\">=></span> <span class=\"text-cursor-variable\">item</span>.<span class=\"text-cursor-function\">length</span> > <span class=\"text-cursor-number\">0</span><span class=\"text-cursor-bracket-1\">)</span>".data,
     "  .<span class=\"text-cursor-function\">map</span><span class=\"text-cursor-bracket-1\">(</span><span class=\"text-cursor-variable\">item</span> <span class=\"text-cursor-operator\">=></span> <span class=\"text-cursor-string\">\x60".data
       ++ (escaped)
       ++ "\x60</span><span class=\"text-cursor-bracket-1\">)</span>".data,
     "  .<span class=\"text-cursor-function\">join</span><span class=\"text-cursor-bracket-1\">(</span><span class=\"text-cursor-string\">\x27 \x27</span><span class=\"text-cursor-bracket-1\">)</span>;".data] s

/-- `toOptionalChaining`. -/
def toOptionalChaining (text : Str) (s : EngineState) : List CodeLineData × EngineState :=
  let varName := generateContextualVarName text []
  let escaped := escapeString text
  emitAll
    ["<span class=\"text-cursor-keyword\">const</span> <span class=\"text-cursor-variable\">".data
      ++ (varName)
      ++ "</span> = <span class=\"text-cursor-variable\">scene</span>?.<span class=\"text-cursor-property\">content</span>?.<span class=\"text-cursor-property\">text</span> ?? <span class=\"text-cursor-string\">\"".data
      ++ (escaped)
      ++ "\"</span>;".data] s

/-- `toNullishCoalescing`. -/
def toNullishCoalescing (text : Str) (s : EngineState) : List CodeLineData × EngineState :=
  let varName := generateContextualVarName text []
  let escaped := escapeString text
  emitAll
    ["<span class=\"text-cursor-keyword\">const</span> <span class=\"text-cursor-variable\">".data
      ++ (varName)
      ++ "</span> = <span class=\"text-cursor-variable\">chapter</span>.<span class=\"text-cursor-property\">title</span> ?? <span class=\"text-cursor-string\">\"".data
      ++ (escaped)
      ++ "\"</span>;".data] s

/-- `createImageElement`: comment with the alt text, then either the
    inline image markup (when a source is present) or a placeholder
    declaration. -/
def createImageElement (imageDesc : Str) (s : EngineState) : List CodeLineData × EngineState :=
  let parts := splitOnPipe imageDesc
  let src := parts.getD 1 []
  let alt := if parts.getD 2 [] = [] then "Imagem".data else parts.getD 2 []
  let commentLine :=
    "<span class=\"text-cursor-comment\">// 🖼️ ".data
      ++ (alt)
      ++ "</span>".data
  if src ≠ [] then
    emitAll
      [commentLine,
       "<div class=\"epub-image-container\" style=\"text-align: center; margin: 10px 0; padding: 10px; border: 1px solid #555; border-radius: 4px; background: #2d2d30;\"><img src=\"".data
         ++ (src)
         ++ "\" alt=\"".data
         ++ (escapeString alt)
         ++ "\" style=\"max-width: 100%; height: auto; border-radius: 4px; display: block; object-fit: contain;\" onerror=\"this.style.display=\x27none\x27;\" onload=\"this.parentElement.style.borderColor=\x27#4ec9b0\x27;\" /></div>".data] s
  else
    emitAll
      [commentLine,
       "<span class=\"text-cursor-keyword\">const</span> <span class=\"text-cursor-variable\">imagePlaceholder</span> = <span class=\"text-cursor-string\">\"".data
         ++ (escapeString alt)
         ++ "\"</span>;".data] s


/-- `processParagraph`: classify the trimmed chunk in the fixed order
    dialogue → list → question, routing to the specialized renderer at the
    first match; otherwise select a disguise structure and dispatch.  The
    `default` arm of the source's `switch` is unreachable (the match below
    is total over the same constructors). -/
def processParagraph (text : Str) (s : EngineState) : List CodeLineData × EngineState :=
  let trimmed := trim text
  if isDialogue trimmed then toStringLiteral trimmed s
  else if isListItem trimmed then toArrayLiteral trimmed s
  else if isQuestion trimmed then toConditional trimmed s
  else
    let p := selectStructure trimmed.length TextType.narrative s
    match p.1 with
    | .importStmt => toImportStatement trimmed p.2
    | .typeDefinition => toTypeDefinition trimmed p.2
    | .interfaceDef => toInterfaceDefinition trimmed p.2
    | .classDef => toClassDefinition trimmed p.2
    | .constStmt => toConstStatement trimmed p.2
    | .functionDef => toFunction trimmed p.2
    | .asyncFunction => toAsyncFunction trimmed p.2
    | .arrowFunction => toArrowFunction trimmed p.2
    | .genericFunction => toGenericFunction trimmed p.2
    | .methodDef => toMethodDefinition trimmed p.2
    | .jsdoc => toJSDoc trimmed p.2
    | .blockComment => toBlockComment trimmed p.2
    | .inlineComment => toInlineComment trimmed p.2
    | .consoleLog => toConsoleLog trimmed p.2
    | .typeGuard => toTypeGuard trimmed p.2
    | .mappedType => toMappedType trimmed p.2
    | .templateLiteralType => toTemplateLiteralType trimmed p.2
    | .namespaceDef => toNamespace trimmed p.2
    | .destructuring => toDestructuring trimmed p.2
    | .arrayChain => toArrayChain trimmed p.2
    | .optionalChaining => toOptionalChaining trimmed p.2
    | .nullishCoalescing => toNullishCoalescing trimmed p.2
    | .exportStmt => toExportStatement trimmed p.2

/-- The `for (const chunk of chunks)` loop of `transform`. -/
def processChunks (chunks : List Str) (s : EngineState) : List CodeLineData × EngineState :=
  match chunks with
  | [] => ([], s)
  | chunk :: rest =>
      let p := processParagraph chunk s
      let q := processChunks rest p.2
      (p.1 ++ q.1, q.2)

/-- The inner `for (let lineIdx = 0; ...)` loop of `transform`: empty lines
    collapse into at most one blank output line, non-empty lines are
    segmented and disguised, and a paragraph break (a following empty line,
    except at the very end) appends one blank output line. -/
def processTextLines (textLines : List Str) (previousLineWasEmpty : Bool)
    (s : EngineState) : List CodeLineData × EngineState :=
  match textLines with
  | [] => ([], s)
  | line :: rest =>
      let trimmedLine := trim line
      if trimmedLine.length = 0 then
        let p := if previousLineWasEmpty = false then emitAll [[]] s else ([], s)
        let q := processTextLines rest true p.2
        (p.1 ++ q.1, q.2)
      else
        let chunks := splitParagraphIntoCodeBlocks trimmedLine
        let p := processChunks chunks s
        let isNextLineEmpty : Bool :=
          match rest with
          | [] => true
          | nextLine :: _ => (trim nextLine).length = 0
        let isParagraphBreak := isNextLineEmpty && !rest.isEmpty
        let q := if isParagraphBreak then emitAll [[]] p.2 else ([], p.2)
        let r := processTextLines rest false q.2
        (p.1 ++ q.1 ++ r.1, r.2)

/-- The outer `for (let i = 0; i < parts.length; i++)` loop of `transform`:
    odd-indexed parts of the image-regex split are captures and render as an
    image element followed by one blank line; even-indexed parts with
    non-blank content go through the text-line loop. -/
def processParts (parts : List Str) (odd : Bool) (s : EngineState) :
    List CodeLineData × EngineState :=
  match parts with
  | [] => ([], s)
  | part :: rest =>
      let p :=
        if odd then
          let q := createImageElement (trim part) s
          let b := emitAll [[]] q.2
          (q.1 ++ b.1, b.2)
        else if (trim part).length ≠ 0 then
          processTextLines (splitOnNl part) false s
        else ([], s)
      let q := processParts rest (!odd) p.2
      (p.1 ++ q.1, q.2)

/-- `transform(text)`: probabilistic import preamble (the `Math.random()`
    is consumed before the `structureCount === 0` test, as in the JS `&&`),
    image split and main loops, then the probabilistic export tail (its
    `Math.random()` is only consumed when more than ten lines exist). -/
def transform (text : Str) (s : EngineState) : List CodeLineData × EngineState :=
  let pr := nextRand s
  let p0 :=
    if pr.1 < mkRat 7 10 ∧ pr.2.structureCount = 0 then
      let firstLine := (splitOnNl text).getD 0 []
      let arg := if firstLine = [] then text else firstLine
      let q := toImportStatement arg pr.2
      (q.1, { q.2 with hasImports := true })
    else ([], pr.2)
  let parts := splitImagem text
  let p1 := processParts parts false p0.2
  let lines := p0.1 ++ p1.1
  if lines.length > 10 then
    let er := nextRand p1.2
    if er.1 < mkRat 2 5 ∧ er.2.hasExports = false then
      let b := emitAll [[]] er.2
      let lastChunk :=
        (((splitOnNl text).filter (fun l => (trim l).length ≠ 0)).getLast?).getD text
      let ex := toExportStatement lastChunk b.2
      (lines ++ b.1 ++ ex.1, { ex.2 with hasExports := true })
    else (lines, er.2)
  else (lines, p1.2)

/-! ### Line-numbering infrastructure (claim C3) -/

/-- The output lines of a pipeline step are numbered consecutively from the
    incoming line counter, which advances by their count. -/
def LinesOk (n : Nat) (ls : List CodeLineData) (n' : Nat) : Prop :=
  ls.map CodeLineData.ln = List.range' n ls.length ∧ n' = n + ls.length

theorem linesOk_nil (n : Nat) : LinesOk n [] n := by simp [LinesOk]

theorem linesOk_cast {a a' b : Nat} {ls : List CodeLineData} (h : a = a')
    (hl : LinesOk a ls b) : LinesOk a' ls b := h ▸ hl

theorem linesOk_append {a b c : Nat} {ls₁ ls₂ : List CodeLineData}
    (h₁ : LinesOk a ls₁ b) (h₂ : LinesOk b ls₂ c) :
    LinesOk a (ls₁ ++ ls₂) c := by
  obtain ⟨m₁, e₁⟩ := h₁
  obtain ⟨m₂, e₂⟩ := h₂
  constructor
  · rw [List.map_append, m₁, m₂, List.length_append, e₁]
    have hr := List.range'_append a ls₁.length ls₂.length 1
    simp only [one_mul] at hr
    rw [Nat.add_comm ls₁.length ls₂.length, ← hr]
  · rw [e₂, e₁, List.length_append]
    omega

theorem linesOk_emitAll (cs : List Str) (s : EngineState) :
    LinesOk s.lineNumber (emitAll cs s).1 (emitAll cs s).2.lineNumber := by
  induction cs generalizing s with
  | nil => exact linesOk_nil _
  | cons c cs ih =>
    have h := ih { s with lineNumber := s.lineNumber + 1 }
    obtain ⟨hm, he⟩ := h
    constructor
    · show CodeLineData.ln ⟨s.lineNumber, c⟩ ::
        ((emitAll cs { s with lineNumber := s.lineNumber + 1 }).1.map CodeLineData.ln)
        = List.range' s.lineNumber ((emitAll cs _).1.length + 1)
      rw [List.range'_succ, hm]
    · show (emitAll cs { s with lineNumber := s.lineNumber + 1 }).2.lineNumber
        = s.lineNumber + ((emitAll cs { s with lineNumber := s.lineNumber + 1 }).1.length + 1)
      rw [he]
      show s.lineNumber + 1 + _ = _
      omega

theorem linesOk_emitAll' (cs : List Str) (s : EngineState) (n : Nat)
    (h : s.lineNumber = n) :
    LinesOk n (emitAll cs s).1 (emitAll cs s).2.lineNumber :=
  linesOk_cast h (linesOk_emitAll cs s)


/-- State evolution of the function-name generator: only the oracle
    position advances. -/
theorem genFunc_state (t p : Str) (s : EngineState) :
    (generateContextualFuncName t p s).2 = { s with pos := s.pos + 1 } := by
  unfold generateContextualFuncName
  dsimp only
  split <;> rfl

/-- The function-name generator leaves the line counter unchanged. -/
theorem genFunc_lineNumber (t p : Str) (s : EngineState) :
    (generateContextualFuncName t p s).2.lineNumber = s.lineNumber := by
  rw [genFunc_state]

/-- `toStringLiteral` numbers its lines consecutively from the incoming counter. -/
theorem toStringLiteral_linesOk (t : Str) (s : EngineState) :
    LinesOk s.lineNumber (toStringLiteral t s).1 (toStringLiteral t s).2.lineNumber := by
  unfold toStringLiteral
  dsimp only
  (try split)
  all_goals exact linesOk_emitAll' _ _ _ (by (try simp only [genFunc_lineNumber]); try rfl)

/-- `toArrayLiteral` numbers its lines consecutively from the incoming counter. -/
theorem toArrayLiteral_linesOk (t : Str) (s : EngineState) :
    LinesOk s.lineNumber (toArrayLiteral t s).1 (toArrayLiteral t s).2.lineNumber := by
  unfold toArrayLiteral
  dsimp only
  (try split)
  all_goals exact linesOk_emitAll' _ _ _ (by (try simp only [genFunc_lineNumber]); try rfl)

/-- `toConditional` numbers its lines consecutively from the incoming counter. -/
theorem toConditional_linesOk (t : Str) (s : EngineState) :
    LinesOk s.lineNumber (toConditional t s).1 (toConditional t s).2.lineNumber := by
  unfold toConditional
  dsimp only
  (try split)
  all_goals exact linesOk_emitAll' _ _ _ (by (try simp only [genFunc_lineNumber]); try rfl)

/-- `toMethodDefinition` numbers its lines consecutively from the incoming counter. -/
theorem toMethodDefinition_linesOk (t : Str) (s : EngineState) :
    LinesOk s.lineNumber (toMethodDefinition t s).1 (toMethodDefinition t s).2.lineNumber := by
  unfold toMethodDefinition
  dsimp only
  by_cases hbl : (breakLines (escapeString t) (SOFT_LINE_LENGTH - 10)).length = 1
  · rw [if_pos hbl]
    exact linesOk_emitAll' _ _ _ (by rw [genFunc_lineNumber])
  · rw [if_neg hbl]
    exact linesOk_emitAll' _ _ _ (by rw [genFunc_lineNumber])

/-- `toInterfaceDefinition` numbers its lines consecutively from the incoming counter. -/
theorem toInterfaceDefinition_linesOk (t : Str) (s : EngineState) :
    LinesOk s.lineNumber (toInterfaceDefinition t s).1 (toInterfaceDefinition t s).2.lineNumber := by
  unfold toInterfaceDefinition
  dsimp only
  (try split)
  all_goals exact linesOk_emitAll' _ _ _ (by (try simp only [genFunc_lineNumber]); try rfl)

/-- `toClassDefinition` numbers its lines consecutively from the incoming counter. -/
theorem toClassDefinition_linesOk (t : Str) (s : EngineState) :
    LinesOk s.lineNumber (toClassDefinition t s).1 (toClassDefinition t s).2.lineNumber := by
  unfold toClassDefinition
  dsimp only
  (try split)
  all_goals exact linesOk_emitAll' _ _ _ (by (try simp only [genFunc_lineNumber]); try rfl)

/-- `toAsyncFunction` numbers its lines consecutively from the incoming counter. -/
theorem toAsyncFunction_linesOk (t : Str) (s : EngineState) :
    LinesOk s.lineNumber (toAsyncFunction t s).1 (toAsyncFunction t s).2.lineNumber := by
  unfold toAsyncFunction
  dsimp only
  (try split)
  all_goals exact linesOk_emitAll' _ _ _ (by (try simp only [genFunc_lineNumber]); try rfl)

/-- `toGenericFunction` numbers its lines consecutively from the incoming counter. -/
theorem toGenericFunction_linesOk (t : Str) (s : EngineState) :
    LinesOk s.lineNumber (toGenericFunction t s).1 (toGenericFunction t s).2.lineNumber := by
  unfold toGenericFunction
  dsimp only
  (try split)
  all_goals exact linesOk_emitAll' _ _ _ (by (try simp only [genFunc_lineNumber]); try rfl)

/-- `toArrowFunction` numbers its lines consecutively from the incoming counter. -/
theorem toArrowFunction_linesOk (t : Str) (s : EngineState) :
    LinesOk s.lineNumber (toArrowFunction t s).1 (toArrowFunction t s).2.lineNumber := by
  unfold toArrowFunction
  dsimp only
  by_cases hbl : (breakLines (escapeString t) (SOFT_LINE_LENGTH - 30)).length = 1
  · rw [if_pos hbl]
    exact linesOk_emitAll' _ _ _ rfl
  · rw [if_neg hbl]
    exact linesOk_emitAll' _ _ _ rfl

/-- `toFunction` numbers its lines consecutively from the incoming counter. -/
theorem toFunction_linesOk (t : Str) (s : EngineState) :
    LinesOk s.lineNumber (toFunction t s).1 (toFunction t s).2.lineNumber := by
  unfold toFunction
  dsimp only
  (try split)
  all_goals exact linesOk_emitAll' _ _ _ (by (try simp only [genFunc_lineNumber]); try rfl)

/-- `toInlineComment` numbers its lines consecutively from the incoming counter. -/
theorem toInlineComment_linesOk (t : Str) (s : EngineState) :
    LinesOk s.lineNumber (toInlineComment t s).1 (toInlineComment t s).2.lineNumber := by
  unfold toInlineComment
  dsimp only
  (try split)
  all_goals exact linesOk_emitAll' _ _ _ (by (try simp only [genFunc_lineNumber]); try rfl)

/-- `toBlockComment` numbers its lines consecutively from the incoming counter. -/
theorem toBlockComment_linesOk (t : Str) (s : EngineState) :
    LinesOk s.lineNumber (toBlockComment t s).1 (toBlockComment t s).2.lineNumber := by
  unfold toBlockComment
  dsimp only
  (try split)
  all_goals exact linesOk_emitAll' _ _ _ (by (try simp only [genFunc_lineNumber]); try rfl)

/-- `toJSDoc` numbers its lines consecutively from the incoming counter. -/
theorem toJSDoc_linesOk (t : Str) (s : EngineState) :
    LinesOk s.lineNumber (toJSDoc t s).1 (toJSDoc t s).2.lineNumber := by
  unfold toJSDoc
  dsimp only
  (try split)
  all_goals exact linesOk_emitAll' _ _ _ (by (try simp only [genFunc_lineNumber]); try rfl)

/-- `toConsoleLog` numbers its lines consecutively from the incoming counter. -/
theorem toConsoleLog_linesOk (t : Str) (s : EngineState) :
    LinesOk s.lineNumber (toConsoleLog t s).1 (toConsoleLog t s).2.lineNumber := by
  unfold toConsoleLog
  dsimp only
  (try split)
  all_goals exact linesOk_emitAll' _ _ _ (by (try simp only [genFunc_lineNumber]); try rfl)

/-- `toConstStatement` numbers its lines consecutively from the incoming counter. -/
theorem toConstStatement_linesOk (t : Str) (s : EngineState) :
    LinesOk s.lineNumber (toConstStatement t s).1 (toConstStatement t s).2.lineNumber := by
  unfold toConstStatement
  dsimp only
  (try split)
  all_goals exact linesOk_emitAll' _ _ _ (by (try simp only [genFunc_lineNumber]); try rfl)

/-- `toImportStatement` numbers its lines consecutively from the incoming counter. -/
theorem toImportStatement_linesOk (t : Str) (s : EngineState) :
    LinesOk s.lineNumber (toImportStatement t s).1 (toImportStatement t s).2.lineNumber := by
  unfold toImportStatement
  dsimp only
  (try split)
  all_goals exact linesOk_emitAll' _ _ _ (by (try simp only [genFunc_lineNumber]); try rfl)

/-- `toExportStatement` numbers its lines consecutively from the incoming counter. -/
theorem toExportStatement_linesOk (t : Str) (s : EngineState) :
    LinesOk s.lineNumber (toExportStatement t s).1 (toExportStatement t s).2.lineNumber := by
  unfold toExportStatement
  dsimp only
  (try split)
  all_goals exact linesOk_emitAll' _ _ _ (by (try simp only [genFunc_lineNumber]); try rfl)

/-- `toTypeDefinition` numbers its lines consecutively from the incoming counter. -/
theorem toTypeDefinition_linesOk (t : Str) (s : EngineState) :
    LinesOk s.lineNumber (toTypeDefinition t s).1 (toTypeDefinition t s).2.lineNumber := by
  unfold toTypeDefinition
  dsimp only
  (try split)
  all_goals exact linesOk_emitAll' _ _ _ (by (try simp only [genFunc_lineNumber]); try rfl)

/-- `toTypeGuard` numbers its lines consecutively from the incoming counter. -/
theorem toTypeGuard_linesOk (t : Str) (s : EngineState) :
    LinesOk s.lineNumber (toTypeGuard t s).1 (toTypeGuard t s).2.lineNumber := by
  unfold toTypeGuard
  dsimp only
  (try split)
  all_goals exact linesOk_emitAll' _ _ _ (by (try simp only [genFunc_lineNumber]); try rfl)

/-- `toMappedType` numbers its lines consecutively from the incoming counter. -/
theorem toMappedType_linesOk (t : Str) (s : EngineState) :
    LinesOk s.lineNumber (toMappedType t s).1 (toMappedType t s).2.lineNumber := by
  unfold toMappedType
  dsimp only
  (try split)
  all_goals exact linesOk_emitAll' _ _ _ (by (try simp only [genFunc_lineNumber]); try rfl)

/-- `toTemplateLiteralType` numbers its lines consecutively from the incoming counter. -/
theorem toTemplateLiteralType_linesOk (t : Str) (s : EngineState) :
    LinesOk s.lineNumber (toTemplateLiteralType t s).1 (toTemplateLiteralType t s).2.lineNumber := by
  unfold toTemplateLiteralType
  dsimp only
  (try split)
  all_goals exact linesOk_emitAll' _ _ _ (by (try simp only [genFunc_lineNumber]); try rfl)

/-- `toNamespace` numbers its lines consecutively from the incoming counter. -/
theorem toNamespace_linesOk (t : Str) (s : EngineState) :
    LinesOk s.lineNumber (toNamespace t s).1 (toNamespace t s).2.lineNumber := by
  unfold toNamespace
  dsimp only
  (try split)
  all_goals exact linesOk_emitAll' _ _ _ (by (try simp only [genFunc_lineNumber]); try rfl)

/-- `toDestructuring` numbers its lines consecutively from the incoming counter. -/
theorem toDestructuring_linesOk (t : Str) (s : EngineState) :
    LinesOk s.lineNumber (toDestructuring t s).1 (toDestructuring t s).2.lineNumber := by
  unfold toDestructuring
  dsimp only
  (try split)
  all_goals exact linesOk_emitAll' _ _ _ (by (try simp only [genFunc_lineNumber]); try rfl)

/-- `toArrayChain` numbers its lines consecutively from the incoming counter. -/
theorem toArrayChain_linesOk (t : Str) (s : EngineState) :
    LinesOk s.lineNumber (toArrayChain t s).1 (toArrayChain t s).2.lineNumber := by
  unfold toArrayChain
  dsimp only
  (try split)
  all_goals exact linesOk_emitAll' _ _ _ (by (try simp only [genFunc_lineNumber]); try rfl)

/-- `toOptionalChaining` numbers its lines consecutively from the incoming counter. -/
theorem toOptionalChaining_linesOk (t : Str) (s : EngineState) :
    LinesOk s.lineNumber (toOptionalChaining t s).1 (toOptionalChaining t s).2.lineNumber := by
  unfold toOptionalChaining
  dsimp only
  (try split)
  all_goals exact linesOk_emitAll' _ _ _ (by (try simp only [genFunc_lineNumber]); try rfl)

/-- `toNullishCoalescing` numbers its lines consecutively from the incoming counter. -/
theorem toNullishCoalescing_linesOk (t : Str) (s : EngineState) :
    LinesOk s.lineNumber (toNullishCoalescing t s).1 (toNullishCoalescing t s).2.lineNumber := by
  unfold toNullishCoalescing
  dsimp only
  (try split)
  all_goals exact linesOk_emitAll' _ _ _ (by (try simp only [genFunc_lineNumber]); try rfl)

/-- `createImageElement` numbers its lines consecutively from the incoming counter. -/
theorem createImageElement_linesOk (t : Str) (s : EngineState) :
    LinesOk s.lineNumber (createImageElement t s).1 (createImageElement t s).2.lineNumber := by
  unfold createImageElement
  dsimp only
  (try split)
  all_goals exact linesOk_emitAll' _ _ _ (by (try simp only [genFunc_lineNumber]); try rfl)

/-- The variety step at threshold ten changes at most the oracle position. -/
theorem menuVariety10_fields (m : List StructureType) (s : EngineState) :
    (menuVariety10 m s).2.lineNumber = s.lineNumber
  ∧ (menuVariety10 m s).2.hasImports = s.hasImports
  ∧ (menuVariety10 m s).2.structureCount = s.structureCount
  ∧ (menuVariety10 m s).2.recentStructures = s.recentStructures
  ∧ (menuVariety10 m s).2.hasExports = s.hasExports := by
  unfold menuVariety10
  dsimp only
  repeat' split
  all_goals exact ⟨rfl, rfl, rfl, rfl, rfl⟩

/-- The variety step at threshold fifteen changes at most the oracle position. -/
theorem menuVariety15_fields (m : List StructureType) (s : EngineState) :
    (menuVariety15 m s).2.lineNumber = s.lineNumber
  ∧ (menuVariety15 m s).2.hasImports = s.hasImports
  ∧ (menuVariety15 m s).2.structureCount = s.structureCount
  ∧ (menuVariety15 m s).2.recentStructures = s.recentStructures
  ∧ (menuVariety15 m s).2.hasExports = s.hasExports := by
  unfold menuVariety15
  dsimp only
  repeat' split
  all_goals exact ⟨rfl, rfl, rfl, rfl, rfl⟩

/-- `selectStructure` leaves the line counter unchanged. -/
theorem selectStructure_lineNumber (n : Nat) (ty : TextType) (s : EngineState) :
    (selectStructure n ty s).2.lineNumber = s.lineNumber := by
  show (menuVariety15 (menuVariety10 (menuWithImport n s) s).1
      (menuVariety10 (menuWithImport n s) s).2).2.lineNumber = s.lineNumber
  rw [(menuVariety15_fields _ _).1, (menuVariety10_fields _ _).1]

/-- `processParagraph` numbers its lines consecutively. -/
theorem processParagraph_linesOk (t : Str) (s : EngineState) :
    LinesOk s.lineNumber (processParagraph t s).1 (processParagraph t s).2.lineNumber := by
  unfold processParagraph
  dsimp only
  split
  · exact toStringLiteral_linesOk _ _
  · split
    · exact toArrayLiteral_linesOk _ _
    · split
      · exact toConditional_linesOk _ _
      · split
        · exact linesOk_cast (selectStructure_lineNumber _ _ _) (toImportStatement_linesOk _ _)
        · exact linesOk_cast (selectStructure_lineNumber _ _ _) (toTypeDefinition_linesOk _ _)
        · exact linesOk_cast (selectStructure_lineNumber _ _ _) (toInterfaceDefinition_linesOk _ _)
        · exact linesOk_cast (selectStructure_lineNumber _ _ _) (toClassDefinition_linesOk _ _)
        · exact linesOk_cast (selectStructure_lineNumber _ _ _) (toConstStatement_linesOk _ _)
        · exact linesOk_cast (selectStructure_lineNumber _ _ _) (toFunction_linesOk _ _)
        · exact linesOk_cast (selectStructure_lineNumber _ _ _) (toAsyncFunction_linesOk _ _)
        · exact linesOk_cast (selectStructure_lineNumber _ _ _) (toArrowFunction_linesOk _ _)
        · exact linesOk_cast (selectStructure_lineNumber _ _ _) (toGenericFunction_linesOk _ _)
        · exact linesOk_cast (selectStructure_lineNumber _ _ _) (toMethodDefinition_linesOk _ _)
        · exact linesOk_cast (selectStructure_lineNumber _ _ _) (toJSDoc_linesOk _ _)
        · exact linesOk_cast (selectStructure_lineNumber _ _ _) (toBlockComment_linesOk _ _)
        · exact linesOk_cast (selectStructure_lineNumber _ _ _) (toInlineComment_linesOk _ _)
        · exact linesOk_cast (selectStructure_lineNumber _ _ _) (toConsoleLog_linesOk _ _)
        · exact linesOk_cast (selectStructure_lineNumber _ _ _) (toTypeGuard_linesOk _ _)
        · exact linesOk_cast (selectStructure_lineNumber _ _ _) (toMappedType_linesOk _ _)
        · exact linesOk_cast (selectStructure_lineNumber _ _ _) (toTemplateLiteralType_linesOk _ _)
        · exact linesOk_cast (selectStructure_lineNumber _ _ _) (toNamespace_linesOk _ _)
        · exact linesOk_cast (selectStructure_lineNumber _ _ _) (toDestructuring_linesOk _ _)
        · exact linesOk_cast (selectStructure_lineNumber _ _ _) (toArrayChain_linesOk _ _)
        · exact linesOk_cast (selectStructure_lineNumber _ _ _) (toOptionalChaining_linesOk _ _)
        · exact linesOk_cast (selectStructure_lineNumber _ _ _) (toNullishCoalescing_linesOk _ _)
        · exact linesOk_cast (selectStructure_lineNumber _ _ _) (toExportStatement_linesOk _ _)

/-- `processChunks` numbers its lines consecutively. -/
theorem processChunks_linesOk (chunks : List Str) (s : EngineState) :
    LinesOk s.lineNumber (processChunks chunks s).1 (processChunks chunks s).2.lineNumber := by
  induction chunks generalizing s with
  | nil => exact linesOk_nil _
  | cons c cs ih =>
      show LinesOk s.lineNumber
        ((processParagraph c s).1 ++ (processChunks cs (processParagraph c s).2).1)
        (processChunks cs (processParagraph c s).2).2.lineNumber
      exact linesOk_append (processParagraph_linesOk _ _) (ih _)

/-- `processTextLines` numbers its lines consecutively. -/
theorem processTextLines_linesOk (textLines : List Str) (b : Bool) (s : EngineState) :
    LinesOk s.lineNumber (processTextLines textLines b s).1
      (processTextLines textLines b s).2.lineNumber := by
  induction textLines generalizing b s with
  | nil => exact linesOk_nil _
  | cons line rest ih =>
      unfold processTextLines
      dsimp only
      split
      · -- blank line
        split
        · exact linesOk_append (linesOk_emitAll _ _) (ih _ _)
        · exact linesOk_append (linesOk_nil _) (ih _ _)
      · -- content line
        split
        · exact linesOk_append
            (linesOk_append (processChunks_linesOk _ _) (linesOk_emitAll _ _)) (ih _ _)
        · exact linesOk_append
            (linesOk_append (processChunks_linesOk _ _) (linesOk_nil _)) (ih _ _)

/-- `processParts` numbers its lines consecutively. -/
theorem processParts_linesOk (parts : List Str) (odd : Bool) (s : EngineState) :
    LinesOk s.lineNumber (processParts parts odd s).1
      (processParts parts odd s).2.lineNumber := by
  induction parts generalizing odd s with
  | nil => exact linesOk_nil _
  | cons part rest ih =>
      unfold processParts
      dsimp only
      split
      · exact linesOk_append
          (linesOk_append (createImageElement_linesOk _ _) (linesOk_emitAll _ _)) (ih _ _)
      · split
        · exact linesOk_append (processTextLines_linesOk _ _ _) (ih _ _)
        · exact linesOk_append (linesOk_nil _) (ih _ _)

set_option maxHeartbeats 1600000 in
/-- `transform` numbers its lines consecutively from the incoming counter. -/
theorem transform_linesOk (text : Str) (s : EngineState) :
    LinesOk s.lineNumber (transform text s).1 (transform text s).2.lineNumber := by
  unfold transform
  dsimp only
  generalize (if (splitOnNl text).getD 0 [] = [] then text
    else (splitOnNl text).getD 0 []) = arg0
  split
  · split
    · split
      · exact linesOk_append (linesOk_append (linesOk_append
          (toImportStatement_linesOk _ _) (processParts_linesOk _ _ _))
          (linesOk_emitAll _ _)) (toExportStatement_linesOk _ _)
      · exact linesOk_append (toImportStatement_linesOk _ _) (processParts_linesOk _ _ _)
    · exact linesOk_append (toImportStatement_linesOk _ _) (processParts_linesOk _ _ _)
  · split
    · split
      · exact linesOk_append (linesOk_append (linesOk_append
          (linesOk_nil _) (processParts_linesOk _ _ _))
          (linesOk_emitAll _ _)) (toExportStatement_linesOk _ _)
      · exact linesOk_append (linesOk_nil _) (processParts_linesOk _ _ _)
    · exact linesOk_append (linesOk_nil _) (processParts_linesOk _ _ _)


/-- C3: Line numbering monotonicity — the `OutputLine` sequence returned by
    a single call to `transform` following one `reset` is numbered exactly
    `1, 2, 3, ...` (the `i`-th line carries number `i + 1`), with no gaps or
    repeats, for every input text and every sequence of random choices. -/
theorem C3_line_numbering (text : Str) (g : Nat → ℚ) :
    ((transform text (initState g)).1).map CodeLineData.ln
      = List.range' 1 ((transform text (initState g)).1).length :=
  (transform_linesOk text (initState g)).1

/-! ### Import one-shot infrastructure (claim C6) -/

/-- The markup head that exactly the import-statement template carries:
    every other emitted line starts with a different fixed literal. -/
def importMarker : Str := "<span class=\"text-cursor-keyword\">import</span>".data

/-- Is this output line an import-statement line? -/
def isImportLine (l : CodeLineData) : Bool := importMarker.isPrefixOf l.content

/-- Number of import-statement lines in an output list. -/
def countImportLines (ls : List CodeLineData) : Nat := (ls.filter isImportLine).length

/-- How many further import lines the engine state still admits. -/
def importBudget (s : EngineState) : Nat := if s.hasImports then 0 else 1

/-- A pipeline step emits no more import lines than its budget allows, and
    what remains is accounted by the outgoing state. -/
def ImportsOk (s : EngineState) (ls : List CodeLineData) (s' : EngineState) : Prop :=
  countImportLines ls + importBudget s' ≤ importBudget s

theorem countImportLines_append (ls₁ ls₂ : List CodeLineData) :
    countImportLines (ls₁ ++ ls₂) = countImportLines ls₁ + countImportLines ls₂ := by
  simp [countImportLines, List.filter_append]

theorem importsOk_trans {s s₁ s₂ : EngineState} {ls₁ ls₂ : List CodeLineData}
    (h₁ : ImportsOk s ls₁ s₁) (h₂ : ImportsOk s₁ ls₂ s₂) :
    ImportsOk s (ls₁ ++ ls₂) s₂ := by
  unfold ImportsOk at h₁ h₂ ⊢
  rw [countImportLines_append]
  omega

/-- A prefix mismatch inside the head rules out the whole concatenation. -/
theorem not_isPrefixOf_append (m head rest : Str)
    (h : (m.take head.length).isPrefixOf head = false) :
    m.isPrefixOf (head ++ rest) = false := by
  induction head generalizing m with
  | nil => simp [List.isPrefixOf] at h
  | cons a hd ih =>
    cases m with
    | nil => simp [List.isPrefixOf] at h
    | cons b mtl =>
      simp only [List.take, List.length_cons, List.cons_append, List.isPrefixOf] at h ⊢
      by_cases hba : b = a
      · subst hba
        simp only [beq_self_eq_true, Bool.true_and] at h ⊢
        exact ih mtl h
      · simp [hba]

theorem isPrefixOf_append_left (m head rest : Str)
    (h : m.isPrefixOf head = true) : m.isPrefixOf (head ++ rest) = true := by
  induction head generalizing m with
  | nil =>
      cases m with
      | nil => simp [List.isPrefixOf]
      | cons b mtl => simp [List.isPrefixOf] at h
  | cons a hd ih =>
    cases m with
    | nil => simp [List.isPrefixOf]
    | cons b mtl =>
      simp only [List.cons_append, List.isPrefixOf, Bool.and_eq_true] at h ⊢
      exact ⟨h.1, ih mtl h.2⟩

/-- Every line produced by `emitAll` carries one of the given contents. -/
theorem emitAll_content_mem (cs : List Str) (s : EngineState) (l : CodeLineData)
    (h : l ∈ (emitAll cs s).1) : l.content ∈ cs := by
  induction cs generalizing s with
  | nil => simp [emitAll] at h
  | cons c cs ih =>
      unfold emitAll at h
      dsimp only at h
      rcases List.mem_cons.mp h with rfl | h
      · exact List.mem_cons_self _ _
      · exact List.mem_cons_of_mem _ (ih _ h)

/-- `emitAll` does not touch the import flag. -/
theorem emitAll_hasImports (cs : List Str) (s : EngineState) :
    (emitAll cs s).2.hasImports = s.hasImports := by
  induction cs generalizing s with
  | nil => rfl
  | cons c cs ih => exact ih { s with lineNumber := s.lineNumber + 1 }

theorem countImportLines_eq_zero {ls : List CodeLineData}
    (h : ∀ l ∈ ls, isImportLine l = false) : countImportLines ls = 0 := by
  unfold countImportLines
  rw [List.filter_eq_nil_iff.mpr (fun a ha => by simp [h a ha])]
  rfl

theorem importsOk_of_noImport {s s' : EngineState} {ls : List CodeLineData}
    (h : ∀ l ∈ ls, isImportLine l = false)
    (hfl : s'.hasImports = s.hasImports) : ImportsOk s ls s' := by
  unfold ImportsOk importBudget
  rw [countImportLines_eq_zero h, hfl]
  omega

/-- Cutting both sides to the same window preserves the prefix relation. -/
theorem isPrefixOf_take (m l : Str) (n : Nat) (h : m.isPrefixOf l = true) :
    (m.take n).isPrefixOf (l.take n) = true := by
  induction n generalizing m l with
  | zero => simp [List.isPrefixOf]
  | succ n ih =>
      cases m with
      | nil => simp [List.isPrefixOf]
      | cons a as =>
          cases l with
          | nil => simp [List.isPrefixOf] at h
          | cons b bs =>
              simp only [List.take, List.isPrefixOf, Bool.and_eq_true] at h ⊢
              exact ⟨h.1, ih _ _ h.2⟩

/-- A mismatch inside the first `n` characters refutes the whole prefix
    test — and the `n`-character windows stay computable even when the
    tail of `l` is symbolic. -/
theorem not_isPrefixOf_of_take (m l : Str) (n : Nat)
    (h : (m.take n).isPrefixOf (l.take n) = false) : m.isPrefixOf l = false := by
  cases hp : m.isPrefixOf l
  · rfl
  · rw [isPrefixOf_take m l n hp] at h
    simp at h

/-- Membership in a conditionally emitted singleton pins the element. -/
theorem mem_ite_singleton {c x : Str} {P : Prop} [Decidable P]
    (h : c ∈ (if P then [x] else [])) : c = x := by
  split at h
  · exact List.mem_singleton.mp h
  · exact absurd h (List.not_mem_nil _)

/-- Lines emitted from import-free contents are import-free. -/
theorem noImport_of_contents (cs : List Str) (s : EngineState)
    (h : ∀ content ∈ cs, importMarker.isPrefixOf content = false) :
    ∀ l ∈ (emitAll cs s).1, isImportLine l = false := by
  intro l hl
  have hc := emitAll_content_mem _ _ _ hl
  unfold isImportLine
  exact h _ hc


/-- No line of `toStringLiteral` is an import-statement line. -/
theorem toStringLiteral_noImport (t : Str) (s : EngineState) :
    ∀ l ∈ (toStringLiteral t s).1, isImportLine l = false := by
  unfold toStringLiteral
  dsimp only
  by_cases hbl : (breakLines (escapeString t) (SOFT_LINE_LENGTH - 20)).length = 1
  · rw [if_pos hbl]
    refine noImport_of_contents _ _ ?_
    repeat' first
      | exact fun c hc => absurd hc (List.not_mem_nil _)
      | refine List.forall_mem_append.mpr ⟨?_, ?_⟩
      | refine List.forall_mem_cons.mpr ⟨not_isPrefixOf_of_take _ _ 47 rfl, ?_⟩
      | (intro c hc
         obtain ⟨a, ha, rfl⟩ := List.mem_map.mp hc
         exact not_isPrefixOf_of_take _ _ 47 rfl)
      | (intro c hc
         rw [List.mem_mapIdx] at hc
         obtain ⟨i, hi, rfl⟩ := hc
         exact not_isPrefixOf_of_take _ _ 47 rfl)
      | (intro c hc
         obtain ⟨sub, hsub, hcin⟩ := List.mem_flatten.mp hc
         rw [List.mem_mapIdx] at hsub
         obtain ⟨i, hi, rfl⟩ := hsub
         (try dsimp only at hcin)
         rw [mem_ite_singleton hcin]
         exact not_isPrefixOf_of_take _ _ 47 rfl)
  · rw [if_neg hbl]
    refine noImport_of_contents _ _ ?_
    repeat' first
      | exact fun c hc => absurd hc (List.not_mem_nil _)
      | refine List.forall_mem_append.mpr ⟨?_, ?_⟩
      | refine List.forall_mem_cons.mpr ⟨not_isPrefixOf_of_take _ _ 47 rfl, ?_⟩
      | (intro c hc
         obtain ⟨a, ha, rfl⟩ := List.mem_map.mp hc
         exact not_isPrefixOf_of_take _ _ 47 rfl)
      | (intro c hc
         rw [List.mem_mapIdx] at hc
         obtain ⟨i, hi, rfl⟩ := hc
         exact not_isPrefixOf_of_take _ _ 47 rfl)
      | (intro c hc
         obtain ⟨sub, hsub, hcin⟩ := List.mem_flatten.mp hc
         rw [List.mem_mapIdx] at hsub
         obtain ⟨i, hi, rfl⟩ := hsub
         (try dsimp only at hcin)
         rw [mem_ite_singleton hcin]
         exact not_isPrefixOf_of_take _ _ 47 rfl)

/-- No line of `toArrayLiteral` is an import-statement line. -/
theorem toArrayLiteral_noImport (t : Str) (s : EngineState) :
    ∀ l ∈ (toArrayLiteral t s).1, isImportLine l = false := by
  unfold toArrayLiteral
  dsimp only
  refine noImport_of_contents _ _ ?_
  repeat' first
    | exact fun c hc => absurd hc (List.not_mem_nil _)
    | refine List.forall_mem_append.mpr ⟨?_, ?_⟩
    | refine List.forall_mem_cons.mpr ⟨not_isPrefixOf_of_take _ _ 47 rfl, ?_⟩
    | (intro c hc
       obtain ⟨a, ha, rfl⟩ := List.mem_map.mp hc
       exact not_isPrefixOf_of_take _ _ 47 rfl)
    | (intro c hc
       rw [List.mem_mapIdx] at hc
       obtain ⟨i, hi, rfl⟩ := hc
       exact not_isPrefixOf_of_take _ _ 47 rfl)
    | (intro c hc
       obtain ⟨sub, hsub, hcin⟩ := List.mem_flatten.mp hc
       rw [List.mem_mapIdx] at hsub
       obtain ⟨i, hi, rfl⟩ := hsub
       (try dsimp only at hcin)
       rw [mem_ite_singleton hcin]
       exact not_isPrefixOf_of_take _ _ 47 rfl)

/-- No line of `toConditional` is an import-statement line. -/
theorem toConditional_noImport (t : Str) (s : EngineState) :
    ∀ l ∈ (toConditional t s).1, isImportLine l = false := by
  unfold toConditional
  dsimp only
  by_cases hbl : (breakLines (escapeString t) (SOFT_LINE_LENGTH - 10)).length = 1
  · rw [if_pos hbl]
    refine noImport_of_contents _ _ ?_
    repeat' first
      | exact fun c hc => absurd hc (List.not_mem_nil _)
      | refine List.forall_mem_append.mpr ⟨?_, ?_⟩
      | refine List.forall_mem_cons.mpr ⟨not_isPrefixOf_of_take _ _ 47 rfl, ?_⟩
      | (intro c hc
         obtain ⟨a, ha, rfl⟩ := List.mem_map.mp hc
         exact not_isPrefixOf_of_take _ _ 47 rfl)
      | (intro c hc
         rw [List.mem_mapIdx] at hc
         obtain ⟨i, hi, rfl⟩ := hc
         exact not_isPrefixOf_of_take _ _ 47 rfl)
      | (intro c hc
         obtain ⟨sub, hsub, hcin⟩ := List.mem_flatten.mp hc
         rw [List.mem_mapIdx] at hsub
         obtain ⟨i, hi, rfl⟩ := hsub
         (try dsimp only at hcin)
         rw [mem_ite_singleton hcin]
         exact not_isPrefixOf_of_take _ _ 47 rfl)
  · rw [if_neg hbl]
    refine noImport_of_contents _ _ ?_
    repeat' first
      | exact fun c hc => absurd hc (List.not_mem_nil _)
      | refine List.forall_mem_append.mpr ⟨?_, ?_⟩
      | refine List.forall_mem_cons.mpr ⟨not_isPrefixOf_of_take _ _ 47 rfl, ?_⟩
      | (intro c hc
         obtain ⟨a, ha, rfl⟩ := List.mem_map.mp hc
         exact not_isPrefixOf_of_take _ _ 47 rfl)
      | (intro c hc
         rw [List.mem_mapIdx] at hc
         obtain ⟨i, hi, rfl⟩ := hc
         exact not_isPrefixOf_of_take _ _ 47 rfl)
      | (intro c hc
         obtain ⟨sub, hsub, hcin⟩ := List.mem_flatten.mp hc
         rw [List.mem_mapIdx] at hsub
         obtain ⟨i, hi, rfl⟩ := hsub
         (try dsimp only at hcin)
         rw [mem_ite_singleton hcin]
         exact not_isPrefixOf_of_take _ _ 47 rfl)

/-- No line of `toMethodDefinition` is an import-statement line. -/
theorem toMethodDefinition_noImport (t : Str) (s : EngineState) :
    ∀ l ∈ (toMethodDefinition t s).1, isImportLine l = false := by
  unfold toMethodDefinition
  dsimp only
  by_cases hbl : (breakLines (escapeString t) (SOFT_LINE_LENGTH - 10)).length = 1
  · rw [if_pos hbl]
    refine noImport_of_contents _ _ ?_
    repeat' first
      | exact fun c hc => absurd hc (List.not_mem_nil _)
      | refine List.forall_mem_append.mpr ⟨?_, ?_⟩
      | refine List.forall_mem_cons.mpr ⟨not_isPrefixOf_of_take _ _ 47 rfl, ?_⟩
      | (intro c hc
         obtain ⟨a, ha, rfl⟩ := List.mem_map.mp hc
         exact not_isPrefixOf_of_take _ _ 47 rfl)
      | (intro c hc
         rw [List.mem_mapIdx] at hc
         obtain ⟨i, hi, rfl⟩ := hc
         exact not_isPrefixOf_of_take _ _ 47 rfl)
      | (intro c hc
         obtain ⟨sub, hsub, hcin⟩ := List.mem_flatten.mp hc
         rw [List.mem_mapIdx] at hsub
         obtain ⟨i, hi, rfl⟩ := hsub
         (try dsimp only at hcin)
         rw [mem_ite_singleton hcin]
         exact not_isPrefixOf_of_take _ _ 47 rfl)
  · rw [if_neg hbl]
    refine noImport_of_contents _ _ ?_
    repeat' first
      | exact fun c hc => absurd hc (List.not_mem_nil _)
      | refine List.forall_mem_append.mpr ⟨?_, ?_⟩
      | refine List.forall_mem_cons.mpr ⟨not_isPrefixOf_of_take _ _ 47 rfl, ?_⟩
      | (intro c hc
         obtain ⟨a, ha, rfl⟩ := List.mem_map.mp hc
         exact not_isPrefixOf_of_take _ _ 47 rfl)
      | (intro c hc
         rw [List.mem_mapIdx] at hc
         obtain ⟨i, hi, rfl⟩ := hc
         exact not_isPrefixOf_of_take _ _ 47 rfl)
      | (intro c hc
         obtain ⟨sub, hsub, hcin⟩ := List.mem_flatten.mp hc
         rw [List.mem_mapIdx] at hsub
         obtain ⟨i, hi, rfl⟩ := hsub
         (try dsimp only at hcin)
         rw [mem_ite_singleton hcin]
         exact not_isPrefixOf_of_take _ _ 47 rfl)

/-- No line of `toInterfaceDefinition` is an import-statement line. -/
theorem toInterfaceDefinition_noImport (t : Str) (s : EngineState) :
    ∀ l ∈ (toInterfaceDefinition t s).1, isImportLine l = false := by
  unfold toInterfaceDefinition
  dsimp only
  refine noImport_of_contents _ _ ?_
  repeat' first
    | exact fun c hc => absurd hc (List.not_mem_nil _)
    | refine List.forall_mem_append.mpr ⟨?_, ?_⟩
    | refine List.forall_mem_cons.mpr ⟨not_isPrefixOf_of_take _ _ 47 rfl, ?_⟩
    | (intro c hc
       obtain ⟨a, ha, rfl⟩ := List.mem_map.mp hc
       exact not_isPrefixOf_of_take _ _ 47 rfl)
    | (intro c hc
       rw [List.mem_mapIdx] at hc
       obtain ⟨i, hi, rfl⟩ := hc
       exact not_isPrefixOf_of_take _ _ 47 rfl)
    | (intro c hc
       obtain ⟨sub, hsub, hcin⟩ := List.mem_flatten.mp hc
       rw [List.mem_mapIdx] at hsub
       obtain ⟨i, hi, rfl⟩ := hsub
       (try dsimp only at hcin)
       rw [mem_ite_singleton hcin]
       exact not_isPrefixOf_of_take _ _ 47 rfl)

/-- No line of `toClassDefinition` is an import-statement line. -/
theorem toClassDefinition_noImport (t : Str) (s : EngineState) :
    ∀ l ∈ (toClassDefinition t s).1, isImportLine l = false := by
  unfold toClassDefinition
  dsimp only
  refine noImport_of_contents _ _ ?_
  repeat' first
    | exact fun c hc => absurd hc (List.not_mem_nil _)
    | refine List.forall_mem_append.mpr ⟨?_, ?_⟩
    | refine List.forall_mem_cons.mpr ⟨not_isPrefixOf_of_take _ _ 47 rfl, ?_⟩
    | (intro c hc
       obtain ⟨a, ha, rfl⟩ := List.mem_map.mp hc
       exact not_isPrefixOf_of_take _ _ 47 rfl)
    | (intro c hc
       rw [List.mem_mapIdx] at hc
       obtain ⟨i, hi, rfl⟩ := hc
       exact not_isPrefixOf_of_take _ _ 47 rfl)
    | (intro c hc
       obtain ⟨sub, hsub, hcin⟩ := List.mem_flatten.mp hc
       rw [List.mem_mapIdx] at hsub
       obtain ⟨i, hi, rfl⟩ := hsub
       (try dsimp only at hcin)
       rw [mem_ite_singleton hcin]
       exact not_isPrefixOf_of_take _ _ 47 rfl)

/-- No line of `toAsyncFunction` is an import-statement line. -/
theorem toAsyncFunction_noImport (t : Str) (s : EngineState) :
    ∀ l ∈ (toAsyncFunction t s).1, isImportLine l = false := by
  unfold toAsyncFunction
  dsimp only
  by_cases hbl : (breakLines (escapeString t) (SOFT_LINE_LENGTH - 10)).length = 1
  · rw [if_pos hbl]
    refine noImport_of_contents _ _ ?_
    repeat' first
      | exact fun c hc => absurd hc (List.not_mem_nil _)
      | refine List.forall_mem_append.mpr ⟨?_, ?_⟩
      | refine List.forall_mem_cons.mpr ⟨not_isPrefixOf_of_take _ _ 47 rfl, ?_⟩
      | (intro c hc
         obtain ⟨a, ha, rfl⟩ := List.mem_map.mp hc
         exact not_isPrefixOf_of_take _ _ 47 rfl)
      | (intro c hc
         rw [List.mem_mapIdx] at hc
         obtain ⟨i, hi, rfl⟩ := hc
         exact not_isPrefixOf_of_take _ _ 47 rfl)
      | (intro c hc
         obtain ⟨sub, hsub, hcin⟩ := List.mem_flatten.mp hc
         rw [List.mem_mapIdx] at hsub
         obtain ⟨i, hi, rfl⟩ := hsub
         (try dsimp only at hcin)
         rw [mem_ite_singleton hcin]
         exact not_isPrefixOf_of_take _ _ 47 rfl)
  · rw [if_neg hbl]
    refine noImport_of_contents _ _ ?_
    repeat' first
      | exact fun c hc => absurd hc (List.not_mem_nil _)
      | refine List.forall_mem_append.mpr ⟨?_, ?_⟩
      | refine List.forall_mem_cons.mpr ⟨not_isPrefixOf_of_take _ _ 47 rfl, ?_⟩
      | (intro c hc
         obtain ⟨a, ha, rfl⟩ := List.mem_map.mp hc
         exact not_isPrefixOf_of_take _ _ 47 rfl)
      | (intro c hc
         rw [List.mem_mapIdx] at hc
         obtain ⟨i, hi, rfl⟩ := hc
         exact not_isPrefixOf_of_take _ _ 47 rfl)
      | (intro c hc
         obtain ⟨sub, hsub, hcin⟩ := List.mem_flatten.mp hc
         rw [List.mem_mapIdx] at hsub
         obtain ⟨i, hi, rfl⟩ := hsub
         (try dsimp only at hcin)
         rw [mem_ite_singleton hcin]
         exact not_isPrefixOf_of_take _ _ 47 rfl)

/-- No line of `toGenericFunction` is an import-statement line. -/
theorem toGenericFunction_noImport (t : Str) (s : EngineState) :
    ∀ l ∈ (toGenericFunction t s).1, isImportLine l = false := by
  unfold toGenericFunction
  dsimp only
  by_cases hbl : (breakLines (escapeString t) (SOFT_LINE_LENGTH - 10)).length = 1
  · rw [if_pos hbl]
    refine noImport_of_contents _ _ ?_
    repeat' first
      | exact fun c hc => absurd hc (List.not_mem_nil _)
      | refine List.forall_mem_append.mpr ⟨?_, ?_⟩
      | refine List.forall_mem_cons.mpr ⟨not_isPrefixOf_of_take _ _ 47 rfl, ?_⟩
      | (intro c hc
         obtain ⟨a, ha, rfl⟩ := List.mem_map.mp hc
         exact not_isPrefixOf_of_take _ _ 47 rfl)
      | (intro c hc
         rw [List.mem_mapIdx] at hc
         obtain ⟨i, hi, rfl⟩ := hc
         exact not_isPrefixOf_of_take _ _ 47 rfl)
      | (intro c hc
         obtain ⟨sub, hsub, hcin⟩ := List.mem_flatten.mp hc
         rw [List.mem_mapIdx] at hsub
         obtain ⟨i, hi, rfl⟩ := hsub
         (try dsimp only at hcin)
         rw [mem_ite_singleton hcin]
         exact not_isPrefixOf_of_take _ _ 47 rfl)
  · rw [if_neg hbl]
    refine noImport_of_contents _ _ ?_
    repeat' first
      | exact fun c hc => absurd hc (List.not_mem_nil _)
      | refine List.forall_mem_append.mpr ⟨?_, ?_⟩
      | refine List.forall_mem_cons.mpr ⟨not_isPrefixOf_of_take _ _ 47 rfl, ?_⟩
      | (intro c hc
         obtain ⟨a, ha, rfl⟩ := List.mem_map.mp hc
         exact not_isPrefixOf_of_take _ _ 47 rfl)
      | (intro c hc
         rw [List.mem_mapIdx] at hc
         obtain ⟨i, hi, rfl⟩ := hc
         exact not_isPrefixOf_of_take _ _ 47 rfl)
      | (intro c hc
         obtain ⟨sub, hsub, hcin⟩ := List.mem_flatten.mp hc
         rw [List.mem_mapIdx] at hsub
         obtain ⟨i, hi, rfl⟩ := hsub
         (try dsimp only at hcin)
         rw [mem_ite_singleton hcin]
         exact not_isPrefixOf_of_take _ _ 47 rfl)

/-- No line of `toArrowFunction` is an import-statement line. -/
theorem toArrowFunction_noImport (t : Str) (s : EngineState) :
    ∀ l ∈ (toArrowFunction t s).1, isImportLine l = false := by
  unfold toArrowFunction
  dsimp only
  by_cases hbl : (breakLines (escapeString t) (SOFT_LINE_LENGTH - 30)).length = 1
  · rw [if_pos hbl]
    refine noImport_of_contents _ _ ?_
    repeat' first
      | exact fun c hc => absurd hc (List.not_mem_nil _)
      | refine List.forall_mem_append.mpr ⟨?_, ?_⟩
      | refine List.forall_mem_cons.mpr ⟨not_isPrefixOf_of_take _ _ 47 rfl, ?_⟩
      | (intro c hc
         obtain ⟨a, ha, rfl⟩ := List.mem_map.mp hc
         exact not_isPrefixOf_of_take _ _ 47 rfl)
      | (intro c hc
         rw [List.mem_mapIdx] at hc
         obtain ⟨i, hi, rfl⟩ := hc
         exact not_isPrefixOf_of_take _ _ 47 rfl)
      | (intro c hc
         obtain ⟨sub, hsub, hcin⟩ := List.mem_flatten.mp hc
         rw [List.mem_mapIdx] at hsub
         obtain ⟨i, hi, rfl⟩ := hsub
         (try dsimp only at hcin)
         rw [mem_ite_singleton hcin]
         exact not_isPrefixOf_of_take _ _ 47 rfl)
  · rw [if_neg hbl]
    refine noImport_of_contents _ _ ?_
    repeat' first
      | exact fun c hc => absurd hc (List.not_mem_nil _)
      | refine List.forall_mem_append.mpr ⟨?_, ?_⟩
      | refine List.forall_mem_cons.mpr ⟨not_isPrefixOf_of_take _ _ 47 rfl, ?_⟩
      | (intro c hc
         obtain ⟨a, ha, rfl⟩ := List.mem_map.mp hc
         exact not_isPrefixOf_of_take _ _ 47 rfl)
      | (intro c hc
         rw [List.mem_mapIdx] at hc
         obtain ⟨i, hi, rfl⟩ := hc
         exact not_isPrefixOf_of_take _ _ 47 rfl)
      | (intro c hc
         obtain ⟨sub, hsub, hcin⟩ := List.mem_flatten.mp hc
         rw [List.mem_mapIdx] at hsub
         obtain ⟨i, hi, rfl⟩ := hsub
         (try dsimp only at hcin)
         rw [mem_ite_singleton hcin]
         exact not_isPrefixOf_of_take _ _ 47 rfl)

/-- No line of `toFunction` is an import-statement line. -/
theorem toFunction_noImport (t : Str) (s : EngineState) :
    ∀ l ∈ (toFunction t s).1, isImportLine l = false := by
  unfold toFunction
  dsimp only
  by_cases hbl : (breakLines (escapeString t) (SOFT_LINE_LENGTH - 10)).length = 1
  · rw [if_pos hbl]
    refine noImport_of_contents _ _ ?_
    repeat' first
      | exact fun c hc => absurd hc (List.not_mem_nil _)
      | refine List.forall_mem_append.mpr ⟨?_, ?_⟩
      | refine List.forall_mem_cons.mpr ⟨not_isPrefixOf_of_take _ _ 47 rfl, ?_⟩
      | (intro c hc
         obtain ⟨a, ha, rfl⟩ := List.mem_map.mp hc
         exact not_isPrefixOf_of_take _ _ 47 rfl)
      | (intro c hc
         rw [List.mem_mapIdx] at hc
         obtain ⟨i, hi, rfl⟩ := hc
         exact not_isPrefixOf_of_take _ _ 47 rfl)
      | (intro c hc
         obtain ⟨sub, hsub, hcin⟩ := List.mem_flatten.mp hc
         rw [List.mem_mapIdx] at hsub
         obtain ⟨i, hi, rfl⟩ := hsub
         (try dsimp only at hcin)
         rw [mem_ite_singleton hcin]
         exact not_isPrefixOf_of_take _ _ 47 rfl)
  · rw [if_neg hbl]
    refine noImport_of_contents _ _ ?_
    repeat' first
      | exact fun c hc => absurd hc (List.not_mem_nil _)
      | refine List.forall_mem_append.mpr ⟨?_, ?_⟩
      | refine List.forall_mem_cons.mpr ⟨not_isPrefixOf_of_take _ _ 47 rfl, ?_⟩
      | (intro c hc
         obtain ⟨a, ha, rfl⟩ := List.mem_map.mp hc
         exact not_isPrefixOf_of_take _ _ 47 rfl)
      | (intro c hc
         rw [List.mem_mapIdx] at hc
         obtain ⟨i, hi, rfl⟩ := hc
         exact not_isPrefixOf_of_take _ _ 47 rfl)
      | (intro c hc
         obtain ⟨sub, hsub, hcin⟩ := List.mem_flatten.mp hc
         rw [List.mem_mapIdx] at hsub
         obtain ⟨i, hi, rfl⟩ := hsub
         (try dsimp only at hcin)
         rw [mem_ite_singleton hcin]
         exact not_isPrefixOf_of_take _ _ 47 rfl)

/-- No line of `toInlineComment` is an import-statement line. -/
theorem toInlineComment_noImport (t : Str) (s : EngineState) :
    ∀ l ∈ (toInlineComment t s).1, isImportLine l = false := by
  unfold toInlineComment
  dsimp only
  refine noImport_of_contents _ _ ?_
  repeat' first
    | exact fun c hc => absurd hc (List.not_mem_nil _)
    | refine List.forall_mem_append.mpr ⟨?_, ?_⟩
    | refine List.forall_mem_cons.mpr ⟨not_isPrefixOf_of_take _ _ 47 rfl, ?_⟩
    | (intro c hc
       obtain ⟨a, ha, rfl⟩ := List.mem_map.mp hc
       exact not_isPrefixOf_of_take _ _ 47 rfl)
    | (intro c hc
       rw [List.mem_mapIdx] at hc
       obtain ⟨i, hi, rfl⟩ := hc
       exact not_isPrefixOf_of_take _ _ 47 rfl)
    | (intro c hc
       obtain ⟨sub, hsub, hcin⟩ := List.mem_flatten.mp hc
       rw [List.mem_mapIdx] at hsub
       obtain ⟨i, hi, rfl⟩ := hsub
       (try dsimp only at hcin)
       rw [mem_ite_singleton hcin]
       exact not_isPrefixOf_of_take _ _ 47 rfl)

/-- No line of `toBlockComment` is an import-statement line. -/
theorem toBlockComment_noImport (t : Str) (s : EngineState) :
    ∀ l ∈ (toBlockComment t s).1, isImportLine l = false := by
  unfold toBlockComment
  dsimp only
  refine noImport_of_contents _ _ ?_
  repeat' first
    | exact fun c hc => absurd hc (List.not_mem_nil _)
    | refine List.forall_mem_append.mpr ⟨?_, ?_⟩
    | refine List.forall_mem_cons.mpr ⟨not_isPrefixOf_of_take _ _ 47 rfl, ?_⟩
    | (intro c hc
       obtain ⟨a, ha, rfl⟩ := List.mem_map.mp hc
       exact not_isPrefixOf_of_take _ _ 47 rfl)
    | (intro c hc
       rw [List.mem_mapIdx] at hc
       obtain ⟨i, hi, rfl⟩ := hc
       exact not_isPrefixOf_of_take _ _ 47 rfl)
    | (intro c hc
       obtain ⟨sub, hsub, hcin⟩ := List.mem_flatten.mp hc
       rw [List.mem_mapIdx] at hsub
       obtain ⟨i, hi, rfl⟩ := hsub
       (try dsimp only at hcin)
       rw [mem_ite_singleton hcin]
       exact not_isPrefixOf_of_take _ _ 47 rfl)

/-- No line of `toJSDoc` is an import-statement line. -/
theorem toJSDoc_noImport (t : Str) (s : EngineState) :
    ∀ l ∈ (toJSDoc t s).1, isImportLine l = false := by
  unfold toJSDoc
  dsimp only
  refine noImport_of_contents _ _ ?_
  repeat' first
    | exact fun c hc => absurd hc (List.not_mem_nil _)
    | refine List.forall_mem_append.mpr ⟨?_, ?_⟩
    | refine List.forall_mem_cons.mpr ⟨not_isPrefixOf_of_take _ _ 47 rfl, ?_⟩
    | (intro c hc
       obtain ⟨a, ha, rfl⟩ := List.mem_map.mp hc
       exact not_isPrefixOf_of_take _ _ 47 rfl)
    | (intro c hc
       rw [List.mem_mapIdx] at hc
       obtain ⟨i, hi, rfl⟩ := hc
       exact not_isPrefixOf_of_take _ _ 47 rfl)
    | (intro c hc
       obtain ⟨sub, hsub, hcin⟩ := List.mem_flatten.mp hc
       rw [List.mem_mapIdx] at hsub
       obtain ⟨i, hi, rfl⟩ := hsub
       (try dsimp only at hcin)
       rw [mem_ite_singleton hcin]
       exact not_isPrefixOf_of_take _ _ 47 rfl)

/-- No line of `toConsoleLog` is an import-statement line. -/
theorem toConsoleLog_noImport (t : Str) (s : EngineState) :
    ∀ l ∈ (toConsoleLog t s).1, isImportLine l = false := by
  unfold toConsoleLog
  dsimp only
  by_cases hbl : (breakLines (escapeString t) (SOFT_LINE_LENGTH - 20)).length = 1
  · rw [if_pos hbl]
    refine noImport_of_contents _ _ ?_
    repeat' first
      | exact fun c hc => absurd hc (List.not_mem_nil _)
      | refine List.forall_mem_append.mpr ⟨?_, ?_⟩
      | refine List.forall_mem_cons.mpr ⟨not_isPrefixOf_of_take _ _ 47 rfl, ?_⟩
      | (intro c hc
         obtain ⟨a, ha, rfl⟩ := List.mem_map.mp hc
         exact not_isPrefixOf_of_take _ _ 47 rfl)
      | (intro c hc
         rw [List.mem_mapIdx] at hc
         obtain ⟨i, hi, rfl⟩ := hc
         exact not_isPrefixOf_of_take _ _ 47 rfl)
      | (intro c hc
         obtain ⟨sub, hsub, hcin⟩ := List.mem_flatten.mp hc
         rw [List.mem_mapIdx] at hsub
         obtain ⟨i, hi, rfl⟩ := hsub
         (try dsimp only at hcin)
         rw [mem_ite_singleton hcin]
         exact not_isPrefixOf_of_take _ _ 47 rfl)
  · rw [if_neg hbl]
    refine noImport_of_contents _ _ ?_
    repeat' first
      | exact fun c hc => absurd hc (List.not_mem_nil _)
      | refine List.forall_mem_append.mpr ⟨?_, ?_⟩
      | refine List.forall_mem_cons.mpr ⟨not_isPrefixOf_of_take _ _ 47 rfl, ?_⟩
      | (intro c hc
         obtain ⟨a, ha, rfl⟩ := List.mem_map.mp hc
         exact not_isPrefixOf_of_take _ _ 47 rfl)
      | (intro c hc
         rw [List.mem_mapIdx] at hc
         obtain ⟨i, hi, rfl⟩ := hc
         exact not_isPrefixOf_of_take _ _ 47 rfl)
      | (intro c hc
         obtain ⟨sub, hsub, hcin⟩ := List.mem_flatten.mp hc
         rw [List.mem_mapIdx] at hsub
         obtain ⟨i, hi, rfl⟩ := hsub
         (try dsimp only at hcin)
         rw [mem_ite_singleton hcin]
         exact not_isPrefixOf_of_take _ _ 47 rfl)

/-- No line of `toConstStatement` is an import-statement line. -/
theorem toConstStatement_noImport (t : Str) (s : EngineState) :
    ∀ l ∈ (toConstStatement t s).1, isImportLine l = false := by
  unfold toConstStatement
  dsimp only
  by_cases hbl : (breakLines (escapeString t) (SOFT_LINE_LENGTH - 20)).length = 1
  · rw [if_pos hbl]
    refine noImport_of_contents _ _ ?_
    repeat' first
      | exact fun c hc => absurd hc (List.not_mem_nil _)
      | refine List.forall_mem_append.mpr ⟨?_, ?_⟩
      | refine List.forall_mem_cons.mpr ⟨not_isPrefixOf_of_take _ _ 47 rfl, ?_⟩
      | (intro c hc
         obtain ⟨a, ha, rfl⟩ := List.mem_map.mp hc
         exact not_isPrefixOf_of_take _ _ 47 rfl)
      | (intro c hc
         rw [List.mem_mapIdx] at hc
         obtain ⟨i, hi, rfl⟩ := hc
         exact not_isPrefixOf_of_take _ _ 47 rfl)
      | (intro c hc
         obtain ⟨sub, hsub, hcin⟩ := List.mem_flatten.mp hc
         rw [List.mem_mapIdx] at hsub
         obtain ⟨i, hi, rfl⟩ := hsub
         (try dsimp only at hcin)
         rw [mem_ite_singleton hcin]
         exact not_isPrefixOf_of_take _ _ 47 rfl)
  · rw [if_neg hbl]
    refine noImport_of_contents _ _ ?_
    repeat' first
      | exact fun c hc => absurd hc (List.not_mem_nil _)
      | refine List.forall_mem_append.mpr ⟨?_, ?_⟩
      | refine List.forall_mem_cons.mpr ⟨not_isPrefixOf_of_take _ _ 47 rfl, ?_⟩
      | (intro c hc
         obtain ⟨a, ha, rfl⟩ := List.mem_map.mp hc
         exact not_isPrefixOf_of_take _ _ 47 rfl)
      | (intro c hc
         rw [List.mem_mapIdx] at hc
         obtain ⟨i, hi, rfl⟩ := hc
         exact not_isPrefixOf_of_take _ _ 47 rfl)
      | (intro c hc
         obtain ⟨sub, hsub, hcin⟩ := List.mem_flatten.mp hc
         rw [List.mem_mapIdx] at hsub
         obtain ⟨i, hi, rfl⟩ := hsub
         (try dsimp only at hcin)
         rw [mem_ite_singleton hcin]
         exact not_isPrefixOf_of_take _ _ 47 rfl)

/-- No line of `toExportStatement` is an import-statement line. -/
theorem toExportStatement_noImport (t : Str) (s : EngineState) :
    ∀ l ∈ (toExportStatement t s).1, isImportLine l = false := by
  unfold toExportStatement
  dsimp only
  refine noImport_of_contents _ _ ?_
  repeat' first
    | exact fun c hc => absurd hc (List.not_mem_nil _)
    | refine List.forall_mem_append.mpr ⟨?_, ?_⟩
    | refine List.forall_mem_cons.mpr ⟨not_isPrefixOf_of_take _ _ 47 rfl, ?_⟩
    | (intro c hc
       obtain ⟨a, ha, rfl⟩ := List.mem_map.mp hc
       exact not_isPrefixOf_of_take _ _ 47 rfl)
    | (intro c hc
       rw [List.mem_mapIdx] at hc
       obtain ⟨i, hi, rfl⟩ := hc
       exact not_isPrefixOf_of_take _ _ 47 rfl)
    | (intro c hc
       obtain ⟨sub, hsub, hcin⟩ := List.mem_flatten.mp hc
       rw [List.mem_mapIdx] at hsub
       obtain ⟨i, hi, rfl⟩ := hsub
       (try dsimp only at hcin)
       rw [mem_ite_singleton hcin]
       exact not_isPrefixOf_of_take _ _ 47 rfl)

/-- No line of `toTypeDefinition` is an import-statement line. -/
theorem toTypeDefinition_noImport (t : Str) (s : EngineState) :
    ∀ l ∈ (toTypeDefinition t s).1, isImportLine l = false := by
  unfold toTypeDefinition
  dsimp only
  refine noImport_of_contents _ _ ?_
  repeat' first
    | exact fun c hc => absurd hc (List.not_mem_nil _)
    | refine List.forall_mem_append.mpr ⟨?_, ?_⟩
    | refine List.forall_mem_cons.mpr ⟨not_isPrefixOf_of_take _ _ 47 rfl, ?_⟩
    | (intro c hc
       obtain ⟨a, ha, rfl⟩ := List.mem_map.mp hc
       exact not_isPrefixOf_of_take _ _ 47 rfl)
    | (intro c hc
       rw [List.mem_mapIdx] at hc
       obtain ⟨i, hi, rfl⟩ := hc
       exact not_isPrefixOf_of_take _ _ 47 rfl)
    | (intro c hc
       obtain ⟨sub, hsub, hcin⟩ := List.mem_flatten.mp hc
       rw [List.mem_mapIdx] at hsub
       obtain ⟨i, hi, rfl⟩ := hsub
       (try dsimp only at hcin)
       rw [mem_ite_singleton hcin]
       exact not_isPrefixOf_of_take _ _ 47 rfl)

/-- No line of `toTypeGuard` is an import-statement line. -/
theorem toTypeGuard_noImport (t : Str) (s : EngineState) :
    ∀ l ∈ (toTypeGuard t s).1, isImportLine l = false := by
  unfold toTypeGuard
  dsimp only
  refine noImport_of_contents _ _ ?_
  repeat' first
    | exact fun c hc => absurd hc (List.not_mem_nil _)
    | refine List.forall_mem_append.mpr ⟨?_, ?_⟩
    | refine List.forall_mem_cons.mpr ⟨not_isPrefixOf_of_take _ _ 47 rfl, ?_⟩
    | (intro c hc
       obtain ⟨a, ha, rfl⟩ := List.mem_map.mp hc
       exact not_isPrefixOf_of_take _ _ 47 rfl)
    | (intro c hc
       rw [List.mem_mapIdx] at hc
       obtain ⟨i, hi, rfl⟩ := hc
       exact not_isPrefixOf_of_take _ _ 47 rfl)
    | (intro c hc
       obtain ⟨sub, hsub, hcin⟩ := List.mem_flatten.mp hc
       rw [List.mem_mapIdx] at hsub
       obtain ⟨i, hi, rfl⟩ := hsub
       (try dsimp only at hcin)
       rw [mem_ite_singleton hcin]
       exact not_isPrefixOf_of_take _ _ 47 rfl)

/-- No line of `toMappedType` is an import-statement line. -/
theorem toMappedType_noImport (t : Str) (s : EngineState) :
    ∀ l ∈ (toMappedType t s).1, isImportLine l = false := by
  unfold toMappedType
  dsimp only
  refine noImport_of_contents _ _ ?_
  repeat' first
    | exact fun c hc => absurd hc (List.not_mem_nil _)
    | refine List.forall_mem_append.mpr ⟨?_, ?_⟩
    | refine List.forall_mem_cons.mpr ⟨not_isPrefixOf_of_take _ _ 47 rfl, ?_⟩
    | (intro c hc
       obtain ⟨a, ha, rfl⟩ := List.mem_map.mp hc
       exact not_isPrefixOf_of_take _ _ 47 rfl)
    | (intro c hc
       rw [List.mem_mapIdx] at hc
       obtain ⟨i, hi, rfl⟩ := hc
       exact not_isPrefixOf_of_take _ _ 47 rfl)
    | (intro c hc
       obtain ⟨sub, hsub, hcin⟩ := List.mem_flatten.mp hc
       rw [List.mem_mapIdx] at hsub
       obtain ⟨i, hi, rfl⟩ := hsub
       (try dsimp only at hcin)
       rw [mem_ite_singleton hcin]
       exact not_isPrefixOf_of_take _ _ 47 rfl)

/-- No line of `toTemplateLiteralType` is an import-statement line. -/
theorem toTemplateLiteralType_noImport (t : Str) (s : EngineState) :
    ∀ l ∈ (toTemplateLiteralType t s).1, isImportLine l = false := by
  unfold toTemplateLiteralType
  dsimp only
  refine noImport_of_contents _ _ ?_
  repeat' first
    | exact fun c hc => absurd hc (List.not_mem_nil _)
    | refine List.forall_mem_append.mpr ⟨?_, ?_⟩
    | refine List.forall_mem_cons.mpr ⟨not_isPrefixOf_of_take _ _ 47 rfl, ?_⟩
    | (intro c hc
       obtain ⟨a, ha, rfl⟩ := List.mem_map.mp hc
       exact not_isPrefixOf_of_take _ _ 47 rfl)
    | (intro c hc
       rw [List.mem_mapIdx] at hc
       obtain ⟨i, hi, rfl⟩ := hc
       exact not_isPrefixOf_of_take _ _ 47 rfl)
    | (intro c hc
       obtain ⟨sub, hsub, hcin⟩ := List.mem_flatten.mp hc
       rw [List.mem_mapIdx] at hsub
       obtain ⟨i, hi, rfl⟩ := hsub
       (try dsimp only at hcin)
       rw [mem_ite_singleton hcin]
       exact not_isPrefixOf_of_take _ _ 47 rfl)

/-- No line of `toNamespace` is an import-statement line. -/
theorem toNamespace_noImport (t : Str) (s : EngineState) :
    ∀ l ∈ (toNamespace t s).1, isImportLine l = false := by
  unfold toNamespace
  dsimp only
  refine noImport_of_contents _ _ ?_
  repeat' first
    | exact fun c hc => absurd hc (List.not_mem_nil _)
    | refine List.forall_mem_append.mpr ⟨?_, ?_⟩
    | refine List.forall_mem_cons.mpr ⟨not_isPrefixOf_of_take _ _ 47 rfl, ?_⟩
    | (intro c hc
       obtain ⟨a, ha, rfl⟩ := List.mem_map.mp hc
       exact not_isPrefixOf_of_take _ _ 47 rfl)
    | (intro c hc
       rw [List.mem_mapIdx] at hc
       obtain ⟨i, hi, rfl⟩ := hc
       exact not_isPrefixOf_of_take _ _ 47 rfl)
    | (intro c hc
       obtain ⟨sub, hsub, hcin⟩ := List.mem_flatten.mp hc
       rw [List.mem_mapIdx] at hsub
       obtain ⟨i, hi, rfl⟩ := hsub
       (try dsimp only at hcin)
       rw [mem_ite_singleton hcin]
       exact not_isPrefixOf_of_take _ _ 47 rfl)

/-- No line of `toDestructuring` is an import-statement line. -/
theorem toDestructuring_noImport (t : Str) (s : EngineState) :
    ∀ l ∈ (toDestructuring t s).1, isImportLine l = false := by
  unfold toDestructuring
  dsimp only
  refine noImport_of_contents _ _ ?_
  repeat' first
    | exact fun c hc => absurd hc (List.not_mem_nil _)
    | refine List.forall_mem_append.mpr ⟨?_, ?_⟩
    | refine List.forall_mem_cons.mpr ⟨not_isPrefixOf_of_take _ _ 47 rfl, ?_⟩
    | (intro c hc
       obtain ⟨a, ha, rfl⟩ := List.mem_map.mp hc
       exact not_isPrefixOf_of_take _ _ 47 rfl)
    | (intro c hc
       rw [List.mem_mapIdx] at hc
       obtain ⟨i, hi, rfl⟩ := hc
       exact not_isPrefixOf_of_take _ _ 47 rfl)
    | (intro c hc
       obtain ⟨sub, hsub, hcin⟩ := List.mem_flatten.mp hc
       rw [List.mem_mapIdx] at hsub
       obtain ⟨i, hi, rfl⟩ := hsub
       (try dsimp only at hcin)
       rw [mem_ite_singleton hcin]
       exact not_isPrefixOf_of_take _ _ 47 rfl)

/-- No line of `toArrayChain` is an import-statement line. -/
theorem toArrayChain_noImport (t : Str) (s : EngineState) :
    ∀ l ∈ (toArrayChain t s).1, isImportLine l = false := by
  unfold toArrayChain
  dsimp only
  refine noImport_of_contents _ _ ?_
  repeat' first
    | exact fun c hc => absurd hc (List.not_mem_nil _)
    | refine List.forall_mem_append.mpr ⟨?_, ?_⟩
    | refine List.forall_mem_cons.mpr ⟨not_isPrefixOf_of_take _ _ 47 rfl, ?_⟩
    | (intro c hc
       obtain ⟨a, ha, rfl⟩ := List.mem_map.mp hc
       exact not_isPrefixOf_of_take _ _ 47 rfl)
    | (intro c hc
       rw [List.mem_mapIdx] at hc
       obtain ⟨i, hi, rfl⟩ := hc
       exact not_isPrefixOf_of_take _ _ 47 rfl)
    | (intro c hc
       obtain ⟨sub, hsub, hcin⟩ := List.mem_flatten.mp hc
       rw [List.mem_mapIdx] at hsub
       obtain ⟨i, hi, rfl⟩ := hsub
       (try dsimp only at hcin)
       rw [mem_ite_singleton hcin]
       exact not_isPrefixOf_of_take _ _ 47 rfl)

/-- No line of `toOptionalChaining` is an import-statement line. -/
theorem toOptionalChaining_noImport (t : Str) (s : EngineState) :
    ∀ l ∈ (toOptionalChaining t s).1, isImportLine l = false := by
  unfold toOptionalChaining
  dsimp only
  refine noImport_of_contents _ _ ?_
  repeat' first
    | exact fun c hc => absurd hc (List.not_mem_nil _)
    | refine List.forall_mem_append.mpr ⟨?_, ?_⟩
    | refine List.forall_mem_cons.mpr ⟨not_isPrefixOf_of_take _ _ 47 rfl, ?_⟩
    | (intro c hc
       obtain ⟨a, ha, rfl⟩ := List.mem_map.mp hc
       exact not_isPrefixOf_of_take _ _ 47 rfl)
    | (intro c hc
       rw [List.mem_mapIdx] at hc
       obtain ⟨i, hi, rfl⟩ := hc
       exact not_isPrefixOf_of_take _ _ 47 rfl)
    | (intro c hc
       obtain ⟨sub, hsub, hcin⟩ := List.mem_flatten.mp hc
       rw [List.mem_mapIdx] at hsub
       obtain ⟨i, hi, rfl⟩ := hsub
       (try dsimp only at hcin)
       rw [mem_ite_singleton hcin]
       exact not_isPrefixOf_of_take _ _ 47 rfl)

/-- No line of `toNullishCoalescing` is an import-statement line. -/
theorem toNullishCoalescing_noImport (t : Str) (s : EngineState) :
    ∀ l ∈ (toNullishCoalescing t s).1, isImportLine l = false := by
  unfold toNullishCoalescing
  dsimp only
  refine noImport_of_contents _ _ ?_
  repeat' first
    | exact fun c hc => absurd hc (List.not_mem_nil _)
    | refine List.forall_mem_append.mpr ⟨?_, ?_⟩
    | refine List.forall_mem_cons.mpr ⟨not_isPrefixOf_of_take _ _ 47 rfl, ?_⟩
    | (intro c hc
       obtain ⟨a, ha, rfl⟩ := List.mem_map.mp hc
       exact not_isPrefixOf_of_take _ _ 47 rfl)
    | (intro c hc
       rw [List.mem_mapIdx] at hc
       obtain ⟨i, hi, rfl⟩ := hc
       exact not_isPrefixOf_of_take _ _ 47 rfl)
    | (intro c hc
       obtain ⟨sub, hsub, hcin⟩ := List.mem_flatten.mp hc
       rw [List.mem_mapIdx] at hsub
       obtain ⟨i, hi, rfl⟩ := hsub
       (try dsimp only at hcin)
       rw [mem_ite_singleton hcin]
       exact not_isPrefixOf_of_take _ _ 47 rfl)

/-- No line of `createImageElement` is an import-statement line. -/
theorem createImageElement_noImport (t : Str) (s : EngineState) :
    ∀ l ∈ (createImageElement t s).1, isImportLine l = false := by
  unfold createImageElement
  dsimp only
  by_cases hbl : (splitOnPipe t).getD 1 [] ≠ []
  · rw [if_pos hbl]
    refine noImport_of_contents _ _ ?_
    repeat' first
      | exact fun c hc => absurd hc (List.not_mem_nil _)
      | refine List.forall_mem_append.mpr ⟨?_, ?_⟩
      | refine List.forall_mem_cons.mpr ⟨not_isPrefixOf_of_take _ _ 47 rfl, ?_⟩
      | (intro c hc
         obtain ⟨a, ha, rfl⟩ := List.mem_map.mp hc
         exact not_isPrefixOf_of_take _ _ 47 rfl)
      | (intro c hc
         rw [List.mem_mapIdx] at hc
         obtain ⟨i, hi, rfl⟩ := hc
         exact not_isPrefixOf_of_take _ _ 47 rfl)
      | (intro c hc
         obtain ⟨sub, hsub, hcin⟩ := List.mem_flatten.mp hc
         rw [List.mem_mapIdx] at hsub
         obtain ⟨i, hi, rfl⟩ := hsub
         (try dsimp only at hcin)
         rw [mem_ite_singleton hcin]
         exact not_isPrefixOf_of_take _ _ 47 rfl)
  · rw [if_neg hbl]
    refine noImport_of_contents _ _ ?_
    repeat' first
      | exact fun c hc => absurd hc (List.not_mem_nil _)
      | refine List.forall_mem_append.mpr ⟨?_, ?_⟩
      | refine List.forall_mem_cons.mpr ⟨not_isPrefixOf_of_take _ _ 47 rfl, ?_⟩
      | (intro c hc
         obtain ⟨a, ha, rfl⟩ := List.mem_map.mp hc
         exact not_isPrefixOf_of_take _ _ 47 rfl)
      | (intro c hc
         rw [List.mem_mapIdx] at hc
         obtain ⟨i, hi, rfl⟩ := hc
         exact not_isPrefixOf_of_take _ _ 47 rfl)
      | (intro c hc
         obtain ⟨sub, hsub, hcin⟩ := List.mem_flatten.mp hc
         rw [List.mem_mapIdx] at hsub
         obtain ⟨i, hi, rfl⟩ := hsub
         (try dsimp only at hcin)
         rw [mem_ite_singleton hcin]
         exact not_isPrefixOf_of_take _ _ 47 rfl)

/-- `toStringLiteral` does not touch the import flag. -/
theorem toStringLiteral_hasImports (t : Str) (s : EngineState) :
    (toStringLiteral t s).2.hasImports = s.hasImports := by
  unfold toStringLiteral
  dsimp only
  (try split)
  all_goals rw [emitAll_hasImports]
  all_goals (try simp only [genFunc_state])
  all_goals (try rfl)

/-- `toArrayLiteral` does not touch the import flag. -/
theorem toArrayLiteral_hasImports (t : Str) (s : EngineState) :
    (toArrayLiteral t s).2.hasImports = s.hasImports := by
  unfold toArrayLiteral
  dsimp only
  (try split)
  all_goals rw [emitAll_hasImports]
  all_goals (try simp only [genFunc_state])
  all_goals (try rfl)

/-- `toConditional` does not touch the import flag. -/
theorem toConditional_hasImports (t : Str) (s : EngineState) :
    (toConditional t s).2.hasImports = s.hasImports := by
  unfold toConditional
  dsimp only
  (try split)
  all_goals rw [emitAll_hasImports]
  all_goals (try simp only [genFunc_state])
  all_goals (try rfl)

/-- `toMethodDefinition` does not touch the import flag. -/
theorem toMethodDefinition_hasImports (t : Str) (s : EngineState) :
    (toMethodDefinition t s).2.hasImports = s.hasImports := by
  unfold toMethodDefinition
  dsimp only
  by_cases hbl : (breakLines (escapeString t) (SOFT_LINE_LENGTH - 10)).length = 1
  · rw [if_pos hbl, emitAll_hasImports]
    simp only [genFunc_state]
  · rw [if_neg hbl, emitAll_hasImports]
    simp only [genFunc_state]

/-- `toInterfaceDefinition` does not touch the import flag. -/
theorem toInterfaceDefinition_hasImports (t : Str) (s : EngineState) :
    (toInterfaceDefinition t s).2.hasImports = s.hasImports := by
  unfold toInterfaceDefinition
  dsimp only
  (try split)
  all_goals rw [emitAll_hasImports]
  all_goals (try simp only [genFunc_state])
  all_goals (try rfl)

/-- `toClassDefinition` does not touch the import flag. -/
theorem toClassDefinition_hasImports (t : Str) (s : EngineState) :
    (toClassDefinition t s).2.hasImports = s.hasImports := by
  unfold toClassDefinition
  dsimp only
  (try split)
  all_goals rw [emitAll_hasImports]
  all_goals (try simp only [genFunc_state])
  all_goals (try rfl)

/-- `toAsyncFunction` does not touch the import flag. -/
theorem toAsyncFunction_hasImports (t : Str) (s : EngineState) :
    (toAsyncFunction t s).2.hasImports = s.hasImports := by
  unfold toAsyncFunction
  dsimp only
  (try split)
  all_goals rw [emitAll_hasImports]
  all_goals (try simp only [genFunc_state])
  all_goals (try rfl)

/-- `toGenericFunction` does not touch the import flag. -/
theorem toGenericFunction_hasImports (t : Str) (s : EngineState) :
    (toGenericFunction t s).2.hasImports = s.hasImports := by
  unfold toGenericFunction
  dsimp only
  (try split)
  all_goals rw [emitAll_hasImports]
  all_goals (try simp only [genFunc_state])
  all_goals (try rfl)

/-- `toArrowFunction` does not touch the import flag. -/
theorem toArrowFunction_hasImports (t : Str) (s : EngineState) :
    (toArrowFunction t s).2.hasImports = s.hasImports := by
  unfold toArrowFunction
  dsimp only
  by_cases hbl : (breakLines (escapeString t) (SOFT_LINE_LENGTH - 30)).length = 1
  · rw [if_pos hbl, emitAll_hasImports]
  · rw [if_neg hbl, emitAll_hasImports]

/-- `toFunction` does not touch the import flag. -/
theorem toFunction_hasImports (t : Str) (s : EngineState) :
    (toFunction t s).2.hasImports = s.hasImports := by
  unfold toFunction
  dsimp only
  (try split)
  all_goals rw [emitAll_hasImports]
  all_goals (try simp only [genFunc_state])
  all_goals (try rfl)

/-- `toInlineComment` does not touch the import flag. -/
theorem toInlineComment_hasImports (t : Str) (s : EngineState) :
    (toInlineComment t s).2.hasImports = s.hasImports := by
  unfold toInlineComment
  dsimp only
  (try split)
  all_goals rw [emitAll_hasImports]
  all_goals (try simp only [genFunc_state])
  all_goals (try rfl)

/-- `toBlockComment` does not touch the import flag. -/
theorem toBlockComment_hasImports (t : Str) (s : EngineState) :
    (toBlockComment t s).2.hasImports = s.hasImports := by
  unfold toBlockComment
  dsimp only
  (try split)
  all_goals rw [emitAll_hasImports]
  all_goals (try simp only [genFunc_state])
  all_goals (try rfl)

/-- `toJSDoc` does not touch the import flag. -/
theorem toJSDoc_hasImports (t : Str) (s : EngineState) :
    (toJSDoc t s).2.hasImports = s.hasImports := by
  unfold toJSDoc
  dsimp only
  (try split)
  all_goals rw [emitAll_hasImports]
  all_goals (try simp only [genFunc_state])
  all_goals (try rfl)

/-- `toConsoleLog` does not touch the import flag. -/
theorem toConsoleLog_hasImports (t : Str) (s : EngineState) :
    (toConsoleLog t s).2.hasImports = s.hasImports := by
  unfold toConsoleLog
  dsimp only
  (try split)
  all_goals rw [emitAll_hasImports]
  all_goals (try simp only [genFunc_state])
  all_goals (try rfl)

/-- `toConstStatement` does not touch the import flag. -/
theorem toConstStatement_hasImports (t : Str) (s : EngineState) :
    (toConstStatement t s).2.hasImports = s.hasImports := by
  unfold toConstStatement
  dsimp only
  (try split)
  all_goals rw [emitAll_hasImports]
  all_goals (try simp only [genFunc_state])
  all_goals (try rfl)

/-- `toExportStatement` does not touch the import flag. -/
theorem toExportStatement_hasImports (t : Str) (s : EngineState) :
    (toExportStatement t s).2.hasImports = s.hasImports := by
  unfold toExportStatement
  dsimp only
  (try split)
  all_goals rw [emitAll_hasImports]
  all_goals (try simp only [genFunc_state])
  all_goals (try rfl)

/-- `toTypeDefinition` does not touch the import flag. -/
theorem toTypeDefinition_hasImports (t : Str) (s : EngineState) :
    (toTypeDefinition t s).2.hasImports = s.hasImports := by
  unfold toTypeDefinition
  dsimp only
  (try split)
  all_goals rw [emitAll_hasImports]
  all_goals (try simp only [genFunc_state])
  all_goals (try rfl)

/-- `toTypeGuard` does not touch the import flag. -/
theorem toTypeGuard_hasImports (t : Str) (s : EngineState) :
    (toTypeGuard t s).2.hasImports = s.hasImports := by
  unfold toTypeGuard
  dsimp only
  (try split)
  all_goals rw [emitAll_hasImports]
  all_goals (try simp only [genFunc_state])
  all_goals (try rfl)

/-- `toMappedType` does not touch the import flag. -/
theorem toMappedType_hasImports (t : Str) (s : EngineState) :
    (toMappedType t s).2.hasImports = s.hasImports := by
  unfold toMappedType
  dsimp only
  (try split)
  all_goals rw [emitAll_hasImports]
  all_goals (try simp only [genFunc_state])
  all_goals (try rfl)

/-- `toTemplateLiteralType` does not touch the import flag. -/
theorem toTemplateLiteralType_hasImports (t : Str) (s : EngineState) :
    (toTemplateLiteralType t s).2.hasImports = s.hasImports := by
  unfold toTemplateLiteralType
  dsimp only
  (try split)
  all_goals rw [emitAll_hasImports]
  all_goals (try simp only [genFunc_state])
  all_goals (try rfl)

/-- `toNamespace` does not touch the import flag. -/
theorem toNamespace_hasImports (t : Str) (s : EngineState) :
    (toNamespace t s).2.hasImports = s.hasImports := by
  unfold toNamespace
  dsimp only
  (try split)
  all_goals rw [emitAll_hasImports]
  all_goals (try simp only [genFunc_state])
  all_goals (try rfl)

/-- `toDestructuring` does not touch the import flag. -/
theorem toDestructuring_hasImports (t : Str) (s : EngineState) :
    (toDestructuring t s).2.hasImports = s.hasImports := by
  unfold toDestructuring
  dsimp only
  (try split)
  all_goals rw [emitAll_hasImports]
  all_goals (try simp only [genFunc_state])
  all_goals (try rfl)

/-- `toArrayChain` does not touch the import flag. -/
theorem toArrayChain_hasImports (t : Str) (s : EngineState) :
    (toArrayChain t s).2.hasImports = s.hasImports := by
  unfold toArrayChain
  dsimp only
  (try split)
  all_goals rw [emitAll_hasImports]
  all_goals (try simp only [genFunc_state])
  all_goals (try rfl)

/-- `toOptionalChaining` does not touch the import flag. -/
theorem toOptionalChaining_hasImports (t : Str) (s : EngineState) :
    (toOptionalChaining t s).2.hasImports = s.hasImports := by
  unfold toOptionalChaining
  dsimp only
  (try split)
  all_goals rw [emitAll_hasImports]
  all_goals (try simp only [genFunc_state])
  all_goals (try rfl)

/-- `toNullishCoalescing` does not touch the import flag. -/
theorem toNullishCoalescing_hasImports (t : Str) (s : EngineState) :
    (toNullishCoalescing t s).2.hasImports = s.hasImports := by
  unfold toNullishCoalescing
  dsimp only
  (try split)
  all_goals rw [emitAll_hasImports]
  all_goals (try simp only [genFunc_state])
  all_goals (try rfl)

/-- `createImageElement` does not touch the import flag. -/
theorem createImageElement_hasImports (t : Str) (s : EngineState) :
    (createImageElement t s).2.hasImports = s.hasImports := by
  unfold createImageElement
  dsimp only
  (try split)
  all_goals rw [emitAll_hasImports]
  all_goals (try simp only [genFunc_state])
  all_goals (try rfl)

/-- `toImportStatement` does not touch the import flag. -/
theorem toImportStatement_hasImports (t : Str) (s : EngineState) :
    (toImportStatement t s).2.hasImports = s.hasImports := by
  unfold toImportStatement
  dsimp only
  (try split)
  all_goals rw [emitAll_hasImports]
  all_goals (try simp only [genFunc_state])
  all_goals (try rfl)

/-- The single line of `toImportStatement` is an import-statement line. -/
theorem toImportStatement_count (t : Str) (s : EngineState) :
    countImportLines (toImportStatement t s).1 = 1 := by
  unfold toImportStatement
  dsimp only
  unfold countImportLines emitAll
  dsimp only
  rw [List.filter_cons_of_pos]
  · rfl
  · unfold isImportLine
    dsimp only
    exact isPrefixOf_append_left _ _ _
      (isPrefixOf_append_left _ _ _
        (isPrefixOf_append_left _ _ _
          (isPrefixOf_append_left _ _ _ rfl)))

/-- `List.getD` yields a member or the default. -/
theorem getD_mem_or (l : List StructureType) : ∀ (n : Nat) (d x : StructureType),
    l.getD n d = x → x ∈ l ∨ x = d := by
  induction l with
  | nil =>
      intro n d x h
      right
      cases n <;> exact h.symm
  | cons a l ih =>
      intro n d x h
      cases n with
      | zero => left; rw [← h]; exact List.mem_cons_self _ _
      | succ m =>
          rcases ih m d x h with hm | hd
          · left; exact List.mem_cons_of_mem _ hm
          · right; exact hd

/-- The base menu never contains the import kind. -/
theorem lengthMenu_no_import (n : Nat) :
    StructureType.importStmt ∉ lengthMenu n := by
  unfold lengthMenu
  repeat' split
  all_goals decide

/-- Membership in the menu after the import addition. -/
theorem menuWithImport_mem (n : Nat) (s : EngineState) (x : StructureType)
    (h : x ∈ menuWithImport n s) :
    x ∈ lengthMenu n ∨ (x = StructureType.importStmt ∧ s.hasImports = false) := by
  unfold menuWithImport at h
  split at h
  · rename_i hcond
    rcases List.mem_append.mp h with h | h
    · exact Or.inl h
    · exact Or.inr ⟨List.mem_singleton.mp h, hcond.2⟩
  · exact Or.inl h

/-- Membership in the menu after the threshold-ten variety step. -/
theorem menuVariety10_mem (m : List StructureType) (s : EngineState)
    (x : StructureType) (h : x ∈ (menuVariety10 m s).1) :
    x ∈ m ∨ x ∈ [StructureType.typeDefinition, StructureType.mappedType,
      StructureType.templateLiteralType] := by
  unfold menuVariety10 at h
  dsimp only at h
  repeat' split at h
  all_goals first
    | exact Or.inl h
    | exact List.mem_append.mp h

/-- Membership in the menu after the threshold-fifteen variety step. -/
theorem menuVariety15_mem (m : List StructureType) (s : EngineState)
    (x : StructureType) (h : x ∈ (menuVariety15 m s).1) :
    x ∈ m ∨ x = StructureType.exportStmt := by
  unfold menuVariety15 at h
  dsimp only at h
  repeat' split at h
  all_goals first
    | exact Or.inl h
    | exact (List.mem_append.mp h).imp id List.mem_singleton.mp

/-- Once the import flag is set, `selectStructure` can never select
    the import kind again: it is offered only while the flag is down. -/
theorem selectStructure_no_import (n : Nat) (ty : TextType) (s : EngineState)
    (h : s.hasImports = true) :
    (selectStructure n ty s).1 ≠ StructureType.importStmt := by
  unfold selectStructure
  dsimp only
  intro heq
  have havail : StructureType.importStmt ∈ (menuVariety15
      (menuVariety10 (menuWithImport n s) s).1
      (menuVariety10 (menuWithImport n s) s).2).1 → False := by
    intro hm
    rcases menuVariety15_mem _ _ _ hm with hm | hm
    · rcases menuVariety10_mem _ _ _ hm with hm | hm
      · rcases menuWithImport_mem _ _ _ hm with hm | hm
        · exact lengthMenu_no_import _ hm
        · rw [h] at hm
          exact absurd hm.2 (by simp)
      · exact absurd hm (by decide)
    · exact absurd hm (by decide)
  rcases getD_mem_or _ _ _ _ heq with hx | hx
  · split at hx
    · exact havail (List.mem_of_mem_filter hx)
    · exact havail hx
  · exact absurd hx (by decide)

/-- The import flag after `selectStructure`: set exactly when the import
    kind was selected, otherwise unchanged. -/
theorem selectStructure_hasImports_or (n : Nat) (ty : TextType) (s : EngineState) :
    (selectStructure n ty s).2.hasImports
      = if (selectStructure n ty s).1 = StructureType.importStmt then true
        else s.hasImports := by
  show (if (selectStructure n ty s).1 = StructureType.importStmt then true
      else (menuVariety15 (menuVariety10 (menuWithImport n s) s).1
        (menuVariety10 (menuWithImport n s) s).2).2.hasImports)
    = if (selectStructure n ty s).1 = StructureType.importStmt then true
      else s.hasImports
  rw [(menuVariety15_fields _ _).2.1, (menuVariety10_fields _ _).2.1]

theorem importsOk_nil (s : EngineState) : ImportsOk s [] s := by
  unfold ImportsOk countImportLines
  simp

/-- A lone blank output line respects the import budget. -/
theorem blank_importsOk (s : EngineState) :
    ImportsOk s (emitAll [[]] s).1 (emitAll [[]] s).2 := by
  refine importsOk_of_noImport ?_ (emitAll_hasImports _ _)
  intro l h
  have hc := emitAll_content_mem _ _ _ h
  unfold isImportLine
  rw [List.mem_singleton.mp hc]
  decide

/-- `processParagraph` respects the import budget: it emits an import
    line only by spending the one-shot budget. -/
theorem processParagraph_importsOk (t : Str) (s : EngineState) :
    ImportsOk s (processParagraph t s).1 (processParagraph t s).2 := by
  unfold processParagraph
  dsimp only
  split
  · exact importsOk_of_noImport (toStringLiteral_noImport _ _) (toStringLiteral_hasImports _ _)
  · split
    · exact importsOk_of_noImport (toArrayLiteral_noImport _ _) (toArrayLiteral_hasImports _ _)
    · split
      · exact importsOk_of_noImport (toConditional_noImport _ _) (toConditional_hasImports _ _)
      · split
        · rename_i heq
          have hfalse : s.hasImports = false := by
            cases hb : s.hasImports
            · rfl
            · exact absurd heq (selectStructure_no_import _ _ _ hb)
          have hset : (selectStructure (trim t).length TextType.narrative s).2.hasImports
              = true := by
            rw [selectStructure_hasImports_or, heq, if_pos rfl]
          unfold ImportsOk importBudget
          rw [toImportStatement_count, toImportStatement_hasImports, hset, hfalse]
          decide
        · rename_i heq
          refine importsOk_of_noImport (toTypeDefinition_noImport _ _) ?_
          rw [toTypeDefinition_hasImports, selectStructure_hasImports_or, heq]
          simp
        · rename_i heq
          refine importsOk_of_noImport (toInterfaceDefinition_noImport _ _) ?_
          rw [toInterfaceDefinition_hasImports, selectStructure_hasImports_or, heq]
          simp
        · rename_i heq
          refine importsOk_of_noImport (toClassDefinition_noImport _ _) ?_
          rw [toClassDefinition_hasImports, selectStructure_hasImports_or, heq]
          simp
        · rename_i heq
          refine importsOk_of_noImport (toConstStatement_noImport _ _) ?_
          rw [toConstStatement_hasImports, selectStructure_hasImports_or, heq]
          simp
        · rename_i heq
          refine importsOk_of_noImport (toFunction_noImport _ _) ?_
          rw [toFunction_hasImports, selectStructure_hasImports_or, heq]
          simp
        · rename_i heq
          refine importsOk_of_noImport (toAsyncFunction_noImport _ _) ?_
          rw [toAsyncFunction_hasImports, selectStructure_hasImports_or, heq]
          simp
        · rename_i heq
          refine importsOk_of_noImport (toArrowFunction_noImport _ _) ?_
          rw [toArrowFunction_hasImports, selectStructure_hasImports_or, heq]
          simp
        · rename_i heq
          refine importsOk_of_noImport (toGenericFunction_noImport _ _) ?_
          rw [toGenericFunction_hasImports, selectStructure_hasImports_or, heq]
          simp
        · rename_i heq
          refine importsOk_of_noImport (toMethodDefinition_noImport _ _) ?_
          rw [toMethodDefinition_hasImports, selectStructure_hasImports_or, heq]
          simp
        · rename_i heq
          refine importsOk_of_noImport (toJSDoc_noImport _ _) ?_
          rw [toJSDoc_hasImports, selectStructure_hasImports_or, heq]
          simp
        · rename_i heq
          refine importsOk_of_noImport (toBlockComment_noImport _ _) ?_
          rw [toBlockComment_hasImports, selectStructure_hasImports_or, heq]
          simp
        · rename_i heq
          refine importsOk_of_noImport (toInlineComment_noImport _ _) ?_
          rw [toInlineComment_hasImports, selectStructure_hasImports_or, heq]
          simp
        · rename_i heq
          refine importsOk_of_noImport (toConsoleLog_noImport _ _) ?_
          rw [toConsoleLog_hasImports, selectStructure_hasImports_or, heq]
          simp
        · rename_i heq
          refine importsOk_of_noImport (toTypeGuard_noImport _ _) ?_
          rw [toTypeGuard_hasImports, selectStructure_hasImports_or, heq]
          simp
        · rename_i heq
          refine importsOk_of_noImport (toMappedType_noImport _ _) ?_
          rw [toMappedType_hasImports, selectStructure_hasImports_or, heq]
          simp
        · rename_i heq
          refine importsOk_of_noImport (toTemplateLiteralType_noImport _ _) ?_
          rw [toTemplateLiteralType_hasImports, selectStructure_hasImports_or, heq]
          simp
        · rename_i heq
          refine importsOk_of_noImport (toNamespace_noImport _ _) ?_
          rw [toNamespace_hasImports, selectStructure_hasImports_or, heq]
          simp
        · rename_i heq
          refine importsOk_of_noImport (toDestructuring_noImport _ _) ?_
          rw [toDestructuring_hasImports, selectStructure_hasImports_or, heq]
          simp
        · rename_i heq
          refine importsOk_of_noImport (toArrayChain_noImport _ _) ?_
          rw [toArrayChain_hasImports, selectStructure_hasImports_or, heq]
          simp
        · rename_i heq
          refine importsOk_of_noImport (toOptionalChaining_noImport _ _) ?_
          rw [toOptionalChaining_hasImports, selectStructure_hasImports_or, heq]
          simp
        · rename_i heq
          refine importsOk_of_noImport (toNullishCoalescing_noImport _ _) ?_
          rw [toNullishCoalescing_hasImports, selectStructure_hasImports_or, heq]
          simp
        · rename_i heq
          refine importsOk_of_noImport (toExportStatement_noImport _ _) ?_
          rw [toExportStatement_hasImports, selectStructure_hasImports_or, heq]
          simp

/-- `processChunks` respects the import budget. -/
theorem processChunks_importsOk (chunks : List Str) (s : EngineState) :
    ImportsOk s (processChunks chunks s).1 (processChunks chunks s).2 := by
  induction chunks generalizing s with
  | nil => exact importsOk_nil _
  | cons c cs ih =>
      show ImportsOk s
        ((processParagraph c s).1 ++ (processChunks cs (processParagraph c s).2).1)
        (processChunks cs (processParagraph c s).2).2
      exact importsOk_trans (processParagraph_importsOk _ _) (ih _)

/-- `processTextLines` respects the import budget. -/
theorem processTextLines_importsOk (textLines : List Str) (b : Bool) (s : EngineState) :
    ImportsOk s (processTextLines textLines b s).1
      (processTextLines textLines b s).2 := by
  induction textLines generalizing b s with
  | nil => exact importsOk_nil _
  | cons line rest ih =>
      unfold processTextLines
      dsimp only
      split
      · split
        · exact importsOk_trans (blank_importsOk _) (ih _ _)
        · exact importsOk_trans (importsOk_nil _) (ih _ _)
      · split
        · exact importsOk_trans
            (importsOk_trans (processChunks_importsOk _ _) (blank_importsOk _)) (ih _ _)
        · exact importsOk_trans
            (importsOk_trans (processChunks_importsOk _ _) (importsOk_nil _)) (ih _ _)

/-- `processParts` respects the import budget. -/
theorem processParts_importsOk (parts : List Str) (odd : Bool) (s : EngineState) :
    ImportsOk s (processParts parts odd s).1 (processParts parts odd s).2 := by
  induction parts generalizing odd s with
  | nil => exact importsOk_nil _
  | cons part rest ih =>
      unfold processParts
      dsimp only
      split
      · exact importsOk_trans
          (importsOk_trans
            (importsOk_of_noImport (createImageElement_noImport _ _)
              (createImageElement_hasImports _ _))
            (blank_importsOk _)) (ih _ _)
      · split
        · exact importsOk_trans (processTextLines_importsOk _ _ _) (ih _ _)
        · exact importsOk_trans (importsOk_nil _) (ih _ _)

theorem countImportLines_nil : countImportLines [] = 0 := rfl

theorem blank_count (s : EngineState) :
    countImportLines (emitAll [[]] s).1 = 0 :=
  countImportLines_eq_zero (fun l h => by
    have hc := emitAll_content_mem _ _ _ h
    unfold isImportLine
    rw [List.mem_singleton.mp hc]
    decide)

theorem toExportStatement_count0 (t : Str) (s : EngineState) :
    countImportLines (toExportStatement t s).1 = 0 :=
  countImportLines_eq_zero (toExportStatement_noImport t s)

theorem processParts_count_true (parts : List Str) (odd : Bool) (s : EngineState)
    (h : s.hasImports = true) :
    countImportLines (processParts parts odd s).1 = 0 := by
  have hk := processParts_importsOk parts odd s
  unfold ImportsOk importBudget at hk
  rw [h] at hk
  simp only [eq_self_iff_true, if_true] at hk
  omega

set_option maxHeartbeats 1600000 in
/-- A single `transform` call emits at most one import-statement line, for
    every input and state. -/
theorem transform_count_le (text : Str) (s : EngineState) :
    countImportLines (transform text s).1 ≤ 1 := by
  unfold transform
  dsimp only
  generalize (if (splitOnNl text).getD 0 [] = [] then text
    else (splitOnNl text).getD 0 []) = arg0
  by_cases hA : ((nextRand s).1 < mkRat 7 10 ∧ (nextRand s).2.structureCount = 0)
  · rw [if_pos hA]
    dsimp only
    have h0 : countImportLines (processParts (splitImagem text) false
        { (toImportStatement arg0 (nextRand s).2).2 with hasImports := true }).1 = 0 :=
      processParts_count_true _ _ _ rfl
    repeat' split
    all_goals (
      dsimp only
      simp only [countImportLines_append, countImportLines_nil, List.nil_append,
        toImportStatement_count, blank_count, toExportStatement_count0, h0]
      omega)
  · rw [if_neg hA]
    dsimp only
    have h1 : countImportLines
        (processParts (splitImagem text) false (nextRand s).2).1 ≤ 1 := by
      have hk := processParts_importsOk (splitImagem text) false (nextRand s).2
      unfold ImportsOk importBudget at hk
      split at hk
      all_goals split at hk
      all_goals omega
    repeat' split
    all_goals (
      dsimp only
      simp only [countImportLines_append, countImportLines_nil, List.nil_append,
        blank_count, toExportStatement_count0]
      omega)

/-- C6 counterexample: with the low randomness oracle, two consecutive
    `transform` calls within one reset span (the state of the first call
    flows into the second) emit one import-statement line each — two in
    total — because the preamble guard tests `structureCount === 0`, which
    an empty first chapter leaves at zero, rather than the `hasImports`
    flag that the first preamble set. -/
theorem C6_counterexample :
    countImportLines ((transform [] (initState (fun _ => 0))).1
      ++ (transform [] (transform [] (initState (fun _ => 0))).2).1) = 2 := by
  decide

/-- C6: One-shot import (amended) — within a single `transform` call, at
    most one import-statement line is emitted for every input text and
    every randomness oracle, and once the `hasImports` one-shot flag is
    set, `selectStructure` can never pick the import kind again. (The
    original claim fails across calls within one reset span — see the
    counterexample — and the export kind carries no such re-selection
    guard in `selectStructure`.) -/
theorem C6_import_once :
    (∀ (text : Str) (g : Nat → ℚ),
      countImportLines (transform text (initState g)).1 ≤ 1)
    ∧ (∀ (n : Nat) (ty : TextType) (s : EngineState), s.hasImports = true →
        (selectStructure n ty s).1 ≠ StructureType.importStmt) :=
  ⟨fun text g => transform_count_le text (initState g),
   fun n ty s h => selectStructure_no_import n ty s h⟩

/-- C6 witness: the amended theorem at concrete inputs. -/
theorem C6_import_once_witness :
    countImportLines (transform [] (initState (fun _ => 0))).1 ≤ 1
    ∧ (selectStructure 0 TextType.narrative
        { initState (fun _ => 0) with hasImports := true }).1
      ≠ StructureType.importStmt :=
  ⟨C6_import_once.1 [] (fun _ => 0),
   C6_import_once.2 0 TextType.narrative _ rfl⟩

/-- When the text contains no opening bracket, the image split finds no
    marker and returns the accumulated text as one piece. -/
theorem splitImagemAux_no_bracket : ∀ (fuel : Nat) (l acc : Str),
    (∀ c ∈ l, c ≠ '[') → splitImagemAux fuel acc l = [acc.reverse ++ l] := by
  intro fuel
  induction fuel with
  | zero => intro l acc _; rfl
  | succ fuel ih =>
      intro l acc h
      cases l with
      | nil => simp [splitImagemAux]
      | cons c cs =>
          have hc : c ≠ '[' := h c (List.mem_cons_self _ _)
          have hp : imagemMarker.isPrefixOf (c :: cs) = false := by
            have hmk : imagemMarker = '[' :: "IMAGEM:".data := by decide
            rw [hmk]
            have hbe : ('[' == c) = false := by
              cases hb : ('[' == c)
              · rfl
              · exact absurd (eq_of_beq hb).symm hc
            simp [List.isPrefixOf, hbe]
          unfold splitImagemAux
          rw [hp]
          simp only [Bool.false_eq_true, if_false]
          rw [ih cs (c :: acc) (fun d hd => h d (List.mem_cons_of_mem _ hd))]
          simp

/-- A fully trimmed-away text is whitespace throughout. -/
theorem mem_ws_of_trim_eq_nil (l : Str) (h : trim l = []) :
    ∀ c ∈ l, isWs c = true := by
  have h1 : (l.dropWhile isWs).reverse.dropWhile isWs = [] :=
    List.reverse_eq_nil_iff.mp h
  have h2 : ∀ c ∈ (l.dropWhile isWs).reverse, isWs c :=
    fun c hc => List.dropWhile_eq_nil_iff.mp h1 c hc
  have h3 : ∀ c ∈ l.dropWhile isWs, isWs c :=
    fun c hc => h2 c (List.mem_reverse.mpr hc)
  intro c hc
  rw [← List.takeWhile_append_dropWhile isWs l] at hc
  rcases List.mem_append.mp hc with hc | hc
  · exact List.mem_takeWhile_imp hc
  · exact h3 c hc

/-- On a whitespace-only even part, `processParts` emits nothing. -/
theorem processParts_blank (text : Str) (h : trim text = []) (s : EngineState) :
    processParts [text] false s = ([], s) := by
  simp [processParts, h]

/-- C5 counterexample: the empty chapter text still produces output when
    the preamble coin lands below seven tenths — the import preamble does
    not test for emptiness. -/
theorem C5_counterexample :
    (transform [] (initState (fun _ => 0))).1 ≠ [] := by
  decide

/-- C5: Empty input (amended) — a chapter text that trims to nothing
    yields an empty output sequence only when the import-preamble draw
    fails (the first random value is at least seven tenths); for smaller
    draws an import-statement line is emitted even on empty input. -/
theorem C5_empty_input (text : Str) (g : Nat → ℚ) (h : trim text = [])
    (hr : mkRat 7 10 ≤ g 0) : (transform text (initState g)).1 = [] := by
  have hws : ∀ c ∈ text, isWs c = true := mem_ws_of_trim_eq_nil text h
  have hnb : ∀ c ∈ text, c ≠ '[' := by
    intro c hc heq
    have hw := hws c hc
    rw [heq] at hw
    exact absurd hw (by decide)
  have hsplit : splitImagem text = [text] := by
    unfold splitImagem
    rw [splitImagemAux_no_bracket _ _ _ hnb]
    rfl
  unfold transform
  dsimp only
  rw [hsplit]
  have hcond : ¬ ((nextRand (initState g)).1 < mkRat 7 10
      ∧ (nextRand (initState g)).2.structureCount = 0) :=
    fun hcon => absurd hcon.1 (not_lt.mpr hr)
  rw [if_neg hcond]
  rw [processParts_blank text h]
  simp

/-- C5 witness: a single-space chapter with a high oracle produces no
    output lines. -/
theorem C5_empty_input_witness :
    trim [' '] = [] ∧ mkRat 7 10 ≤ mkRat 9 10
    ∧ (transform [' '] (initState (fun _ => mkRat 9 10))).1 = [] :=
  ⟨by decide, by decide,
   C5_empty_input [' '] (fun _ => mkRat 9 10) (by decide) (by decide)⟩

/-- JS `String.prototype.includes`-style substring test. -/
def strContains (hay pat : Str) : Bool :=
  (List.range (hay.length + 1)).any (fun i => pat.isPrefixOf (hay.drop i))

theorem toImportStatement_len (t : Str) (s : EngineState) :
    (toImportStatement t s).1.length = 1 := rfl

/-- The image split of the IMAGEM-marker test input: empty prefix, the
    capture, empty suffix. -/
theorem splitImagem_cat :
    splitImagem ("[IMAGEM:|http://x/y.png|A cat]".data)
      = [[], "|http://x/y.png|A cat".data, []] := by decide

set_option maxRecDepth 16384 in
/-- `processParts` on the split marker parts: a comment line carrying the
    alt text, an image element line carrying the source URL, one blank
    line, at every engine state. -/
theorem processParts_imagem (s : EngineState) :
    ∃ (comment img : Str),
      ((processParts [[], "|http://x/y.png|A cat".data, []] false s).1).map
          CodeLineData.content = [comment, img, []]
      ∧ strContains comment ("A cat".data) = true
      ∧ strContains img ("http://x/y.png".data) = true := by
  refine ⟨"<span class=\"text-cursor-comment\">// 🖼️ A cat</span>".data, "<div class=\"epub-image-container\" style=\"text-align: center; margin: 10px 0; padding: 10px; border: 1px solid #555; border-radius: 4px; background: #2d2d30;\"><img src=\"http://x/y.png\" alt=\"A cat\" style=\"max-width: 100%; height: auto; border-radius: 4px; display: block; object-fit: contain;\" onerror=\"this.style.display='none';\" onload=\"this.parentElement.style.borderColor='#4ec9b0';\" /></div>".data, rfl, by decide, by decide⟩

set_option maxRecDepth 16384 in
/-- C4 counterexample: the spec's marker spelling `[IMAGE:...]` does not
    match the code's image regex (which requires `[IMAGEM:`), so the
    marker text is treated as an ordinary paragraph and no line of the
    output is an image-embedding line. -/
theorem C4_counterexample :
    ((transform ("[IMAGE:|http://x/y.png|A cat]".data)
        (initState (fun _ => mkRat 9 10))).1).all
      (fun l => !(strContains l.content ("<img".data))) = true := by
  decide

set_option maxHeartbeats 1600000 in
/-- C4 (amended): with the code's marker spelling `[IMAGEM:...]`, the
    input `[IMAGEM:|http://x/y.png|A cat]` produces — after an optional
    preamble line — a comment line containing the alt text `A cat`,
    then an image-embedding line referencing `http://x/y.png`, then a
    blank output line, for every randomness oracle. -/
theorem C4_image_marker (g : Nat → ℚ) :
    ∃ (pre : List Str) (comment img : Str),
      ((transform ("[IMAGEM:|http://x/y.png|A cat]".data) (initState g)).1).map
          CodeLineData.content = pre ++ [comment, img, []]
      ∧ strContains comment ("A cat".data) = true
      ∧ strContains img ("http://x/y.png".data) = true := by
  unfold transform
  dsimp only
  rw [splitImagem_cat]
  have harg : (splitOnNl ("[IMAGEM:|http://x/y.png|A cat]".data)).getD 0 []
      = "[IMAGEM:|http://x/y.png|A cat]".data := by decide
  by_cases hg : ((nextRand (initState g)).1 < mkRat 7 10
      ∧ (nextRand (initState g)).2.structureCount = 0)
  · rw [if_pos hg, harg, ite_self]
    dsimp only
    obtain ⟨c, i, hm, hac, hurl⟩ := processParts_imagem
      ({ (toImportStatement ("[IMAGEM:|http://x/y.png|A cat]".data)
            (nextRand (initState g)).2).2 with hasImports := true })
    have hpl : (processParts [[], "|http://x/y.png|A cat".data, []] false
        ({ (toImportStatement ("[IMAGEM:|http://x/y.png|A cat]".data)
            (nextRand (initState g)).2).2 with hasImports := true })).1.length = 3 := by
      have h2 := congrArg List.length hm
      simpa using h2
    split
    · rename_i hl
      exfalso
      rw [List.length_append, toImportStatement_len, hpl] at hl
      norm_num at hl
    · refine ⟨((toImportStatement ("[IMAGEM:|http://x/y.png|A cat]".data)
          (nextRand (initState g)).2).1).map CodeLineData.content, c, i, ?_, hac, hurl⟩
      rw [List.map_append, hm]
  · rw [if_neg hg]
    dsimp only
    obtain ⟨c, i, hm, hac, hurl⟩ := processParts_imagem (nextRand (initState g)).2
    have hpl : (processParts [[], "|http://x/y.png|A cat".data, []] false
        (nextRand (initState g)).2).1.length = 3 := by
      have h2 := congrArg List.length hm
      simpa using h2
    split
    · rename_i hl
      exfalso
      rw [List.nil_append] at hl
      rw [hpl] at hl
      norm_num at hl
    · refine ⟨[], c, i, ?_, hac, hurl⟩
      simp only [List.nil_append]
      exact hm

/-- C7: Classifier precedence — `processParagraph` checks dialogue, then
    list, then question, in that fixed order, the first match winning and
    routing to the corresponding renderer; and the chunk `- Is this true?`
    is dialogue (leading dash) as well as question-shaped, is routed to
    the string-literal renderer by precedence, and is not rendered by the
    conditional renderer. -/
theorem C7_classifier_precedence :
    (∀ (t : Str) (s : EngineState), isDialogue (trim t) = true →
        processParagraph t s = toStringLiteral (trim t) s)
    ∧ (∀ (t : Str) (s : EngineState), isDialogue (trim t) = false →
        isListItem (trim t) = true →
        processParagraph t s = toArrayLiteral (trim t) s)
    ∧ (∀ (t : Str) (s : EngineState), isDialogue (trim t) = false →
        isListItem (trim t) = false → isQuestion (trim t) = true →
        processParagraph t s = toConditional (trim t) s)
    ∧ isDialogue (trim ("- Is this true?".data)) = true
    ∧ isQuestion (trim ("- Is this true?".data)) = true
    ∧ (∀ s : EngineState,
        processParagraph ("- Is this true?".data) s
          = toStringLiteral (trim ("- Is this true?".data)) s
        ∧ processParagraph ("- Is this true?".data) s
          ≠ toConditional (trim ("- Is this true?".data)) s) := by
  have hdl : ∀ (t : Str) (s : EngineState), isDialogue (trim t) = true →
      processParagraph t s = toStringLiteral (trim t) s := by
    intro t s h
    unfold processParagraph
    dsimp only
    rw [h]
    rfl
  have hli : ∀ (t : Str) (s : EngineState), isDialogue (trim t) = false →
      isListItem (trim t) = true →
      processParagraph t s = toArrayLiteral (trim t) s := by
    intro t s h1 h2
    unfold processParagraph
    dsimp only
    rw [h1, h2]
    rfl
  have hqu : ∀ (t : Str) (s : EngineState), isDialogue (trim t) = false →
      isListItem (trim t) = false → isQuestion (trim t) = true →
      processParagraph t s = toConditional (trim t) s := by
    intro t s h1 h2 h3
    unfold processParagraph
    dsimp only
    rw [h1, h2, h3]
    rfl
  refine ⟨hdl, hli, hqu, by decide, by decide, fun s => ⟨hdl _ _ (by decide), ?_⟩⟩
  intro heq
  have hlen := congrArg (fun p => (p.1).length) heq
  rw [hdl _ _ (by decide)] at hlen
  have h1 : (toStringLiteral (trim ("- Is this true?".data)) s).1.length = 1 := rfl
  have h3 : (toConditional (trim ("- Is this true?".data)) s).1.length = 3 := rfl
  dsimp only at hlen
  rw [h1, h3] at hlen
  exact absurd hlen (by norm_num)

/-- C7 witness: one concrete chunk per classifier class. -/
theorem C7_classifier_precedence_witness :
    processParagraph ("- a".data) (initState (fun _ => 0))
      = toStringLiteral (trim ("- a".data)) (initState (fun _ => 0))
    ∧ processParagraph ("1. a".data) (initState (fun _ => 0))
      = toArrayLiteral (trim ("1. a".data)) (initState (fun _ => 0))
    ∧ processParagraph ("Why?".data) (initState (fun _ => 0))
      = toConditional (trim ("Why?".data)) (initState (fun _ => 0)) :=
  ⟨C7_classifier_precedence.1 _ _ (by decide),
   C7_classifier_precedence.2.1 _ _ (by decide) (by decide),
   C7_classifier_precedence.2.2.1 _ _ (by decide) (by decide) (by decide)⟩

/-- Every piece emitted by the `breakLines` loop fits the width, for any
    positive width and sufficient fuel. -/
theorem blLoop_length_le : ∀ (fuel maxLength : Nat) (remaining : Str),
    1 ≤ maxLength → remaining.length ≤ fuel + maxLength →
    ∀ l ∈ blLoop fuel maxLength remaining, l.length ≤ maxLength := by
  intro fuel
  induction fuel with
  | zero =>
      intro maxLength remaining hW hf l hl
      rw [List.mem_singleton.mp hl]
      omega
  | succ fuel ih =>
      intro maxLength remaining hW hf l hl
      simp only [blLoop] at hl
      split at hl
      · exact absurd hl (List.not_mem_nil _)
      · split at hl
        · rename_i hle
          rw [List.mem_singleton.mp hl]
          exact hle
        · rename_i hgt
          rcases List.mem_cons.mp hl with rfl | hl
          · have ht := trim_length_le (remaining.take (chooseBreakPoint remaining maxLength))
            have htk : (remaining.take (chooseBreakPoint remaining maxLength)).length
                ≤ chooseBreakPoint remaining maxLength := by
              simp [List.length_take]
            have hcb := chooseBreakPoint_le remaining maxLength
            omega
          · refine ih maxLength _ hW ?_ l hl
            have hbp := chooseBreakPoint_pos remaining maxLength hW
            have ht := trim_length_le
              (remaining.drop (chooseBreakPoint remaining maxLength))
            simp only [List.length_drop] at ht
            omega

/-- C8 counterexample: the wrapper is not a join-inverse — an unbroken
    twelve-character word is cut mid-word at width ten, so rejoining the
    pieces with single spaces inserts a space the input never had. -/
theorem C8_counterexample :
    joinWith (" ".data) (breakLines ("aaaaaaaaaaaa".data) 10)
      ≠ "aaaaaaaaaaaa".data := by
  decide

/-- C8 (amended): for every string and every width of at least ten, every
    element of `breakLines` fits the width — even a single unbreakable
    word is cut mid-word rather than emitted overlong; but joining the
    pieces with single spaces does not reproduce the input in general. -/
theorem C8_wrapper_bound (S : Str) (W : Nat) (hW : 10 ≤ W) :
    ∀ l ∈ breakLines S W, l.length ≤ W := by
  intro l hl
  unfold breakLines at hl
  split at hl
  · rename_i h
    rw [List.mem_singleton.mp hl]
    exact h
  · exact blLoop_length_le S.length W S (by omega) (by omega) l hl

/-- C8 witness: the first wrapped piece of the counterexample input fits
    the width. -/
theorem C8_wrapper_bound_witness :
    List.length ((breakLines ("aaaaaaaaaaaa".data) 10).headD []) ≤ 10 :=
  C8_wrapper_bound ("aaaaaaaaaaaa".data) 10 (by norm_num) _ (by decide)

/-- C10: Termination of the line wrapper — whenever the `breakLines` loop
    body runs (the remaining text is longer than a positive width), the
    chosen break point is at least one, so the next remaining text is
    strictly shorter; hence the loop terminates. -/
theorem C10_termination (remaining : Str) (maxLength : Nat) (h1 : 1 ≤ maxLength)
    (h2 : maxLength < remaining.length) :
    1 ≤ chooseBreakPoint remaining maxLength
    ∧ (trim (remaining.drop (chooseBreakPoint remaining maxLength))).length
        < remaining.length := by
  have hp := chooseBreakPoint_pos remaining maxLength h1
  refine ⟨hp, ?_⟩
  have ht := trim_length_le (remaining.drop (chooseBreakPoint remaining maxLength))
  simp only [List.length_drop] at ht
  omega

/-- C10 witness: one loop step on a concrete overlong input. -/
theorem C10_termination_witness :
    1 ≤ chooseBreakPoint ("abc".data) 1
    ∧ (trim (("abc".data).drop (chooseBreakPoint ("abc".data) 1))).length
        < ("abc".data).length :=
  C10_termination ("abc".data) 1 (by norm_num) (by decide)

/-- Dropping only empty strings does not change the total length. -/
theorem sum_length_filter_pos (ls : List Str) :
    (((ls.filter (fun c => c.length > 0)).map List.length).sum)
      = ((ls.map List.length).sum) := by
  induction ls with
  | nil => rfl
  | cons c cs ih =>
      by_cases h : c.length > 0
      · rw [List.filter_cons_of_pos (by simpa using h)]
        simp only [List.map_cons, List.sum_cons, ih]
      · rw [List.filter_cons_of_neg (by simpa using h)]
        simp only [List.map_cons, List.sum_cons, ih]
        omega

set_option maxRecDepth 16384 in
/-- C9 counterexample: a long paragraph padded with trailing whitespace.
    The segmenter's ninety-percent check compares against the trimmed
    length, so the returned chunks carry less than nine tenths of the raw
    paragraph length and no single-chunk fallback fires. -/
theorem C9_counterexample :
    300 < ("aaaaaaaaaaaaaaaaaaaaaaaaaaaaaaaaaaaaaaaaaaaaaaaaa.aaaaaaaaaaaaaaaaaaaaaaaaaaaaaaaaaaaaaaaaaaaaaaaaa.aaaaaaaaaaaaaaaaaaaaaaaaaaaaaaaaaaaaaaaaaaaaaaaaa.aaaaaaaaaaaaaaaaaaaaaaaaaaaaaaaaaaaaaaaaaaaaaaaaa.aaaaaaaaaaaaaaaaaaaaaaaaaaaaaaaaaaaaaaaaaaaaaaaaa.aaaaaaaaaaaaaaaaaaaaaaaaaaaaaaaaaaaaaaaaaaaaaaaaa.                                                            ".data).length
    ∧ 10 * (((splitParagraphIntoCodeBlocks ("aaaaaaaaaaaaaaaaaaaaaaaaaaaaaaaaaaaaaaaaaaaaaaaaa.aaaaaaaaaaaaaaaaaaaaaaaaaaaaaaaaaaaaaaaaaaaaaaaaa.aaaaaaaaaaaaaaaaaaaaaaaaaaaaaaaaaaaaaaaaaaaaaaaaa.aaaaaaaaaaaaaaaaaaaaaaaaaaaaaaaaaaaaaaaaaaaaaaaaa.aaaaaaaaaaaaaaaaaaaaaaaaaaaaaaaaaaaaaaaaaaaaaaaaa.aaaaaaaaaaaaaaaaaaaaaaaaaaaaaaaaaaaaaaaaaaaaaaaaa.                                                            ".data)).map List.length).sum)
        < 9 * ("aaaaaaaaaaaaaaaaaaaaaaaaaaaaaaaaaaaaaaaaaaaaaaaaa.aaaaaaaaaaaaaaaaaaaaaaaaaaaaaaaaaaaaaaaaaaaaaaaaa.aaaaaaaaaaaaaaaaaaaaaaaaaaaaaaaaaaaaaaaaaaaaaaaaa.aaaaaaaaaaaaaaaaaaaaaaaaaaaaaaaaaaaaaaaaaaaaaaaaa.aaaaaaaaaaaaaaaaaaaaaaaaaaaaaaaaaaaaaaaaaaaaaaaaa.aaaaaaaaaaaaaaaaaaaaaaaaaaaaaaaaaaaaaaaaaaaaaaaaa.                                                            ".data).length := by
  decide

/-- C9 (amended): for every paragraph longer than 300 characters, the
    chunks returned by the segmenter carry at least nine tenths of the
    TRIMMED paragraph length (the code checks `total < trimmed.length *
    0.9` and falls back to the single chunk `[trimmed]` on violation);
    the reconstruction bound relative to the raw paragraph length fails
    on whitespace-padded input. -/
theorem C9_segmenter_reconstruction (P : Str) (h : 300 < P.length) :
    9 * (trim P).length
      ≤ 10 * (((splitParagraphIntoCodeBlocks P).map List.length).sum) := by
  unfold splitParagraphIntoCodeBlocks
  dsimp only
  rw [if_neg (by omega)]
  split_ifs
  all_goals first
    | (simp only [List.map_cons, List.map_nil, List.sum_cons, List.sum_nil]
       omega)
    | (rw [sum_length_filter_pos]
       omega)

set_option maxRecDepth 16384 in
/-- C9 witness: the amended bound on the counterexample paragraph. -/
theorem C9_segmenter_reconstruction_witness :
    9 * (trim ("aaaaaaaaaaaaaaaaaaaaaaaaaaaaaaaaaaaaaaaaaaaaaaaaa.aaaaaaaaaaaaaaaaaaaaaaaaaaaaaaaaaaaaaaaaaaaaaaaaa.aaaaaaaaaaaaaaaaaaaaaaaaaaaaaaaaaaaaaaaaaaaaaaaaa.aaaaaaaaaaaaaaaaaaaaaaaaaaaaaaaaaaaaaaaaaaaaaaaaa.aaaaaaaaaaaaaaaaaaaaaaaaaaaaaaaaaaaaaaaaaaaaaaaaa.aaaaaaaaaaaaaaaaaaaaaaaaaaaaaaaaaaaaaaaaaaaaaaaaa.                                                            ".data)).length
      ≤ 10 * (((splitParagraphIntoCodeBlocks ("aaaaaaaaaaaaaaaaaaaaaaaaaaaaaaaaaaaaaaaaaaaaaaaaa.aaaaaaaaaaaaaaaaaaaaaaaaaaaaaaaaaaaaaaaaaaaaaaaaa.aaaaaaaaaaaaaaaaaaaaaaaaaaaaaaaaaaaaaaaaaaaaaaaaa.aaaaaaaaaaaaaaaaaaaaaaaaaaaaaaaaaaaaaaaaaaaaaaaaa.aaaaaaaaaaaaaaaaaaaaaaaaaaaaaaaaaaaaaaaaaaaaaaaaa.aaaaaaaaaaaaaaaaaaaaaaaaaaaaaaaaaaaaaaaaaaaaaaaaa.                                                            ".data)).map List.length).sum) :=
  C9_segmenter_reconstruction ("aaaaaaaaaaaaaaaaaaaaaaaaaaaaaaaaaaaaaaaaaaaaaaaaa.aaaaaaaaaaaaaaaaaaaaaaaaaaaaaaaaaaaaaaaaaaaaaaaaa.aaaaaaaaaaaaaaaaaaaaaaaaaaaaaaaaaaaaaaaaaaaaaaaaa.aaaaaaaaaaaaaaaaaaaaaaaaaaaaaaaaaaaaaaaaaaaaaaaaa.aaaaaaaaaaaaaaaaaaaaaaaaaaaaaaaaaaaaaaaaaaaaaaaaa.aaaaaaaaaaaaaaaaaaaaaaaaaaaaaaaaaaaaaaaaaaaaaaaaa.                                                            ".data) (by decide)

/-- The maximal runs of non-whitespace characters of a text, as the
    claim's vocabulary: the non-empty pieces of the whitespace split. -/
def nonWsRuns (t : Str) : List Str := (splitWsPlus t).filter (fun r => r ≠ [])

/-- Concatenating the emitted lines' contents gives back the emitted
    content list, concatenated. -/
theorem flatten_emitAll (cs : List Str) (s : EngineState) :
    (((emitAll cs s).1).map CodeLineData.content).flatten = cs.flatten := by
  induction cs generalizing s with
  | nil => rfl
  | cons a as ih =>
      show ((⟨s.lineNumber, a⟩ :: (emitAll as { s with lineNumber := s.lineNumber + 1 }).1).map
          CodeLineData.content).flatten = (a :: as).flatten
      simp only [List.map_cons, List.flatten_cons, ih]

set_option maxRecDepth 16384 in
/-- C1 counterexample: in the list chunk `1. aa, bb, cc, dd` the run `dd`
    vanishes from the whole output — the list renderer keeps only the
    first three items (`items.slice(0, 3)`). -/
theorem C1_counterexample :
    ("dd".data ∈ nonWsRuns ("1. aa, bb, cc, dd".data))
    ∧ strContains ((((transform ("1. aa, bb, cc, dd".data)
          (initState (fun _ => mkRat 9 10))).1).map CodeLineData.content).flatten)
        (escapeString ("dd".data)) = false := by
  constructor
  · decide
  · decide

/-- C1 (amended): content preservation does not hold for all chunks (the
    list renderer caps at three items); it does hold on the dialogue
    route: for every chunk classified as dialogue whose escaped text fits
    one wrapped line, the full escaped chunk text occurs contiguously in
    the concatenated output contents of `processParagraph`, at every
    engine state and hence for every sequence of random choices. -/
theorem C1_content_preservation (t : Str) (s : EngineState)
    (hd : isDialogue (trim t) = true)
    (hl : (escapeString (trim t)).length ≤ 60) :
    List.IsInfix (escapeString (trim t))
      ((((processParagraph t s).1).map CodeLineData.content).flatten) := by
  have hroute : processParagraph t s = toStringLiteral (trim t) s := by
    unfold processParagraph
    dsimp only
    rw [hd]
    rfl
  rw [hroute]
  unfold toStringLiteral
  dsimp only
  have hbl : breakLines (escapeString (trim t)) (SOFT_LINE_LENGTH - 20)
      = [escapeString (trim t)] := by
    unfold breakLines
    rw [if_pos (by unfold SOFT_LINE_LENGTH; omega)]
  rw [hbl]
  rw [if_pos (by simp)]
  rw [flatten_emitAll]
  simp only [List.flatten_cons, List.flatten_nil, List.append_nil]
  exact List.infix_append _ _ _

/-- C1 witness: the amended preservation at a concrete dialogue chunk. -/
theorem C1_content_preservation_witness :
    List.IsInfix (escapeString (trim ("- a".data)))
      ((((processParagraph ("- a".data) (initState (fun _ => 0))).1).map
          CodeLineData.content).flatten) :=
  C1_content_preservation ("- a".data) (initState (fun _ => 0))
    (by decide) (by decide)

end Codeifier
